import Mathlib

/-!
# Movement and collision core of `p_map.c` (with `p_floor.c`)

A shallow embedding of the move transaction (`tm`), the position probe
`P_CheckPosition`, the incremental mover `increment_move` / `P_TryMove`, the slide
and bounce resolvers, the actor-against-actor callback `PIT_CheckThing` and the sector
revalidation `P_CheckSector`, followed by theorems about them.

Conventions of the embedding.

* `fixed_t` (16.16 fixed point), `INT32` and `angle_t` values are integers (`Int`); `size_t` counters are
  naturals; arithmetic is exact except where a definition applies `wrap32` or `%`
  explicitly.
* Pointers to actors are indices into the actor store `State.mo`; pointers to lines
  are line indices (`ld - lines`); `NULL` is `none`.
* Globals of `p_map.c` (`tm`, `spechit`, `spechitint`, `numspechitint`, `stand`,
  `nofit`, `crushchange`) are fields of `State`.
* Functions, macros and tables that `p_map.c` uses but does not define are fields
  of `World`.
-/

set_option autoImplicit false

namespace RingRacers

/-! ## Machine arithmetic -/

/-- The constant `FRACBITS`. -/
def FRACBITS : Nat := 16

/-- The constant `FRACUNIT`, the fixed-point representation of one. -/
def FRACUNIT : Int := 65536

/-- Two's-complement reinterpretation of an integer as an `INT32`. -/
def wrap32 (v : Int) : Int := (v + 2147483648) % 4294967296 - 2147483648

/-- The constant `INT32_MAX`. -/
def INT32_MAX : Int := 2147483647

/-- The constant `INT32_MIN`. -/
def INT32_MIN : Int := -2147483648

/-- C's `abs` on an `int`: the negation is an `int` again, so that `abs(INT32_MIN)` is
`INT32_MIN`. -/
def cabs (v : Int) : Int := if v < 0 then wrap32 (-v) else v

/-- C's integer division, which truncates toward zero. -/
def cdiv (a b : Int) : Int := Int.tdiv a b

/-- C's arithmetic right shift `v >> k` of a signed value. -/
def sar (v : Int) (k : Nat) : Int := v / (2 ^ k : Int)

/-- Modelled from the spec: the fixed-point multiply of the "fixed-point arithmetic
and geometry primitives" (`FixedMul` is declared outside the sources): the full
product shifted right by `FRACBITS`. -/
def FixedMul (a b : Int) : Int := sar (a * b) FRACBITS

/-- The test `(flags & mask) != 0`. -/
def hasFlag (flags mask : Nat) : Bool := flags &&& mask != 0

/-! ## Flag masks

The masks are declared in headers that are not part of the sources.  Each is a
single bit; the positions below follow the upstream headers. -/

def MF_SPECIAL : Nat := 2 ^ 0
def MF_SOLID : Nat := 2 ^ 1
def MF_SHOOTABLE : Nat := 2 ^ 2
def MF_NOBLOCKMAP : Nat := 2 ^ 4
def MF_PAPERCOLLISION : Nat := 2 ^ 5
def MF_PUSHABLE : Nat := 2 ^ 6
def MF_BOSS : Nat := 2 ^ 7
def MF_NOGRAVITY : Nat := 2 ^ 9
def MF_NOCLIP : Nat := 2 ^ 12
def MF_FLOAT : Nat := 2 ^ 13
def MF_MISSILE : Nat := 2 ^ 15
def MF_SPRING : Nat := 2 ^ 16
def MF_MONITOR : Nat := 2 ^ 18
def MF_NOCLIPHEIGHT : Nat := 2 ^ 20
def MF_ENEMY : Nat := 2 ^ 21
def MF_PAIN : Nat := 2 ^ 23
def MF_NOCLIPTHING : Nat := 2 ^ 26
def MF_GRENADEBOUNCE : Nat := 2 ^ 27

def MFE_ONGROUND : Nat := 2 ^ 0
def MFE_VERTICALFLIP : Nat := 2 ^ 5
def MFE_APPLYPMOMZ : Nat := 2 ^ 9
def MFE_JUSTSTEPPEDDOWN : Nat := 2 ^ 6
def MFE_JUSTBOUNCEDWALL : Nat := 2 ^ 12

def FOF_EXISTS : Nat := 2 ^ 0
def FOF_BLOCKPLAYER : Nat := 2 ^ 1
def FOF_BLOCKOTHERS : Nat := 2 ^ 2
def FOF_SOLID : Nat := FOF_BLOCKPLAYER ||| FOF_BLOCKOTHERS
def FOF_SWIMMABLE : Nat := 2 ^ 5
def FOF_QUICKSAND : Nat := 2 ^ 17
def FOF_PLATFORM : Nat := 2 ^ 18
def FOF_REVERSEPLATFORM : Nat := 2 ^ 19
def FOF_GOOWATER : Nat := 2 ^ 21

def POF_CLIPPLANES : Nat := 2 ^ 1
def POF_SOLID : Nat := 2 ^ 0

def ML_IMPASSABLE : Nat := 2 ^ 0
def ML_BLOCKMONSTERS : Nat := 2 ^ 1
def ML_BLOCKPLAYERS : Nat := 2 ^ 14
def ML_NOTBOUNCY : Nat := 2 ^ 12

def SSF_DOUBLESTEPUP : Nat := 2 ^ 2
def SSF_NOSTEPUP : Nat := 2 ^ 1
def SSF_NOSTEPDOWN : Nat := 2 ^ 3

/-- The actor kind `MT_SKIM` (an index into the actor-kind table, which is not part
of the sources). -/
def MT_SKIM : Nat := 1

/-- The actor kinds `MT_STEAM`, `MT_SPIKE` and `MT_WALLSPIKE` of the same table. -/
def MT_STEAM : Nat := 2
def MT_SPIKE : Nat := 3
def MT_WALLSPIKE : Nat := 4

/-- The kinds that `P_BounceMove` tells apart. -/
def MT_SHELL : Nat := 5
def MT_THROWNBOUNCE : Nat := 6
def MT_THROWNGRENADE : Nat := 7

/-- The kinds named by the reflect dispatch of `PIT_CheckThing`. -/
def MT_PLAYER : Nat := 8
def MT_BUBBLESHIELD : Nat := 9
def MT_ORBINAUT : Nat := 10
def MT_JAWZ : Nat := 11
def MT_BANANA : Nat := 12
def MT_EGGMANITEM : Nat := 13
def MT_BALLHOG : Nat := 14
def MT_SSMINE : Nat := 15
def MT_LANDMINE : Nat := 16
def MT_SINK : Nat := 17
def MT_GARDENTOP : Nat := 18
def MT_DROPTARGET : Nat := 19
def MT_DROPTARGET_SHIELD : Nat := 20

/-- The values of `slopetype_t`, in the order of the enumeration. -/
def ST_HORIZONTAL : Nat := 0
def ST_VERTICAL : Nat := 1
def ST_POSITIVE : Nat := 2
def ST_NEGATIVE : Nat := 3

/-- The sector damage type `SD_LAVA`. -/
def SD_LAVA : Nat := 2

/-! ## Data model -/

/-- A 3D-floor slab, `ffloor_t`. -/
structure ffloor_t where
  id : Nat := 0
  fofflags : Nat := 0
  topheight : Int := 0
  bottomheight : Int := 0
  t_slope : Option Nat := none
  b_slope : Option Nat := none
  toppic : Int := 0
  bottompic : Int := 0
  /-- The damage type `master->frontsector->damagetype` of the control sector. -/
  master_damagetype : Nat := 0
deriving DecidableEq, Inhabited

/-- A sector, `sector_t`. -/
structure sector_t where
  floorheight : Int := 0
  ceilingheight : Int := 0
  ffloors : List ffloor_t := []
  f_slope : Option Nat := none
  c_slope : Option Nat := none
  floorpic : Int := 0
  ceilingpic : Int := 0
  specialflags : Nat := 0
  /-- The indices `attached[i]` of the attached sectors. -/
  attached : List Nat := []
  /-- The marks `attachedsolid[i]`. -/
  attachedsolid : List Bool := []
  /-- The actors `n->m_thing` of the nodes of `touching_thinglist`, in list order. -/
  touching_thinglist : List Nat := []
deriving DecidableEq, Inhabited

/-- A polyobject, `polyobj_t`, with the planes of its control sector
(`po->lines[0]->backsector`). -/
structure polyobj_t where
  id : Nat := 0
  flags : Nat := 0
  polysec_floorheight : Int := 0
  polysec_ceilingheight : Int := 0
  polysec_floorpic : Int := 0
  polysec_ceilingpic : Int := 0
deriving DecidableEq, Inhabited

/-- A bounding box, indexed in C by `BOXTOP`, `BOXBOTTOM`, `BOXLEFT`, `BOXRIGHT`. -/
structure bbox_t where
  top : Int := 0
  bottom : Int := 0
  left : Int := 0
  right : Int := 0
deriving DecidableEq, Inhabited

/-- A line, `line_t`; `idx` is its index `ld - lines`. -/
structure line_t where
  idx : Nat := 0
  flags : Nat := 0
  special : Int := 0
  tripwire : Bool := false
  hasBacksector : Bool := true
  polyobj : Option polyobj_t := none
  bbox : bbox_t := {}
  angle : Int := 0
  /-- The index of `ld->frontsector`. -/
  frontsector : Nat := 0
  /-- The index of `ld->backsector`, where the line has one. -/
  backsector : Nat := 0
  /-- The entry `sidenum[1]`: `0xffff` where the line has no second side. -/
  sidenum1 : Nat := 0
  slopetype : Nat := 0
  /-- The vertices `v1` and `v2`. -/
  v1x : Int := 0
  v1y : Int := 0
  v2x : Int := 0
  v2y : Int := 0
  dx : Int := 0
  dy : Int := 0
deriving DecidableEq, Inhabited

/-- The part of `player_t` that the movement code reads. -/
structure player_t where
  spectator : Bool := false
  rmomx : Int := 0
  rmomy : Int := 0
  cmomx : Int := 0
  cmomy : Int := 0
  bubbleblowup : Nat := 0
deriving DecidableEq, Inhabited

/-- An actor, `mobj_t`. -/
structure mobj_t where
  type : Nat := 0
  x : Int := 0
  y : Int := 0
  z : Int := 0
  old_x : Int := 0
  old_y : Int := 0
  old_z : Int := 0
  momx : Int := 0
  momy : Int := 0
  momz : Int := 0
  pmomz : Int := 0
  radius : Int := 0
  height : Int := 0
  scale : Int := FRACUNIT
  info_height : Int := 0
  angle : Int := 0
  flags : Nat := 0
  eflags : Nat := 0
  floorz : Int := 0
  ceilingz : Int := 0
  floorrover : Option ffloor_t := none
  ceilingrover : Option ffloor_t := none
  floordrop : Int := 0
  ceilingdrop : Int := 0
  standingslope : Option Nat := none
  player : Option player_t := none
  waterskip : Int := 0
  sector : Nat := 0
  removed : Bool := false
  hitlag : Int := 0
  /-- The flags `thing->info->flags` of the actor's kind. -/
  info_flags : Nat := 0
  target : Option Nat := none
deriving DecidableEq, Inhabited

/-- The move transaction record, `tm_t`. -/
structure tm_t where
  thing : Option Nat := none
  flags : Nat := 0
  x : Int := 0
  y : Int := 0
  bbox : bbox_t := {}
  floatok : Bool := false
  floorz : Int := 0
  ceilingz : Int := 0
  dropoffz : Int := 0
  drpoffceilz : Int := 0
  floorstep : Int := 0
  ceilingstep : Int := 0
  floorrover : Option ffloor_t := none
  ceilingrover : Option ffloor_t := none
  floorslope : Option Nat := none
  ceilingslope : Option Nat := none
  floorpic : Int := 0
  ceilingpic : Int := 0
  floorthing : Option Nat := none
  hitthing : Option Nat := none
  blockingline : Option Nat := none
  ceilingline : Option Nat := none
deriving DecidableEq, Inhabited

/-- The caller's result record, `TryMoveResult_t`. -/
structure TryMoveResult_t where
  success : Bool := false
  line : Option Nat := none
  mo : Option Nat := none
deriving DecidableEq, Inhabited

/-- What `P_LineOpening` leaves in the `open*` globals. -/
structure opening_t where
  opentop : Int := 0
  openbottom : Int := 0
  lowfloor : Int := 0
  highceiling : Int := 0
  openfloorrover : Option ffloor_t := none
  openceilingrover : Option ffloor_t := none
  opentopslope : Option Nat := none
  openbottomslope : Option Nat := none
  opentoppic : Int := 0
  openbottompic : Int := 0
  openceilingstep : Int := 0
  openceilingdrop : Int := 0
  openfloorstep : Int := 0
  openfloordrop : Int := 0
deriving DecidableEq, Inhabited

/-- The verdict of the actor-versus-actor scan of one probe (the nested loops over
`P_BlockThingsIterator(bx, by, PIT_CheckThing)`): whether some cell was aborted,
whether the mover itself was removed, and the surfaces and actors it leaves in `tm`. -/
structure thingscan_t where
  blocked : Bool := false
  removed : Bool := false
  floorz : Int := 0
  ceilingz : Int := 0
  floorrover : Option ffloor_t := none
  ceilingrover : Option ffloor_t := none
  floorslope : Option Nat := none
  ceilingslope : Option Nat := none
  floorpic : Int := 0
  ceilingpic : Int := 0
  floorthing : Option Nat := none
  hitthing : Option Nat := none
deriving DecidableEq, Inhabited

/-- The iterator verdict `BlockItReturn_t`. -/
inductive BlockItReturn_t where
  | BMIT_CONTINUE
  | BMIT_STOP
  | BMIT_ABORT
deriving DecidableEq, Inhabited

/-- A call of `P_DamageMobj(target, inflictor, source, 1, damagetype)`. -/
structure damage_t where
  target : Nat
  source : Option Nat := none
  damagetype : Nat := 0
deriving DecidableEq, Inhabited

/-- A call of `P_CrossSpecialLine(ld, oldside, thing)`. -/
structure crossing_t where
  line : Nat
  oldside : Int
  thing : Nat
deriving DecidableEq, Inhabited

/-- The damage kinds used by the sector revalidation. -/
def DMG_NORMAL : Nat := 0
def DMG_CRUSHED : Nat := 1
def DMG_SPECTATOR : Nat := 2

/-- The shift `ANGLETOFINESHIFT` from an `angle_t` to an index of the fine tables. -/
def ANGLETOFINESHIFT : Nat := 19

def ANGLE_90 : Int := 1073741824
def ANGLE_180 : Int := 2147483648

/-- The angle `ANGLE_270`. -/
def ANGLE_270 : Int := 3221225472

/-- Arithmetic on `angle_t` is modulo 2^32. -/
def wrapAngle (a : Int) : Int := a % 4294967296

/-- Everything the movement code reads but `p_map.c` does not define: the map, the
spatial index, and the helper routines of other translation units. -/
structure World where
  /-- The global `mapobjectscale`. -/
  mapobjectscale : Int := FRACUNIT
  /-- The constant `MAXSTEPMOVE`. -/
  MAXSTEPMOVE : Int := 24 * FRACUNIT
  /-- The largest `size_t`. -/
  SIZE_MAX : Nat := 2 ^ 64 - 1
  /-- The global `netgame`. -/
  netgame : Bool := false
  /-- The array `sectors`. -/
  sectors : Nat → sector_t := fun _ => {}
  /-- The array `lines`. -/
  lines : Nat → line_t := fun i => { idx := i }
  /-- The index of `R_PointInSubsector(x, y)->sector`. -/
  R_PointInSubsector : Int → Int → Nat := fun _ _ => 0
  P_GetFloorZ : mobj_t → sector_t → Int → Int → Int :=
    fun _ s _ _ => s.floorheight
  P_GetCeilingZ : mobj_t → sector_t → Int → Int → Int :=
    fun _ s _ _ => s.ceilingheight
  P_GetFOFTopZ : mobj_t → sector_t → ffloor_t → Int → Int → Int :=
    fun _ _ r _ _ => r.topheight
  P_GetFOFBottomZ : mobj_t → sector_t → ffloor_t → Int → Int → Int :=
    fun _ _ r _ _ => r.bottomheight
  P_CheckSolidFFloorSurface : mobj_t → ffloor_t → Bool := fun _ _ => false
  /-- The polyobjects linked in the blockmap cells around a box, in the order the
  scan of `P_CheckPosition` meets them (a polyobject may be linked in several cells). -/
  blockPolyobjs : bbox_t → List polyobj_t := fun _ => []
  P_BBoxInsidePolyobj : polyobj_t → bbox_t → Bool := fun _ _ => false
  /-- The verdict of the actor-versus-actor scan for a mover and the transaction
  record as it stands when the scan starts.  It is consulted only where a blockmap
  cell around the box holds an actor other than the mover; what `PIT_CheckThing`
  writes to the actors it meets (momentum of pushed actors, `MF2_SKULLFLY`, the
  height and position set by `P_DoSpring`) is not part of the verdict. -/
  checkThings : mobj_t → tm_t → thingscan_t :=
    fun _ t => { floorz := t.floorz, ceilingz := t.ceilingz, floorrover := t.floorrover,
                 ceilingrover := t.ceilingrover, floorslope := t.floorslope,
                 ceilingslope := t.ceilingslope, floorpic := t.floorpic,
                 ceilingpic := t.ceilingpic }
  /-- The lines of each blockmap cell around a box, cell by cell in scan order. -/
  blockLines : bbox_t → List (List line_t) := fun _ => []
  P_BoxOnLineSide : bbox_t → line_t → Int := fun _ _ => 0
  P_PointOnLineSide : Int → Int → line_t → Int := fun _ _ _ => 0
  LUA_HookMobjLineCollide : mobj_t → line_t → Nat := fun _ _ => 0
  P_LineOpening : line_t → mobj_t → opening_t := fun _ _ => {}
  /-- The pair `(textop, texbottom)` of `P_GetMidtextureTopBottom`. -/
  P_GetMidtextureTopBottom : line_t → Int → Int → Int × Int :=
    fun _ _ _ => (0, 0)
  FINECOSINE : Int → Int := fun _ => 0
  FINESINE : Int → Int := fun _ => 0
  P_MobjTouchingSectorSpecialFlag : mobj_t → Nat → Bool := fun _ _ => false
  P_IsObjectOnGround : mobj_t → Bool := fun m => decide (m.z ≤ m.floorz)
  P_MobjFlip : mobj_t → Int := fun _ => 1
  /-- The momentum `(momx, momy, momz)` that `P_HandleSlopeLanding` leaves. -/
  P_HandleSlopeLanding : mobj_t → Nat → Int × Int × Int :=
    fun m _ => (m.momx, m.momy, m.momz)
  /-- The actors that the block iteration of `P_TryMove` around a pushable at
  `(x, y)` hands to `PIT_PushableMoved`, in order. -/
  pushableCells : Int → Int → List Nat := fun _ _ => []
  /-- The actors that the polyobject scan of `P_CheckSector` for a sector meets, in
  order: for every line of the sector with a solid polyobject whose control sector
  this is (each polyobject once), the actors linked in the blockmap cells of its
  block box that `P_MobjInsidePolyobj` accepts. -/
  polyobjThings : Nat → List Nat := fun _ => []
  /-- The actor `crumbler->player->mo` of the last `T_StartCrumble` thinker that made
  the slab crumble over the actor's sector, if there is one. -/
  crumbleKiller : mobj_t → ffloor_t → Option Nat := fun _ _ => none
  /-- The actors linked in each blockmap cell around a box, cell by cell in scan
  order. -/
  blockThings : bbox_t → List (List Nat) := fun _ => []
  /-- The part of `PIT_CheckThing` between the distance test and the test for two
  enemies, for the mover, the other actor and `tm`: the paper-collision tests, the
  two script hooks and the rules for particular kinds of actors (spikes, painful
  actors, items, missiles, pickups, fans, springs).  It is `some r` where one of
  them returns `r`, and `none` where control passes on. -/
  PIT_CheckThing_kinds : mobj_t → mobj_t → tm_t → Option BlockItReturn_t := fun _ _ _ => none
  /-- The block `if (tm.thing->player)` of `PIT_CheckThing` for a mover that is a
  player: `some r` where it returns `r`, and `none` where control passes on. -/
  PIT_CheckThing_player : mobj_t → mobj_t → tm_t → Option BlockItReturn_t := fun _ _ _ => none
  R_PointToAngle2 : Int → Int → Int → Int → Int := fun _ _ _ _ => 0
  P_AproxDistance : Int → Int → Int := fun _ _ => 0
  P_GetFFloorTopZAt : ffloor_t → Int → Int → Int := fun r _ _ => r.topheight
  P_GetFFloorBottomZAt : ffloor_t → Int → Int → Int := fun r _ _ => r.bottomheight
  /-- The fields of the local `junk` of `P_SlideMove` that the function does not
  assign before it hands the line to `P_HitSlideLine`. -/
  junk : line_t := {}
  /-- What `K_ApplyTripWire(mo->player, TRIPSTATE_BLOCKED)` leaves of the actor. -/
  K_ApplyTripWire : mobj_t → mobj_t := fun m => m
  /-- What `K_SpawnBumpEffect(mo)` leaves of the actor. -/
  K_SpawnBumpEffect : mobj_t → mobj_t := fun m => m

/-- The mutable state of the simulation that the movement code touches. -/
structure State where
  /-- The actor store. -/
  mo : Nat → mobj_t := fun _ => {}
  /-- The global `tm`. -/
  tm : tm_t := {}
  /-- The first `numspechit` entries of `spechit`. -/
  spechit : List Nat := []
  /-- The contents of the buffer `spechitint`. -/
  spechitint : List Nat := []
  numspechitint : Nat := 0
  /-- The global `stand`. -/
  stand : Nat := 0
  standx : Int := 0
  standy : Int := 0
  nofit : Bool := false
  crushchange : Bool := false
  /-- The calls of `P_CrossSpecialLine` made so far, oldest first. -/
  crossed : List crossing_t := []
  /-- The calls of `P_DamageMobj` made so far, oldest first. -/
  damaged : List damage_t := []

/-- Store `m` as actor `i`. -/
def State.setMo (st : State) (i : Nat) (m : mobj_t) : State :=
  { st with mo := Function.update st.mo i m }

/-- The pending special lines: the first `numspechitint` entries of `spechitint`. -/
def State.pending (st : State) : List Nat := st.spechitint.take st.numspechitint

/-! ## The special-line buffers -/

/-- The inner loops of `spechitint_removedups`: every entry that is not yet in the
temporary buffer is appended to it. -/
def spechitint_fill : List Nat → List Nat → List Nat
  | temp, [] => temp
  | temp, v :: rest =>
    if temp.contains v then spechitint_fill temp rest
    else spechitint_fill (temp ++ [v]) rest

/-- The function `spechitint_removedups`.  It reads `numspechitint` entries, so it is
undefined (`none`) when the counter exceeds the buffer. -/
def spechitint_removedups (st : State) : Option State :=
  if st.numspechitint > 1 then
    if st.numspechitint ≤ st.spechitint.length then
      let temp := spechitint_fill [] (st.spechitint.take st.numspechitint)
      if temp.length ≠ st.numspechitint then
        some { st with spechitint := temp ++ st.spechitint.drop temp.length,
                       numspechitint := temp.length }
      else some st
    else none
  else some st

/-- The function `spechitint_copyinto`: `spechit` is copied to the end of the pending
entries of `spechitint`. -/
def spechitint_copyinto (st : State) : State :=
  if st.spechit.length > 0 then
    { st with
      spechitint := st.spechitint.take st.numspechitint ++ st.spechit
        ++ st.spechitint.drop (st.numspechitint + st.spechit.length),
      numspechitint := st.numspechitint + st.spechit.length }
  else st

/-- The function `P_SpecialIsLinedefCrossType`. -/
def P_SpecialIsLinedefCrossType (ld : line_t) : Bool :=
  if ld.special = 2001 ∨ ld.special = 2003 then true else false

/-- The function `P_IsLineTripWire`. -/
def P_IsLineTripWire (ld : line_t) : Bool := ld.tripwire

/-- The function `P_IsLineBlocking`. -/
def P_IsLineBlocking (ld : line_t) (thing : mobj_t) : Bool :=
  if hasFlag thing.flags MF_MISSILE then false
  else
    if (match thing.player with | some p => p.spectator | none => false) then false
    else if hasFlag ld.flags ML_IMPASSABLE then true
    else if thing.player.isSome then hasFlag ld.flags ML_BLOCKPLAYERS
    else if hasFlag thing.flags (MF_ENEMY ||| MF_BOSS) then hasFlag ld.flags ML_BLOCKMONSTERS
    else false

/-! ## The step budget -/

/-- The function `P_WaterRunning`. -/
def P_WaterRunning (w : World) (thing : mobj_t) : Bool :=
  match thing.floorrover with
  | some rover => hasFlag rover.fofflags FOF_SWIMMABLE && w.P_IsObjectOnGround thing
  | none => false

/-- The function `P_WaterStepUp`. -/
def P_WaterStepUp (w : World) (thing : mobj_t) : Bool :=
  decide (thing.waterskip > 0) || P_WaterRunning w thing

/-- The function `P_BaseStepUp`; the value returned is a `fixed_t`. -/
def P_BaseStepUp (w : World) : Int := wrap32 (FixedMul w.MAXSTEPMOVE w.mapobjectscale)

/-- The function `P_GetThingStepUp`.  The budget is a `fixed_t`: `maxstep += maxstepmove`
and `maxstep <<= 1` wrap. -/
def P_GetThingStepUp (w : World) (thing : mobj_t) (destX destY : Int) : Int :=
  let maxstepmove := P_BaseStepUp w
  let maxstep :=
    if P_WaterStepUp w thing then
      -- Add some extra stepmove when waterskipping
      wrap32 (maxstepmove + maxstepmove)
    else maxstepmove
  let destflags := (w.sectors (w.R_PointInSubsector destX destY)).specialflags
  if w.P_MobjTouchingSectorSpecialFlag thing SSF_DOUBLESTEPUP
      || hasFlag destflags SSF_DOUBLESTEPUP then
    -- If using type Section1:13, double the maxstep.
    wrap32 (maxstep * 2)
  else if w.P_MobjTouchingSectorSpecialFlag thing SSF_NOSTEPUP
      || hasFlag destflags SSF_NOSTEPUP then
    0
  else maxstep

/-! ## The position probe -/

/-- What one probe works on: the transaction record, the mover and `spechit`. -/
structure probe_t where
  tm : tm_t
  thing : mobj_t
  spechit : List Nat
deriving DecidableEq, Inhabited

/-- The goo-water assist of the slab loop of `P_CheckPosition`: an actor stuck between
the surface of the goo and the sink level gets a push on `momz`. -/
def P_CheckPosition_goo_momz (thing : mobj_t) (topheight bottomheight thingtop sinklevel
    minspeed : Int) : mobj_t :=
  if !hasFlag thing.eflags MFE_VERTICALFLIP ∧ thing.z > topheight - sinklevel ∧ thing.momz ≥ 0
      ∧ thing.momz < sar minspeed 2 then
    { thing with momz := thing.momz + sar minspeed 2 }
  else if hasFlag thing.eflags MFE_VERTICALFLIP ∧ thingtop < bottomheight + sinklevel
      ∧ thing.momz ≤ 0 ∧ thing.momz > -(sar minspeed 2) then
    { thing with momz := thing.momz - sar minspeed 2 }
  else thing

/-- The goo-water branch of the slab loop of `P_CheckPosition` for an actor that
overlaps the slab and moves slower than `minspeed`. -/
def P_CheckPosition_goo (pr : probe_t) (rover : ffloor_t) (topheight bottomheight thingtop
    sinklevel minspeed : Int) : probe_t :=
  let tm := pr.tm
  let thing1 := P_CheckPosition_goo_momz pr.thing topheight bottomheight thingtop sinklevel
    minspeed
  -- Land on the top or the bottom, depending on gravity flip.
  if !hasFlag thing1.eflags MFE_VERTICALFLIP ∧ thing1.z ≥ topheight - sinklevel
      ∧ thing1.momz ≤ 0 then
    if tm.floorz < topheight - sinklevel then
      { pr with thing := thing1,
                tm := { tm with floorz := topheight - sinklevel, floorrover := some rover,
                                floorslope := rover.t_slope, floorpic := rover.toppic } }
    else { pr with thing := thing1 }
  else if hasFlag thing1.eflags MFE_VERTICALFLIP ∧ thingtop ≤ bottomheight + sinklevel
      ∧ thing1.momz ≥ 0 then
    if tm.ceilingz > bottomheight + sinklevel then
      { pr with thing := thing1,
                tm := { tm with ceilingz := bottomheight + sinklevel,
                                ceilingrover := some rover,
                                ceilingslope := rover.b_slope,
                                ceilingpic := rover.bottompic } }
    else { pr with thing := thing1 }
  else { pr with thing := thing1 }

/-- The midpoint rule of the slab loop of `P_CheckPosition` for a blocking slab that
is neither goo water nor quicksand: the floor and the ceiling that the slab
leaves in `tm`. -/
def P_CheckPosition_slab (tm : tm_t) (thing : mobj_t) (rover : ffloor_t)
    (topheight bottomheight thingtop : Int) : tm_t :=
  let delta1 := thing.z - (bottomheight + cdiv (topheight - bottomheight) 2)
  let delta2 := thingtop - (bottomheight + cdiv (topheight - bottomheight) 2)
  let tm1 : tm_t :=
    if topheight > tm.floorz ∧ cabs delta1 < cabs delta2
        ∧ !hasFlag rover.fofflags FOF_REVERSEPLATFORM then
      { tm with floorz := topheight, dropoffz := topheight, floorrover := some rover,
                floorslope := rover.t_slope, floorpic := rover.toppic }
    else tm
  if bottomheight < tm1.ceilingz ∧ cabs delta1 ≥ cabs delta2
      ∧ !hasFlag rover.fofflags FOF_PLATFORM
      ∧ !(thing.type == MT_SKIM && hasFlag rover.fofflags FOF_SWIMMABLE) then
    { tm1 with ceilingz := bottomheight, drpoffceilz := bottomheight,
               ceilingrover := some rover, ceilingslope := rover.b_slope,
               ceilingpic := rover.bottompic }
  else tm1

/-- The body of the slab loop of `P_CheckPosition` for one `rover` of the sector
`sec` under the candidate point. -/
def P_CheckPosition_ffloor (w : World) (sec : sector_t) (x y thingtop : Int)
    (pr : probe_t) (rover : ffloor_t) : probe_t :=
  let thing := pr.thing
  let tm := pr.tm
  if !hasFlag rover.fofflags FOF_EXISTS then pr
  else
    let topheight := w.P_GetFOFTopZ thing sec rover x y
    let bottomheight := w.P_GetFOFBottomZ thing sec rover x y
    if rover.fofflags &&& (FOF_SWIMMABLE ||| FOF_GOOWATER) = (FOF_SWIMMABLE ||| FOF_GOOWATER)
        && !hasFlag thing.flags MF_NOGRAVITY then
      -- If you're inside goowater and slowing down
      let sinklevel := FixedMul (cdiv thing.info_height 6) thing.scale
      let minspeed := FixedMul (cdiv thing.info_height 9) thing.scale
      if thing.z < topheight ∧ bottomheight < thingtop ∧ cabs thing.momz < minspeed then
        P_CheckPosition_goo pr rover topheight bottomheight thingtop sinklevel minspeed
      else pr
    else if !(w.P_CheckSolidFFloorSurface thing rover
          || (thing.type == MT_SKIM && hasFlag rover.fofflags FOF_SWIMMABLE)
          || ((hasFlag rover.fofflags FOF_BLOCKPLAYER && thing.player.isSome)
              || (hasFlag rover.fofflags FOF_BLOCKOTHERS && !thing.player.isSome)
              || hasFlag rover.fofflags FOF_QUICKSAND)) then pr
    else if hasFlag rover.fofflags FOF_QUICKSAND then
      if thing.z < topheight ∧ bottomheight < thingtop then
        if tm.floorz < thing.z then
          { pr with tm := { tm with floorz := thing.z, floorrover := some rover,
                                    floorslope := none, floorpic := rover.toppic } }
        else pr
      else pr
      -- Quicksand blocks never change heights otherwise.
    else
      { pr with tm := P_CheckPosition_slab tm thing rover topheight bottomheight thingtop }

/-- The body of the polyobject loop of `P_CheckPosition` for one polyobject that has
not been checked yet in this scan.  The midpoint is computed in `INT32`, where the
planes `INT32_MAX` and `INT32_MIN` of a polyobject without `POF_CLIPPLANES` wrap. -/
def P_CheckPosition_polyobj (w : World) (thingtop : Int) (pr : probe_t)
    (po : polyobj_t) : probe_t :=
  let thing := pr.thing
  let tm := pr.tm
  if !w.P_BBoxInsidePolyobj po tm.bbox || !hasFlag po.flags POF_SOLID then pr
  else
    -- We're inside it! Yess...
    let polytop := if hasFlag po.flags POF_CLIPPLANES then po.polysec_ceilingheight else INT32_MAX
    let polybottom := if hasFlag po.flags POF_CLIPPLANES then po.polysec_floorheight else INT32_MIN
    let mid := wrap32 (polybottom + cdiv (wrap32 (polytop - polybottom)) 2)
    let delta1 := wrap32 (thing.z - mid)
    let delta2 := wrap32 (thingtop - mid)
    let tm1 : tm_t :=
      if polytop > tm.floorz ∧ cabs delta1 < cabs delta2 then
        { tm with floorz := polytop, dropoffz := polytop, floorslope := none,
                  floorrover := none, floorpic := po.polysec_ceilingpic }
      else tm
    let tm2 : tm_t :=
      if polybottom < tm1.ceilingz ∧ cabs delta1 ≥ cabs delta2 then
        { tm1 with ceilingz := polybottom, drpoffceilz := polybottom, ceilingslope := none,
                   ceilingrover := none, ceilingpic := po.polysec_floorpic }
      else tm1
    { pr with tm := tm2 }

/-- The polyobject scan of `P_CheckPosition`: every linked polyobject is checked once
(`po->validcount` marks the ones already met, here the list `seen` of their ids). -/
def P_CheckPosition_polyobjs (w : World) (thingtop : Int) :
    List polyobj_t → List Nat → probe_t → probe_t
  | [], _, pr => pr
  | po :: rest, seen, pr =>
    if seen.contains po.id then P_CheckPosition_polyobjs w thingtop rest seen pr
    else P_CheckPosition_polyobjs w thingtop rest (po.id :: seen)
          (P_CheckPosition_polyobj w thingtop pr po)

/-- The function `add_spechit`. -/
def add_spechit (pr : probe_t) (ld : line_t) : probe_t :=
  { pr with spechit := pr.spechit ++ [ld.idx] }

/-- The surfaces that `PIT_CheckLine` leaves in `tm` after `P_LineOpening`: the
opening `o` narrows the ceiling and the floor and widens the two drop-offs. -/
def PIT_CheckLine_tm (tm : tm_t) (ld : line_t) (o : opening_t) : tm_t :=
  -- adjust floor / ceiling heights
  let tm1 : tm_t :=
    if o.opentop < tm.ceilingz then
      { tm with ceilingz := o.opentop, ceilingline := some ld.idx,
                ceilingrover := o.openceilingrover, ceilingslope := o.opentopslope,
                ceilingpic := o.opentoppic, ceilingstep := o.openceilingstep }
    else tm
  let tm2 : tm_t :=
    if o.openbottom > tm1.floorz then
      { tm1 with floorz := o.openbottom, floorrover := o.openfloorrover,
                 floorslope := o.openbottomslope, floorpic := o.openbottompic,
                 floorstep := o.openfloorstep }
    else tm1
  let tm3 : tm_t :=
    if o.highceiling > tm2.drpoffceilz then { tm2 with drpoffceilz := o.highceiling } else tm2
  if o.lowfloor < tm3.dropoffz then { tm3 with dropoffz := o.lowfloor } else tm3

/-- The drops that `PIT_CheckLine` writes to the mover inside the two blocks that
narrow the ceiling and the floor (the ceiling block leaves `tm.floorz` as it is, so
both tests read the `tm` with which the line was entered). -/
def PIT_CheckLine_drops (tm : tm_t) (thing : mobj_t) (o : opening_t) : mobj_t :=
  let thing1 : mobj_t :=
    if o.opentop < tm.ceilingz ∧ thing.z + thing.height = thing.ceilingz then
      { thing with ceilingdrop := o.openceilingdrop }
    else thing
  if o.openbottom > tm.floorz ∧ thing1.z = thing1.floorz then
    { thing1 with floordrop := o.openfloordrop }
  else thing1

/-- The part of `PIT_CheckLine` after `P_LineOpening`: the surfaces and the drops are
adjusted, and the line is recorded in `spechit` when it is a crossing special or a
trip-wire whose midtexture the actor clips. -/
def PIT_CheckLine_opening (w : World) (pr : probe_t) (ld : line_t) (o : opening_t) : probe_t :=
  let pr1 : probe_t :=
    { pr with tm := PIT_CheckLine_tm pr.tm ld o, thing := PIT_CheckLine_drops pr.tm pr.thing o }
  -- we've crossed the line
  if P_SpecialIsLinedefCrossType ld then add_spechit pr1 ld
  else if P_IsLineTripWire ld then
    if pr.thing.z ≤ (w.P_GetMidtextureTopBottom ld pr.tm.x pr.tm.y).1
        ∧ pr.thing.z + pr.thing.height ≥ (w.P_GetMidtextureTopBottom ld pr.tm.x pr.tm.y).2 then
      add_spechit pr1 ld
    else pr1
  else pr1

/-- The function `PIT_CheckLine`.  The collision hook is taken by its verdict, so the
test for a removed mover that follows the hook reads the mover as it is. -/
def PIT_CheckLine (w : World) (pr : probe_t) (ld : line_t) : BlockItReturn_t × probe_t :=
  let tm := pr.tm
  let thing := pr.thing
  if (match ld.polyobj with | some po => !hasFlag po.flags POF_SOLID | none => false) then
    (.BMIT_CONTINUE, pr)
  else if tm.bbox.right ≤ ld.bbox.left ∨ tm.bbox.left ≥ ld.bbox.right
      ∨ tm.bbox.top ≤ ld.bbox.bottom ∨ tm.bbox.bottom ≥ ld.bbox.top then
    (.BMIT_CONTINUE, pr)
  else if w.P_BoxOnLineSide tm.bbox ld ≠ -1 then (.BMIT_CONTINUE, pr)
  else if hasFlag thing.flags MF_PAPERCOLLISION
      ∧ w.P_PointOnLineSide
          (tm.x - FixedMul thing.radius (w.FINECOSINE (sar thing.angle ANGLETOFINESHIFT)))
          (tm.y - FixedMul thing.radius (w.FINESINE (sar thing.angle ANGLETOFINESHIFT))) ld
        = w.P_PointOnLineSide
          (tm.x + FixedMul thing.radius (w.FINECOSINE (sar thing.angle ANGLETOFINESHIFT)))
          (tm.y + FixedMul thing.radius (w.FINESINE (sar thing.angle ANGLETOFINESHIFT))) ld then
    -- the line doesn't cross between collider's start or end
    (.BMIT_CONTINUE, pr)
  else
    -- A line has been hit
    let pr1 : probe_t := { pr with tm := { tm with blockingline := some ld.idx } }
    if thing.removed then (.BMIT_CONTINUE, pr1) -- one of them was removed???
    else if w.LUA_HookMobjLineCollide thing ld = 1 then (.BMIT_ABORT, pr1) -- force collide
    else if w.LUA_HookMobjLineCollide thing ld = 2 then (.BMIT_CONTINUE, pr1) -- force no collide
    else if !ld.hasBacksector then -- one sided line
      if w.P_PointOnLineSide thing.x thing.y ld ≠ 0 then (.BMIT_CONTINUE, pr1)
      else (.BMIT_ABORT, pr1)
    else if P_IsLineBlocking ld thing then (.BMIT_ABORT, pr1)
    else
      -- set openrange, opentop, openbottom
      (.BMIT_CONTINUE, PIT_CheckLine_opening w pr1 ld (w.P_LineOpening ld thing))

/-- Modelled from the spec: `forEachLineInCell(cell, visitor)` of the spatial index
(`P_BlockLinesIterator` is not part of the sources).  The lines of one cell are handed
to the visitor in order; a line already met in this scan (the epoch counter
`validcount`, here the list `seen` of line indices) is skipped; the iteration
stops and reports `false` as soon as the visitor answers abort. -/
def P_BlockLinesIterator (w : World) :
    List line_t → List Nat → probe_t → Bool × List Nat × probe_t
  | [], seen, pr => (true, seen, pr)
  | ld :: rest, seen, pr =>
    if seen.contains ld.idx then P_BlockLinesIterator w rest seen pr
    else
      match PIT_CheckLine w pr ld with
      | (.BMIT_CONTINUE, pr1) => P_BlockLinesIterator w rest (ld.idx :: seen) pr1
      | (.BMIT_STOP, pr1) => (true, ld.idx :: seen, pr1)
      | (.BMIT_ABORT, pr1) => (false, ld.idx :: seen, pr1)

/-- The line loop of `P_CheckPosition` over the blockmap cells: `blockval` becomes
false when the iteration of some cell is aborted, and the scan goes on with the
next cell. -/
def P_CheckPosition_lines (w : World) :
    List (List line_t) → List Nat → Bool → probe_t → Bool × probe_t
  | [], _, blockval, pr => (blockval, pr)
  | cell :: rest, seen, blockval, pr =>
    match P_BlockLinesIterator w cell seen pr with
    | (true, seen1, pr1) => P_CheckPosition_lines w rest seen1 blockval pr1
    | (false, seen1, pr1) => P_CheckPosition_lines w rest seen1 false pr1

/-- The start of `P_CheckPosition`: the box and the base floor and ceiling of the
subsector under the candidate point are written to `tm`, and a drop of the mover is
cleared when the mover is off the matching surface. -/
def P_CheckPosition_init (w : World) (tm : tm_t) (thing : mobj_t) (id : Nat) (x y : Int) :
    probe_t :=
  let newsubsec := w.sectors (w.R_PointInSubsector x y)
  -- The base floor / ceiling is from the subsector that contains the point.
  { tm :=
      { tm with
        thing := some id, flags := thing.flags, x := x, y := y,
        bbox := { top := y + thing.radius, bottom := y - thing.radius,
                  right := x + thing.radius, left := x - thing.radius },
        ceilingline := none, blockingline := none,
        floorz := w.P_GetFloorZ thing newsubsec x y,
        dropoffz := w.P_GetFloorZ thing newsubsec x y,
        ceilingz := w.P_GetCeilingZ thing newsubsec x y,
        floorrover := none, ceilingrover := none,
        floorslope := newsubsec.f_slope, ceilingslope := newsubsec.c_slope,
        floorpic := newsubsec.floorpic, ceilingpic := newsubsec.ceilingpic,
        floorstep := 0, ceilingstep := 0 },
    thing :=
      { thing with
        ceilingdrop := if thing.z + thing.height < thing.ceilingz then 0 else thing.ceilingdrop,
        floordrop := if thing.z > thing.floorz then 0 else thing.floordrop },
    spechit := [] }

/-- The scans of `P_CheckPosition` that need no blockmap callback: the slabs of the
sector under the point, then the polyobjects around the box; after them
`tm.floorthing` and `tm.hitthing` are cleared. -/
def P_CheckPosition_surfaces (w : World) (x y thingtop : Int) (pr : probe_t) : probe_t :=
  let newsubsec := w.sectors (w.R_PointInSubsector x y)
  -- Check list of fake floors and see if tm.floorz/tm.ceilingz need to be altered.
  let pr1 : probe_t := newsubsec.ffloors.foldl (P_CheckPosition_ffloor w newsubsec x y thingtop) pr
  -- Check polyobjects and see if tm.floorz/tm.ceilingz need to be altered
  let pr2 := P_CheckPosition_polyobjs w thingtop (w.blockPolyobjs pr1.tm.bbox) [] pr1
  -- tm.floorthing is set when tm.floorz comes from a thing's top
  { pr2 with tm := { pr2.tm with floorthing := none, hitthing := none } }

/-- Whether a blockmap cell around the box of the probe holds an actor other than
the mover. -/
def P_CheckPosition_others (w : World) (pr : probe_t) : Bool :=
  (w.blockThings pr.tm.bbox).any (fun cell => cell.any (fun t => some t != pr.tm.thing))

/-- The verdict of the actor scan of `P_CheckPosition`; an actor with
`MF_NOCLIPTHING` skips the scan.  Where every actor of the cells is the mover itself,
`PIT_CheckThing` returns at `thing == tm.thing` each time: nothing is written, and
the probe ends early only at the test `P_MobjWasRemoved(tm.thing)` after a cell. -/
def P_CheckPosition_scan (w : World) (pr : probe_t) : thingscan_t :=
  if !hasFlag pr.thing.flags MF_NOCLIPTHING then
    if P_CheckPosition_others w pr then w.checkThings pr.thing pr.tm
    else { removed := !(w.blockThings pr.tm.bbox).isEmpty && pr.thing.removed,
           floorz := pr.tm.floorz, ceilingz := pr.tm.ceilingz,
           floorrover := pr.tm.floorrover, ceilingrover := pr.tm.ceilingrover,
           floorslope := pr.tm.floorslope, ceilingslope := pr.tm.ceilingslope,
           floorpic := pr.tm.floorpic, ceilingpic := pr.tm.ceilingpic }
  else { floorz := pr.tm.floorz, ceilingz := pr.tm.ceilingz,
         floorrover := pr.tm.floorrover, ceilingrover := pr.tm.ceilingrover,
         floorslope := pr.tm.floorslope, ceilingslope := pr.tm.ceilingslope,
         floorpic := pr.tm.floorpic, ceilingpic := pr.tm.ceilingpic }

/-- The surfaces and actors that the actor scan leaves in `tm`. -/
def P_CheckPosition_scanned (tm : tm_t) (scan : thingscan_t) : tm_t :=
  { tm with floorz := scan.floorz, ceilingz := scan.ceilingz,
            floorrover := scan.floorrover, ceilingrover := scan.ceilingrover,
            floorslope := scan.floorslope, ceilingslope := scan.ceilingslope,
            floorpic := scan.floorpic, ceilingpic := scan.ceilingpic,
            floorthing := scan.floorthing, hitthing := scan.hitthing }

/-- The function `P_CheckPosition`, on the probe state.  The result record is
written only when the function reaches its end. -/
def P_CheckPosition_probe (w : World) (tm : tm_t) (thing : mobj_t) (id : Nat)
    (x y : Int) (result : Option TryMoveResult_t) :
    Bool × Option TryMoveResult_t × probe_t :=
  let pr := P_CheckPosition_surfaces w x y (thing.z + thing.height)
    (P_CheckPosition_init w tm thing id x y)
  if hasFlag pr.tm.flags MF_NOCLIP then (true, result, pr)
  else
    -- Check things first, possibly picking things up.
    let scan := P_CheckPosition_scan w pr
    let pr1 : probe_t := { pr with tm := P_CheckPosition_scanned pr.tm scan }
    if scan.removed then (false, result, { pr1 with thing := { pr1.thing with removed := true } })
    else
      -- check lines
      let r := P_CheckPosition_lines w (w.blockLines pr1.tm.bbox) [] (!scan.blocked) pr1
      (r.1, result.map (fun res => { res with line := r.2.tm.blockingline,
                                              mo := r.2.tm.hitthing }), r.2)

/-- The function `P_CheckPosition` on the global state: `thing` is the index of the
actor, and the probe also clears `spechit`. -/
def P_CheckPosition (w : World) (st : State) (thing : Nat) (x y : Int)
    (result : Option TryMoveResult_t) : Bool × Option TryMoveResult_t × State :=
  let r := P_CheckPosition_probe w st.tm (st.mo thing) thing x y result
  (r.1, r.2.1, { (st.setMo thing r.2.2.thing) with tm := r.2.2.tm, spechit := r.2.2.spechit })

/-! ## The incremental mover -/

/-- The statement `flags &= ~mask`. -/
def clearFlag (flags mask : Nat) : Nat := flags ^^^ (flags &&& mask)

/-- What one pass through the loop body of `increment_move` yields: either the
function returns false, or the body ends with new values of `tryx`, `tryy` and
`stairjank`. -/
inductive substep_t where
  | reject (result : Option TryMoveResult_t) (st : State)
  | next (tryx tryy stairjank : Int) (result : Option TryMoveResult_t) (st : State)

/-- The step policy of `increment_move`: the block under `if (maxstep > 0)`, applied
to the mover after an accepted probe.  It yields `none` where the C code returns
false, and otherwise the mover and `stairjank`. -/
def increment_move_step (w : World) (tm : tm_t) (thing : mobj_t) (x y maxstep stairjank : Int) :
    Option (mobj_t × Int) :=
  let flipped := hasFlag thing.eflags MFE_VERTICALFLIP
  let thingtop := thing.z + thing.height
  -- Step up
  if thing.z < tm.floorz then
    if tm.floorstep ≤ maxstep then
      some ({ thing with z := tm.floorz, floorz := tm.floorz, floorrover := tm.floorrover,
                         eflags := thing.eflags ||| MFE_JUSTSTEPPEDDOWN },
            if !flipped then tm.floorstep else stairjank)
    else none -- mobj must raise itself to fit
  else if tm.ceilingz < thingtop then
    if tm.ceilingstep ≤ maxstep then
      some ({ thing with z := tm.ceilingz - thing.height, ceilingz := tm.ceilingz,
                         ceilingrover := tm.ceilingrover,
                         eflags := thing.eflags ||| MFE_JUSTSTEPPEDDOWN },
            if flipped then tm.ceilingstep else stairjank)
    else none -- mobj must lower itself to fit
  else if thing.momz * w.P_MobjFlip thing ≤ 0 -- Step down requires moving down.
      ∧ !(w.P_MobjTouchingSectorSpecialFlag thing SSF_NOSTEPDOWN
          || hasFlag (w.sectors (w.R_PointInSubsector x y)).specialflags SSF_NOSTEPDOWN) then
    if thingtop = thing.ceilingz ∧ tm.ceilingz > thingtop ∧ tm.ceilingz - thingtop ≤ maxstep then
      some ({ thing with z := tm.ceilingz - thing.height, ceilingz := tm.ceilingz,
                         ceilingrover := tm.ceilingrover,
                         eflags := thing.eflags ||| MFE_JUSTSTEPPEDDOWN,
                         ceilingdrop := 0 },
            if flipped then tm.ceilingz - thingtop else stairjank)
    else if thing.z = thing.floorz ∧ tm.floorz < thing.z ∧ thing.z - tm.floorz ≤ maxstep then
      some ({ thing with z := tm.floorz, floorz := tm.floorz, floorrover := tm.floorrover,
                         eflags := thing.eflags ||| MFE_JUSTSTEPPEDDOWN,
                         floordrop := 0 },
            if !flipped then thing.z - tm.floorz else stairjank)
    else some (thing, stairjank)
  else some (thing, stairjank)

/-- The step policy of `increment_move` under its guard: with a step budget of zero
(or less) the block is skipped and the mover is left as it is. -/
def increment_move_policy (w : World) (tm : tm_t) (thing : mobj_t) (x y maxstep stairjank : Int) :
    Option (mobj_t × Int) :=
  if maxstep > 0 then increment_move_step w tm thing x y maxstep stairjank
  else some (thing, stairjank)

/-- The drop-off test at the end of the loop body of `increment_move`: true where the
C code returns false. -/
def increment_move_dropoff (tm : tm_t) (thing : mobj_t) (allowdropoff : Bool)
    (maxstep : Int) : Bool :=
  if !allowdropoff ∧ !hasFlag thing.flags MF_FLOAT ∧ thing.type ≠ MT_SKIM
      ∧ tm.floorthing = none then
    if hasFlag thing.eflags MFE_VERTICALFLIP then decide (tm.drpoffceilz - tm.ceilingz > maxstep)
    else decide (tm.floorz - tm.dropoffz > maxstep) -- don't stand over a dropoff
  else false

/-- The next probe coordinate on one axis: the destination `x` for an actor with
`MF_NOCLIP`, and otherwise `tryx` moved toward `x` by at most `radius`.  The difference
`x - tryx` and the sums `tryx += radius`, `tryx -= radius` are `fixed_t` and wrap. -/
def increment_move_try (noclip : Bool) (radius x tryx : Int) : Int :=
  if noclip then x
  else if wrap32 (x - tryx) > radius then wrap32 (tryx + radius)
  else if wrap32 (x - tryx) < -radius then wrap32 (tryx - radius)
  else x

/-- One pass through the body of the `do ... while` loop of `increment_move`. -/
def increment_move_body (w : World) (thing : Nat) (x y : Int) (allowdropoff : Bool)
    (radius tryx tryy stairjank : Int) (result : Option TryMoveResult_t) (st : State) :
    substep_t :=
  let noclip := hasFlag (st.mo thing).flags MF_NOCLIP
  let tryx : Int := increment_move_try noclip radius x tryx
  let tryy : Int := increment_move_try noclip radius y tryy
  match P_CheckPosition w st thing tryx tryy result with
  | (false, result, st) => .reject result st -- solid wall or thing
  | (true, result, st) =>
    -- copy into the spechitint buffer from spechit
    let st := spechitint_copyinto st
    let m := st.mo thing
    if !hasFlag m.flags MF_NOCLIP then
      -- All things are affected by their scale.
      let maxstep := P_GetThingStepUp w m tryx tryy
      if st.tm.ceilingz - st.tm.floorz < m.height then
        -- doesn't fit
        .reject result
          (if st.tm.floorthing ≠ none then { st with tm := { st.tm with hitthing := st.tm.floorthing } }
           else st)
      else
        let st : State := { st with tm := { st.tm with floatok := true } }
        match increment_move_policy w st.tm m x y maxstep stairjank with
        | none => .reject result st
        | some (m, stairjank) =>
          let st := st.setMo thing m
          if increment_move_dropoff st.tm m allowdropoff maxstep then .reject result st
          else .next tryx tryy stairjank result st
    else .next tryx tryy stairjank result st

/-- The `do ... while (tryx != x || tryy != y)` loop of `increment_move`, run for at
most `fuel` passes; `none` when the passes run out. -/
def increment_move_loop (w : World) (thing : Nat) (x y : Int) (allowdropoff : Bool)
    (radius : Int) :
    Nat → Int → Int → Int → Option TryMoveResult_t → State →
      Option (Bool × Int × Option TryMoveResult_t × State)
  | 0, _, _, _, _, _ => none
  | fuel + 1, tryx, tryy, stairjank, result, st =>
    match increment_move_body w thing x y allowdropoff radius tryx tryy stairjank result st with
    | .reject result st => some (false, stairjank, result, st)
    | .next tryx tryy stairjank result st =>
      if tryx ≠ x ∨ tryy ≠ y then
        increment_move_loop w thing x y allowdropoff radius fuel tryx tryy stairjank result st
      else some (true, stairjank, result, st)

/-- The clamped sub-step radius of `increment_move`. -/
def increment_move_radius (w : World) (thing : mobj_t) : Int :=
  min (max thing.radius w.mapobjectscale) (16 * w.mapobjectscale)

/-- The function `increment_move`; the second component is `*return_stairjank`.  The
loop is given one pass per unit of distance to the destination, which is enough
whenever the clamped radius is positive. -/
def increment_move (w : World) (st : State) (thing : Nat) (x y : Int) (allowdropoff : Bool)
    (result : Option TryMoveResult_t) :
    Option (Bool × Int × Option TryMoveResult_t × State) :=
  let m := st.mo thing
  -- reset this to 0 at the start of each trymove call as it's only used here
  let st1 : State := { st with tm := { st.tm with floatok := false }, numspechitint := 0 }
  increment_move_loop w thing x y allowdropoff (increment_move_radius w m)
    ((x - m.x).natAbs + (y - m.y).natAbs + 1) m.x m.y 0 result st1

/-- The local variables of the loop of `increment_move` together with the state. -/
structure loopvars_t where
  tryx : Int
  tryy : Int
  stairjank : Int
  result : Option TryMoveResult_t
  st : State

/-- The loop variables with which `increment_move` enters its loop. -/
def increment_move_start (st : State) (thing : Nat) (result : Option TryMoveResult_t) :
    loopvars_t :=
  { tryx := (st.mo thing).x, tryy := (st.mo thing).y, stairjank := 0, result := result,
    st := { st with tm := { st.tm with floatok := false }, numspechitint := 0 } }

/-- The loop variables at the start of sub-step `n` (counted from 0) of the loop of
`increment_move` entered with `v`; `none` when the loop has ended before. -/
def increment_move_at (w : World) (thing : Nat) (x y : Int) (allowdropoff : Bool)
    (radius : Int) : Nat → loopvars_t → Option loopvars_t
  | 0, v => some v
  | n + 1, v =>
    match increment_move_body w thing x y allowdropoff radius v.tryx v.tryy v.stairjank
        v.result v.st with
    | .reject _ _ => none
    | .next tryx tryy stairjank result st =>
      if tryx ≠ x ∨ tryy ≠ y then
        increment_move_at w thing x y allowdropoff radius n
          { tryx := tryx, tryy := tryy, stairjank := stairjank, result := result, st := st }
      else none

/-- The point that sub-step `v` of the loop of `increment_move` probes. -/
def increment_move_next (x y radius : Int) (thing : Nat) (v : loopvars_t) : Int × Int :=
  (increment_move_try (hasFlag (v.st.mo thing).flags MF_NOCLIP) radius x v.tryx,
   increment_move_try (hasFlag (v.st.mo thing).flags MF_NOCLIP) radius y v.tryy)

/-- The probe of sub-step `v` of the loop of `increment_move`. -/
def increment_move_probe (w : World) (x y radius : Int) (thing : Nat) (v : loopvars_t) :
    Bool × Option TryMoveResult_t × State :=
  P_CheckPosition w v.st thing (increment_move_next x y radius thing v).1
    (increment_move_next x y radius thing v).2 v.result

/-- The probe of the first sub-step of `increment_move`. -/
def increment_move_first (w : World) (st : State) (thing : Nat) (x y : Int)
    (result : Option TryMoveResult_t) : Bool × Option TryMoveResult_t × State :=
  increment_move_probe w x y (increment_move_radius w (st.mo thing)) thing
    (increment_move_start st thing result)

/-- The function `P_RestoreTMStruct`. -/
def P_RestoreTMStruct (st : State) (tmrestore : tm_t) : State :=
  let live (r : Option Nat) : Option Nat :=
    match r with
    | some i => if (st.mo i).removed then none else some i
    | none => none
  { st with tm := { tmrestore with thing := live tmrestore.thing,
                                   floorthing := live tmrestore.floorthing,
                                   hitthing := live tmrestore.hitthing } }

/-- The function `PIT_PushableMoved` for the actor `thing`; `tryMove st t x y` stands
for the call `P_TryMove(t, x, y, true, NULL)`.  The function always answers
`BMIT_CONTINUE`. -/
def PIT_PushableMoved (tryMove : State → Nat → Int → Int → Option State)
    (st : State) (thing : Nat) : Option State :=
  let t := st.mo thing
  let stand := st.mo st.stand
  if !hasFlag t.flags MF_SOLID || hasFlag t.flags MF_NOGRAVITY then some st
  else if !(hasFlag t.flags MF_PUSHABLE || t.player.isSome) then some st
  else if thing = st.stand then some st
  else if cabs (t.x - stand.x) ≥ stand.radius + t.radius
      ∨ cabs (t.y - stand.y) ≥ stand.radius + t.radius then some st -- didn't hit it
  else if (!hasFlag stand.eflags MFE_VERTICALFLIP
        ∧ t.z ≠ stand.z + stand.height + FixedMul FRACUNIT stand.scale)
      ∨ (hasFlag stand.eflags MFE_VERTICALFLIP
        ∧ t.z + t.height ≠ stand.z - FixedMul FRACUNIT stand.scale) then
    some st -- Not standing on top
  else if stand.momx = 0 ∧ stand.momy = 0 then some st
  else if t.player.isSome then
    let oldtm := st.tm
    -- Move the player
    match tryMove st thing (t.x + stand.momx) (t.y + stand.momy) with
    | none => none
    | some st =>
      -- Now restore EVERYTHING so the gargoyle doesn't keep the player's tmstuff and break
      let st := P_RestoreTMStruct st oldtm
      some (st.setMo thing { st.mo thing with momz := (st.mo st.stand).momz })
  else
    some (st.setMo thing { t with momx := stand.momx, momy := stand.momy, momz := stand.momz })

/-- The block iteration of `P_TryMove` over the actors around a pushable. -/
def P_TryMove_riders (tryMove : State → Nat → Int → Int → Option State) :
    List Nat → State → Option State
  | [], st => some st
  | t :: rest, st =>
    match PIT_PushableMoved tryMove st t with
    | none => none
    | some st => P_TryMove_riders tryMove rest st

/-- The loop `while (numspechitint--)` of `P_TryMove` over the pending lines, last
entry first: a line is crossed when the side of the new position differs from the
side of the old one. -/
def P_TryMove_cross (w : World) (thing : Nat) (x y oldx oldy : Int) :
    List Nat → List crossing_t
  | [] => []
  | l :: rest =>
    let ld := w.lines l
    let side := w.P_PointOnLineSide x y ld
    let oldside := w.P_PointOnLineSide oldx oldy ld
    if side ≠ oldside then
      { line := l, oldside := oldside, thing := thing } :: P_TryMove_cross w thing x y oldx oldy rest
    else P_TryMove_cross w thing x y oldx oldy rest

/-- The call `P_HandleSlopeLanding(thing, slope)` of `P_TryMove`, made when the actor
did not start on the ground and the surface has a slope. -/
def P_TryMove_land (w : World) (startingonground : Bool) (m : mobj_t) (slope : Option Nat) :
    mobj_t :=
  match slope with
  | some sl =>
    if !startingonground then
      { m with momx := (w.P_HandleSlopeLanding m sl).1, momy := (w.P_HandleSlopeLanding m sl).2.1,
               momz := (w.P_HandleSlopeLanding m sl).2.2 }
    else m
  | none => m

/-- The slope that `P_TryMove` lets the actor stand on. -/
def P_TryMove_slope (w : World) (tm : tm_t) (startingonground : Bool) (m : mobj_t) : mobj_t :=
  if !hasFlag m.flags MF_NOCLIPHEIGHT then
    -- Assign thing's standingslope if needed
    if m.z ≤ tm.floorz ∧ !hasFlag m.eflags MFE_VERTICALFLIP then
      if (P_TryMove_land w startingonground m tm.floorslope).momz ≤ 0 then
        { P_TryMove_land w startingonground m tm.floorslope with standingslope := tm.floorslope }
      else P_TryMove_land w startingonground m tm.floorslope
    else if m.z + m.height ≥ tm.ceilingz ∧ hasFlag m.eflags MFE_VERTICALFLIP then
      if (P_TryMove_land w startingonground m tm.ceilingslope).momz ≥ 0 then
        { P_TryMove_land w startingonground m tm.ceilingslope with
          standingslope := tm.ceilingslope }
      else P_TryMove_land w startingonground m tm.ceilingslope
    else m
  else
    -- don't set standingslope if you're not going to clip against it
    { m with standingslope := none }

/-- The mover as `P_TryMove` links it into its new position: the probed surfaces
are committed, the slope is assigned, `x` and `y` are set, `MFE_ONGROUND` follows
`tm.floorthing`, and `P_SetThingPosition` puts the actor in the sector at `(x, y)`. -/
def P_TryMove_link (w : World) (tm : tm_t) (startingonground : Bool) (m : mobj_t) (x y : Int) :
    mobj_t :=
  let m1 : mobj_t :=
    P_TryMove_slope w tm startingonground
      { m with floorz := tm.floorz, ceilingz := tm.ceilingz,
               floorrover := tm.floorrover, ceilingrover := tm.ceilingrover }
  { m1 with x := x, y := y,
            eflags := if tm.floorthing ≠ none then clearFlag m1.eflags MFE_ONGROUND -- not on real floor
                      else m1.eflags ||| MFE_ONGROUND,
            sector := w.R_PointInSubsector x y }

/-- The part of `P_TryMove` after the pushable block: the commit of the probed
surfaces, the relink at `(x, y)` and the delivery of the crossed special lines. -/
def P_TryMove_commit (w : World) (st : State) (thing : Nat) (x y oldx oldy : Int)
    (startingonground : Bool) : Option State :=
  let m := P_TryMove_link w st.tm startingonground (st.mo thing) x y
  -- remove any duplicates that may be in spechitint
  match spechitint_removedups (st.setMo thing m) with
  | none => none
  | some st =>
    -- handle any of the special lines that were crossed
    if !hasFlag m.flags MF_NOCLIP then
      some { st with
             crossed := st.crossed ++ P_TryMove_cross w thing x y oldx oldy st.pending.reverse,
             numspechitint := w.SIZE_MAX }
    else some st

/-- The function `P_TryMove`, with `tryMove` standing for its recursive use on the
riders of a pushable.  The sound and spark of a stair step, the terrain and the
pitch and roll of the actor are outside the data model. -/
def P_TryMove_with (w : World) (tryMove : State → Nat → Int → Int → Option State)
    (st : State) (thing : Nat) (x y : Int) (allowdropoff : Bool)
    (result : Option TryMoveResult_t) : Option (Bool × Option TryMoveResult_t × State) :=
  let oldx := (st.mo thing).x
  let oldy := (st.mo thing).y
  let startingonground := w.P_IsObjectOnGround (st.mo thing)
  -- Is the move OK?
  match increment_move w st thing x y allowdropoff result with
  | none => none
  | some (false, _, result, st) =>
    some (false, result.map (fun res => { res with success := false }), st)
  | some (true, _, result, st) =>
    -- If it's a pushable object, check if anything is standing on top and move it, too.
    let riders : Option State :=
      if hasFlag (st.mo thing).flags MF_PUSHABLE then
        P_TryMove_riders tryMove (w.pushableCells (st.mo thing).x (st.mo thing).y)
          { st with stand := thing, standx := x, standy := y }
      else some st
    match riders with
    | none => none
    | some st =>
      match P_TryMove_commit w st thing x y oldx oldy startingonground with
      | none => none
      | some st => some (true, result.map (fun res => { res with success := true }), st)

/-- The function `P_TryMove`.  `depth` bounds the nesting of moves of riders of riders;
`none` when a nested move is needed beyond it or a move does not end. -/
def P_TryMove (w : World) :
    Nat → State → Nat → Int → Int → Bool → Option TryMoveResult_t →
      Option (Bool × Option TryMoveResult_t × State)
  | 0, _, _, _, _, _, _ => none
  | depth + 1, st, thing, x, y, allowdropoff, result =>
    P_TryMove_with w
      (fun st1 t x1 y1 => (P_TryMove w depth st1 t x1 y1 true none).map (fun r => r.2.2))
      st thing x y allowdropoff result

/-! ## Relations used to state the theorems -/

/-- The actor `m'` differs from `m` at most in the fields that a probe writes:
`momz`, `floordrop`, `ceilingdrop` and the removal mark. -/
def mobj_t.probedFrom (m' m : mobj_t) : Prop :=
  m' = { m with momz := m'.momz, floordrop := m'.floordrop, ceilingdrop := m'.ceilingdrop,
                removed := m'.removed }

/-- The actor `m'` differs from `m` at most in the fields that `increment_move` and
its probes write: `z`, the cached floor and ceiling with their slabs, `eflags`,
`momz`, the two drops and the removal mark. -/
def mobj_t.movedFrom (m' m : mobj_t) : Prop :=
  m' = { m with z := m'.z, floorz := m'.floorz, ceilingz := m'.ceilingz,
                floorrover := m'.floorrover, ceilingrover := m'.ceilingrover,
                eflags := m'.eflags, momz := m'.momz, floordrop := m'.floordrop,
                ceilingdrop := m'.ceilingdrop, removed := m'.removed }

/-- What `increment_move` on actor `thing` may change between `st` and `st'`: the
listed fields of the mover, `tm` and the two line buffers; every other actor and the
logs of calls are as before. -/
def State.movedFrom (thing : Nat) (st' st : State) : Prop :=
  (st'.mo thing).movedFrom (st.mo thing) ∧ (∀ t, t ≠ thing → st'.mo t = st.mo t) ∧
  st'.crossed = st.crossed ∧ st'.damaged = st.damaged ∧ st'.stand = st.stand

/-- Whether a pass through the body of `increment_move` ended in `return false`. -/
def substep_t.rejected : substep_t → Bool
  | .reject _ _ => true
  | .next _ _ _ _ _ => false

/-- The actor `m'` differs from `m` at most in its momentum. -/
def mobj_t.pushedFrom (m' m : mobj_t) : Prop :=
  m' = { m with momx := m'.momx, momy := m'.momy, momz := m'.momz }

/-- What the rider scan of a pushable may change when it moves no player: the
momentum of actors other than the pushable `stand`. -/
def State.pushedFrom (st' st : State) : Prop :=
  (∀ i, (st'.mo i).pushedFrom (st.mo i)) ∧ st'.mo st.stand = st.mo st.stand ∧
  st'.stand = st.stand ∧ st'.tm = st.tm ∧ st'.spechitint = st.spechitint ∧
  st'.numspechitint = st.numspechitint ∧ st'.crossed = st.crossed ∧ st'.damaged = st.damaged

/-- The function `P_HitSlideLine`: the move `(tmxmove, tmymove)` loses its component
along the normal of the line, the normal being read from the fine tables on the side
of the line where `slidemo` is.  The three stores to `fixed_t` variables wrap. -/
def P_HitSlideLine (w : World) (slidemo : mobj_t) (ld : line_t) (tmxmove tmymove : Int) :
    Int × Int :=
  let side := w.P_PointOnLineSide slidemo.x slidemo.y ld
  let lineangle := wrapAngle (ld.angle - ANGLE_90)
  let lineangle := if side = 1 then wrapAngle (lineangle + ANGLE_180) else lineangle
  let lineangle := sar lineangle ANGLETOFINESHIFT
  let nx := w.FINECOSINE lineangle
  let ny := w.FINESINE lineangle
  let d := wrap32 (FixedMul tmxmove nx + FixedMul tmymove ny)
  (wrap32 (tmxmove - FixedMul nx d), wrap32 (tmymove - FixedMul ny d))

/-- The statements of `P_SlideMove` from the label `papercollision` up to its loop:
the momentum is clipped by `P_HitSlideLine` against `bestslideline` and written back
to the actor. -/
def P_SlideMove_clip (w : World) (mo : mobj_t) (bestslideline : line_t) : mobj_t :=
  { mo with momx := (P_HitSlideLine w mo bestslideline mo.momx mo.momy).1,
            momy := (P_HitSlideLine w mo bestslideline mo.momx mo.momy).2 }

/-- The fine tables are within `e` of the exact unit vector at the four axis
directions (the indices 0, 2048, 4096 and 6144 of the 8192 fine angles). -/
structure World.fineError (w : World) (e : Int) : Prop where
  east : |w.FINECOSINE 0 - FRACUNIT| ≤ e ∧ |w.FINESINE 0| ≤ e
  north : |w.FINECOSINE 2048| ≤ e ∧ |w.FINESINE 2048 - FRACUNIT| ≤ e
  west : |w.FINECOSINE 4096 + FRACUNIT| ≤ e ∧ |w.FINESINE 4096| ≤ e
  south : |w.FINECOSINE 6144| ≤ e ∧ |w.FINESINE 6144 + FRACUNIT| ≤ e

/-! ## The sector revalidation -/

/-- The call `P_DamageMobj(d.target, d.source, d.source, 1, d.damagetype)`, recorded in
the log of calls. -/
def State.damage (st : State) (d : damage_t) : State :=
  { st with damaged := st.damaged ++ [d] }

/-- The vertical adjustment of `P_ThingHeightClip` once the surfaces of the probe have
been copied to the actor `t`: an actor that rode a moved floor follows it, and a
floating actor is moved only when forced to. -/
def P_ThingHeightClip_adjust (tm : tm_t) (t : mobj_t) (onfloor floormoved : Bool)
    (oldfloorrover oldceilingrover : Option ffloor_t) : mobj_t :=
  let flipped := hasFlag t.eflags MFE_VERTICALFLIP
  if onfloor && !hasFlag t.flags MF_NOGRAVITY && floormoved then
    let rover := if flipped then oldceilingrover else oldfloorrover
    -- Match the Thing's old floorz to an FOF and check for FOF_EXISTS
    -- If ~FOF_EXISTS, don't set mobj Z.
    if (match rover with
        | none => true
        | some r => hasFlag r.fofflags FOF_EXISTS && hasFlag r.fofflags FOF_SOLID) then
      { t with pmomz := if flipped then t.ceilingz - (t.z + t.height) else t.floorz - t.z,
               eflags := t.eflags ||| MFE_APPLYPMOMZ,
               z := if flipped then t.ceilingz - t.height else t.floorz }
    else t
  else if tm.floorthing.isNone then
    -- don't adjust a floating monster unless forced to
    if flipped then
      if !onfloor ∧ t.z < tm.floorz then { t with z := t.floorz } else t
    else if !onfloor ∧ t.z + t.height > tm.ceilingz then { t with z := t.ceilingz - t.height }
    else t
  else t

/-- The function `P_ThingHeightClip`: the actor is probed where it stands, takes the
surfaces of the probe, and is adjusted vertically; the answer is false when the actor
does not fit between them.  (The call of `P_PlayerHitFloor` touches only the player
record and is left out.) -/
def P_ThingHeightClip (w : World) (st : State) (thing : Nat) : Bool × State :=
  let t := st.mo thing
  let onfloor := w.P_IsObjectOnGround t
  if hasFlag t.flags MF_NOCLIPHEIGHT then (true, st)
  else
    let st1 := (P_CheckPosition w st thing t.x t.y none).2.2
    let t1 := st1.mo thing
    if t1.removed then (true, st1)
    else
      let tm := st1.tm
      let floormoved := (hasFlag t1.eflags MFE_VERTICALFLIP && tm.ceilingz != t1.ceilingz)
        || (!hasFlag t1.eflags MFE_VERTICALFLIP && tm.floorz != t1.floorz)
      let t2 : mobj_t := { t1 with floorz := tm.floorz, ceilingz := tm.ceilingz,
                                   floorrover := tm.floorrover,
                                   ceilingrover := tm.ceilingrover }
      -- Ugly hack?!?! As long as just ceilingz is the lowest,
      -- you'll still get crushed, right?
      if tm.floorz > t.floorz + t2.height then (true, st1.setMo thing t2)
      else
        let t3 := P_ThingHeightClip_adjust tm t2 onfloor floormoved t.floorrover t.ceilingrover
        -- debug: be sure it falls to the floor
        let t4 : mobj_t := { t3 with eflags := clearFlag t3.eflags MFE_ONGROUND }
        if t4.ceilingz - t4.floorz < t4.height ∧ t4.z ≥ t4.floorz then (false, st1.setMo thing t4)
        else (true, st1.setMo thing t4)

/-- The slab loop of `PIT_ChangeSector` over the slabs of the actor's sector.  It
yields `none` where the C code sets `nofit` and returns false (a slab is blocked by an
immune pushable), and otherwise the `killer` found so far. -/
def PIT_ChangeSector_ffloors (w : World) (thing : mobj_t) (immunepushable : Bool) :
    List ffloor_t → Option Nat → Option (Option Nat)
  | [], killer => some killer
  | rover :: rest, killer =>
    if !((hasFlag rover.fofflags FOF_BLOCKPLAYER && thing.player.isSome)
          || (hasFlag rover.fofflags FOF_BLOCKOTHERS && !thing.player.isSome))
        || !hasFlag rover.fofflags FOF_EXISTS then
      PIT_ChangeSector_ffloors w thing immunepushable rest killer
    else
      let delta1 := thing.z - cdiv (rover.bottomheight + rover.topheight) 2
      let delta2 := (thing.z + thing.height) - cdiv (rover.bottomheight + rover.topheight) 2
      if rover.bottomheight ≤ thing.ceilingz ∧ cabs delta1 ≥ cabs delta2 then
        if immunepushable then none -- FOF is blocked by pushable
        else
          -- If the thing was crushed by a crumbling FOF, reward the player who made it crumble!
          PIT_ChangeSector_ffloors w thing immunepushable rest
            (match w.crumbleKiller thing rover with
             | some k => some k
             | none => killer)
      else PIT_ChangeSector_ffloors w thing immunepushable rest killer

/-- The end of `PIT_ChangeSector`: `if (realcrush && crushchange) P_DamageMobj(...)`,
then "keep checking". -/
def PIT_ChangeSector_rest (st : State) (thing : Nat) (realcrush : Bool) : Bool × State :=
  if realcrush && st.crushchange then
    (true, st.damage { target := thing, damagetype := DMG_NORMAL })
  else (true, st)

/-- The part of `PIT_ChangeSector` for an actor that does not fit and interacts with
the crusher: a pushable that is not vulnerable blocks a real ceiling or a slab
(`nofit` is set and the answer is false); otherwise the actor is crushed when
`realcrush` holds. -/
def PIT_ChangeSector_crush (w : World) (st : State) (thing : Nat) (realcrush immunepushable : Bool) :
    Bool × State :=
  let t := st.mo thing
  let sec := w.sectors t.sector
  -- Thing doesn't fit. If thing is vulnerable, that means it's being crushed. If thing is
  -- pushable, it might just be blocked by another object - check if it's really a ceiling!
  if t.z + t.height > t.ceilingz ∧ t.z ≤ t.ceilingz then
    if immunepushable ∧ t.z + t.height > sec.ceilingheight then
      -- Thing is a pushable and blocks the moving ceiling
      (false, { st with nofit := true })
    else
      -- Check FOFs in the sector
      match (if sec.ffloors ≠ [] ∧ (realcrush ∨ immunepushable) then
               PIT_ChangeSector_ffloors w t immunepushable sec.ffloors none
             else some none) with
      | none => (false, { st with nofit := true })
      | some killer =>
        if realcrush then
          -- Crush the object
          if w.netgame && (match t.player with | some p => p.spectator | none => false) then
            (true, st.damage { target := thing, damagetype := DMG_SPECTATOR })
          else (true, st.damage { target := thing, source := killer, damagetype := DMG_CRUSHED })
        else PIT_ChangeSector_rest st thing realcrush
  else PIT_ChangeSector_rest st thing realcrush

/-- The function `PIT_ChangeSector`. -/
def PIT_ChangeSector (w : World) (st : State) (thing : Nat) (realcrush : Bool) : Bool × State :=
  -- If a thing is both pushable and vulnerable, it doesn't block the crusher because it
  -- gets killed.
  let immunepushable :=
    decide ((st.mo thing).flags &&& (MF_PUSHABLE ||| MF_SHOOTABLE) = MF_PUSHABLE)
  let r := P_ThingHeightClip w st thing
  if r.1 then (true, r.2) -- thing fits, check next thing
  else if !hasFlag (r.2.mo thing).flags (MF_SHOOTABLE ||| MF_PUSHABLE)
      || hasFlag (r.2.mo thing).flags MF_NOCLIPHEIGHT then
    (true, r.2) -- doesn't interact with the crusher, just ignore it
  else PIT_ChangeSector_crush w r.2 thing realcrush immunepushable

/-- One scan of the first half of `P_CheckSector` over a list of actors:
`if (!PIT_ChangeSector(mo, false)) { nofit = true; return nofit; }`.  With `guarded`
the scan is one over a `touching_thinglist`, where an actor with `MF_NOBLOCKMAP` is
marked visited and passed over; each node is visited once, in list order.  The
answer is false when the function returns. -/
def P_CheckSector_scan (w : World) (guarded : Bool) : List Nat → State → Bool × State
  | [], st => (true, st)
  | t :: rest, st =>
    if guarded && hasFlag (st.mo t).flags MF_NOBLOCKMAP then
      P_CheckSector_scan w guarded rest st
    else if (PIT_ChangeSector w st t false).1 then
      P_CheckSector_scan w guarded rest (PIT_ChangeSector w st t false).2
    else (false, { (PIT_ChangeSector w st t false).2 with nofit := true })

/-- The loop of the first half of `P_CheckSector` over the attached sectors: the
touching actors of every attached sector marked solid are scanned. -/
def P_CheckSector_attached (w : World) : List (Nat × Bool) → State → Bool × State
  | [], st => (true, st)
  | (sec, solid) :: rest, st =>
    if !solid then P_CheckSector_attached w rest st
    else if (P_CheckSector_scan w true (w.sectors sec).touching_thinglist st).1 then
      P_CheckSector_attached w rest
        (P_CheckSector_scan w true (w.sectors sec).touching_thinglist st).2
    else (false, (P_CheckSector_scan w true (w.sectors sec).touching_thinglist st).2)

/-- The first half of `P_CheckSector`, "let's see if anything will keep it from
crushing": the polyobject scan, the attached sectors, then the touching actors of
the sector itself.  The answer is false when the function returns in this half. -/
def P_CheckSector_first (w : World) (st : State) (sector : Nat) : Bool × State :=
  let r1 := P_CheckSector_scan w false (w.polyobjThings sector) st
  if !r1.1 then r1
  else
    let r2 := P_CheckSector_attached w
      ((w.sectors sector).attached.zip (w.sectors sector).attachedsolid) r1.2
    if !r2.1 then r2
    else P_CheckSector_scan w true (w.sectors sector).touching_thinglist r2.2

/-- One scan of the second half of `P_CheckSector` over a list of actors:
`PIT_ChangeSector(mo, true); return nofit;` for the first actor that is not passed
over.  It yields `none` when the scan ends without a return. -/
def P_CheckSector_crush (w : World) (guarded : Bool) : List Nat → State → Option State
  | [], _ => none
  | t :: rest, st =>
    if guarded && hasFlag (st.mo t).flags MF_NOBLOCKMAP then P_CheckSector_crush w guarded rest st
    else some (PIT_ChangeSector w st t true).2

/-- The loop of the second half of `P_CheckSector` over the attached sectors. -/
def P_CheckSector_crushAttached (w : World) : List (Nat × Bool) → State → Option State
  | [], _ => none
  | (sec, solid) :: rest, st =>
    if !solid then P_CheckSector_crushAttached w rest st
    else
      match P_CheckSector_crush w true (w.sectors sec).touching_thinglist st with
      | some st1 => some st1
      | none => P_CheckSector_crushAttached w rest st

/-- The second half of `P_CheckSector`, "nothing blocked us, so lets crush for real":
the state with which the function returns. -/
def P_CheckSector_second (w : World) (st : State) (sector : Nat) : State :=
  match P_CheckSector_crush w false (w.polyobjThings sector) st with
  | some st1 => st1
  | none =>
    match P_CheckSector_crushAttached w
        ((w.sectors sector).attached.zip (w.sectors sector).attachedsolid) st with
    | some st1 => st1
    | none =>
      match P_CheckSector_crush w true (w.sectors sector).touching_thinglist st with
      | some st1 => st1
      | none => st

/-- The function `P_CheckSector`: the return value is `nofit`.  (The marks
`sector->moved` and the calls of `P_RecalcPrecipInSector` serve the renderer and the
precipitation and are left out.) -/
def P_CheckSector (w : World) (st : State) (sector : Nat) (crunch : Bool) : Bool × State :=
  let st0 : State := { st with nofit := false, crushchange := crunch }
  let r := P_CheckSector_first w st0 sector
  if !r.1 then (r.2.nofit, r.2)
  else ((P_CheckSector_second w r.2 sector).nofit, P_CheckSector_second w r.2 sector)

/-- The state in which the first half of `P_CheckSector` reaches the actor that
follows the actors `pre` in the touching list of the sector, or `none` when the
function returns before. -/
def P_CheckSector_reach (w : World) (st : State) (sector : Nat) (crunch : Bool)
    (pre : List Nat) : Option State :=
  let st0 : State := { st with nofit := false, crushchange := crunch }
  let r1 := P_CheckSector_scan w false (w.polyobjThings sector) st0
  if !r1.1 then none
  else
    let r2 := P_CheckSector_attached w
      ((w.sectors sector).attached.zip (w.sectors sector).attachedsolid) r1.2
    if !r2.1 then none
    else if !(P_CheckSector_scan w true pre r2.2).1 then none
    else some (P_CheckSector_scan w true pre r2.2).2

/-! ## The count of sub-steps -/

/-- The quotient of `a` by `r`, rounded up. -/
def ceilDiv (a r : Nat) : Nat := (a + r - 1) / r

/-- The number of probes that the specification gives for a move by `(dx, dy)` in
sub-steps of at most `r` per axis: `max(ceil(|dx| / r), ceil(|dy| / r), 1)`. -/
def increment_move_probes (dx dy r : Int) : Nat :=
  max (max (ceilDiv dx.natAbs r.toNat) (ceilDiv dy.natAbs r.toNat)) 1

/-! ## The early exit of the probe -/

/-- The answers of `T_MovePlane`, `result_e`. -/
inductive result_e where
  | ok
  | crushed
  | pastdest
deriving DecidableEq, Inhabited

/-- The assignment `sector->floorheight = h`. -/
def World.setFloorheight (w : World) (sector : Nat) (h : Int) : World :=
  { w with sectors :=
      (Function.update w.sectors sector { w.sectors sector with floorheight := h }) }

/-- The assignment `sector->ceilingheight = h`. -/
def World.setCeilingheight (w : World) (sector : Nat) (h : Int) : World :=
  { w with sectors :=
      (Function.update w.sectors sector { w.sectors sector with ceilingheight := h }) }

/-- The block that every branch of `T_MovePlane` runs on a floor: the floor is set to
`h` and the sector is checked; when `flag` holds (and, with `needattached`, the sector
has attached sectors) the floor is set back to `lastpos`, the sector is checked again
and the answer is `blocked`; otherwise the answer is `moved`. -/
def T_MovePlane_floor (w : World) (st : State) (sector : Nat) (crush : Bool) (h : Int)
    (needattached : Bool) (blocked moved : result_e) : result_e × World × State :=
  let lastpos := (w.sectors sector).floorheight
  let w1 := w.setFloorheight sector h
  let flag := (P_CheckSector w1 st sector crush).1
  let st1 := (P_CheckSector w1 st sector crush).2
  if flag && (!needattached || (w1.sectors sector).attached.length != 0) then
    (blocked, w1.setFloorheight sector lastpos,
      (P_CheckSector (w1.setFloorheight sector lastpos) st1 sector crush).2)
  else (moved, w1, st1)

/-- The same block on a ceiling. -/
def T_MovePlane_ceiling (w : World) (st : State) (sector : Nat) (crush : Bool) (h : Int)
    (needattached : Bool) (blocked moved : result_e) : result_e × World × State :=
  let lastpos := (w.sectors sector).ceilingheight
  let w1 := w.setCeilingheight sector h
  let flag := (P_CheckSector w1 st sector crush).1
  let st1 := (P_CheckSector w1 st sector crush).2
  if flag && (!needattached || (w1.sectors sector).attached.length != 0) then
    (blocked, w1.setCeilingheight sector lastpos,
      (P_CheckSector (w1.setCeilingheight sector lastpos) st1 sector crush).2)
  else (moved, w1, st1)

/-- The function `T_MovePlane`: the answer, the map with the plane of the sector where
the function leaves it, and the state after the checks of the sector.  Heights are
exact integers; the mark `sector->moved` serves the renderer and is left out. -/
def T_MovePlane (w : World) (st : State) (sector : Nat) (speed dest : Int) (crush : Bool)
    (floorOrCeiling direction : Int) : result_e × World × State :=
  let sec := w.sectors sector
  if floorOrCeiling = 0 then
    -- moving a floor
    if direction = -1 then
      -- Moving a floor down
      if sec.floorheight - speed < dest then
        T_MovePlane_floor w st sector crush dest true .pastdest .pastdest
      else T_MovePlane_floor w st sector crush (sec.floorheight - speed) true .crushed .ok
    else if direction = 1 then
      -- Moving a floor up
      -- keep floor from moving through ceilings
      let destheight := if dest < sec.ceilingheight then dest else sec.ceilingheight
      if sec.floorheight + speed > destheight then
        T_MovePlane_floor w st sector crush destheight false .pastdest .pastdest
      else
        -- crushing is possible
        T_MovePlane_floor w st sector crush (sec.floorheight + speed) false .crushed .ok
    else (.ok, w, st)
  else if floorOrCeiling = 1 then
    -- moving a ceiling
    if direction = -1 then
      -- moving a ceiling down
      -- keep ceiling from moving through floors
      let destheight := if dest > sec.floorheight then dest else sec.floorheight
      if sec.ceilingheight - speed < destheight then
        T_MovePlane_ceiling w st sector crush destheight false .pastdest .pastdest
      else
        -- crushing is possible
        T_MovePlane_ceiling w st sector crush (sec.ceilingheight - speed) false .crushed .ok
    else if direction = 1 then
      -- moving a ceiling up
      if sec.ceilingheight + speed > dest then
        T_MovePlane_ceiling w st sector crush dest true .pastdest .pastdest
      else T_MovePlane_ceiling w st sector crush (sec.ceilingheight + speed) true .crushed .ok
    else (.ok, w, st)
  else (.ok, w, st)

/-! ## Teleport moves -/

/-- A node of a sector list, `msecnode_t`: the sector and the actor.  The links
`m_sectorlist_next` are the order of the list that holds the nodes. -/
structure msecnode_t where
  m_sector : Nat
  m_thing : Option Nat := none
deriving DecidableEq, Inhabited

/-- The search loop of `P_AddSecnode`: the first node for the sector `s` gets
`m_thing = thing` ("keep it"); `none` when the list has no node for `s`. -/
def P_AddSecnode_keep (s thing : Nat) : List msecnode_t → Option (List msecnode_t)
  | [] => none
  | node :: rest =>
    if node.m_sector = s then some ({ node with m_thing := some thing } :: rest)
    else (P_AddSecnode_keep s thing rest).map (fun l => node :: l)

/-- The function `P_AddSecnode` on the list that starts at `nextnode`: when no node
for the sector exists, a new one is added at the head.  (The new node is also put at
the head of `s->touching_thinglist`, the thread of the sector, which this list does
not hold.) -/
def P_AddSecnode (s thing : Nat) (nextnode : List msecnode_t) : List msecnode_t :=
  match P_AddSecnode_keep s thing nextnode with
  | some l => l
  | none => { m_sector := s, m_thing := some thing } :: nextnode

/-- The function `PIT_GetSectors` for the actor `tm.thing = thing`: the new
`sector_list`.  The function always answers `BMIT_CONTINUE`. -/
def PIT_GetSectors (w : World) (tm : tm_t) (thing : Nat) (sector_list : List msecnode_t)
    (ld : line_t) : List msecnode_t :=
  if tm.bbox.right ≤ ld.bbox.left ∨ tm.bbox.left ≥ ld.bbox.right
      ∨ tm.bbox.top ≤ ld.bbox.bottom ∨ tm.bbox.bottom ≥ ld.bbox.top then sector_list
  else if w.P_BoxOnLineSide tm.bbox ld ≠ -1 then sector_list
  else if ld.polyobj.isSome then sector_list -- line belongs to a polyobject, don't add it
  else
    -- This line crosses through the object.
    let l1 := P_AddSecnode ld.frontsector thing sector_list
    -- Use sidedefs instead of 2s flag to determine two-sidedness.
    if ld.hasBacksector then P_AddSecnode ld.backsector thing l1 else l1

/-- Modelled from the spec: `forEachLineInCell(cell, visitor)` of the spatial index for
the visitor `PIT_GetSectors`, which never aborts: the lines of one cell are handed
to the visitor in order, and a line already met in this scan (the epoch counter
`validcount`, here the list `seen` of line indices) is skipped. -/
def P_BlockLinesIterator_sectors (w : World) (tm : tm_t) (thing : Nat) :
    List line_t → List Nat → List msecnode_t → List Nat × List msecnode_t
  | [], seen, l => (seen, l)
  | ld :: rest, seen, l =>
    if seen.contains ld.idx then P_BlockLinesIterator_sectors w tm thing rest seen l
    else P_BlockLinesIterator_sectors w tm thing rest (ld.idx :: seen)
          (PIT_GetSectors w tm thing l ld)

/-- The loop of `P_CreateSecNodeList` over the blockmap cells. -/
def P_CreateSecNodeList_lines (w : World) (tm : tm_t) (thing : Nat) :
    List (List line_t) → List Nat → List msecnode_t → List msecnode_t
  | [], _, l => l
  | cell :: rest, seen, l =>
    P_CreateSecNodeList_lines w tm thing rest
      (P_BlockLinesIterator_sectors w tm thing cell seen l).1
      (P_BlockLinesIterator_sectors w tm thing cell seen l).2

/-- The values that `P_CreateSecNodeList` writes to `tm` before its scan. -/
def P_CreateSecNodeList_tm (st : State) (thing : Nat) (x y : Int) : tm_t :=
  { st.tm with
    thing := some thing, flags := (st.mo thing).flags, x := x, y := y,
    bbox := { top := y + (st.mo thing).radius, bottom := y - (st.mo thing).radius,
              right := x + (st.mo thing).radius, left := x - (st.mo thing).radius } }

/-- The function `P_CreateSecNodeList`: the new `sector_list` and the state, in which
`tm` is restored at the end. -/
def P_CreateSecNodeList (w : World) (st : State) (sector_list : List msecnode_t)
    (thing : Nat) (x y : Int) : List msecnode_t × State :=
  let ptm := st.tm
  -- First, clear out the existing m_thing fields.
  let l0 := sector_list.map (fun node => { node with m_thing := none })
  let tm := P_CreateSecNodeList_tm st thing x y
  let l1 := P_CreateSecNodeList_lines w tm thing (w.blockLines tm.bbox) [] l0
  -- Add the sector of the (x, y) point to sector_list.
  let l2 := P_AddSecnode (st.mo thing).sector thing l1
  -- Now delete any nodes that won't be used. These are the ones where
  -- m_thing is still NULL.
  let l3 := l2.filter (fun node => node.m_thing.isSome)
  (l3, P_RestoreTMStruct { st with tm := tm } ptm)

/-- The line crosses the box of `tm`, is no line of a polyobject, and has the sector
`s` on one of its sides. -/
def PIT_GetSectors_adds (w : World) (tm : tm_t) (ld : line_t) (s : Nat) : Prop :=
  ¬ (tm.bbox.right ≤ ld.bbox.left ∨ tm.bbox.left ≥ ld.bbox.right
      ∨ tm.bbox.top ≤ ld.bbox.bottom ∨ tm.bbox.bottom ≥ ld.bbox.top) ∧
  w.P_BoxOnLineSide tm.bbox ld = -1 ∧ ld.polyobj = none ∧
  (ld.frontsector = s ∨ (ld.hasBacksector = true ∧ ld.backsector = s))

/-- The sectors of the nodes that are marked as kept (`m_thing` is set). -/
def keptSectors (l : List msecnode_t) : List Nat :=
  (l.filter (fun node => node.m_thing.isSome)).map (fun node => node.m_sector)

/-- Every kept node of the list belongs to `thing` and is the first node of its
sector in the list. -/
def keptFirst (thing : Nat) : List msecnode_t → Prop
  | [] => True
  | node :: rest =>
    (node.m_thing = none ∨ node.m_thing = some thing) ∧
    (∀ m ∈ rest, m.m_thing ≠ none → m.m_sector ≠ node.m_sector) ∧ keptFirst thing rest

/-! ## Splitscreen parties -/

/-- What `g_party.cpp` reads from other units: the array `playerconsole` and the
constant `MAXSPLITSCREENPLAYERS`, the capacity of the member vector of a party. -/
structure Lobby where
  playerconsole : Nat → Nat := id
  MAXSPLITSCREENPLAYERS : Nat := 4

/-- The two party managers: `local_party.pool_` and `final_party.pool_`, where a
party is the list of player numbers in its `vec_`. -/
structure Parties where
  local_party : Nat → List Nat := fun _ => []
  final_party : Nat → List Nat := fun _ => []

/-- The conversion `Party::Console(player)`. -/
def Party.Console (lb : Lobby) (player : Nat) : Nat := lb.playerconsole player

/-- The function `Party::add(const Party&)`: every player of `party` is appended;
`none` when the vector would grow beyond its capacity. -/
def Party.add (lb : Lobby) (vec party : List Nat) : Option (List Nat) :=
  if (vec ++ party).length ≤ lb.MAXSPLITSCREENPLAYERS then some (vec ++ party) else none

/-- The function `Party::remove`: every player whose console is the same is removed. -/
def Party.remove (lb : Lobby) (vec : List Nat) (console : Nat) : List Nat :=
  vec.filter (fun other => Party.Console lb other != console)

/-- The function `Party::contains`. -/
def Party.contains (vec : List Nat) (player : Nat) : Bool := vec.contains player

/-- The algorithm `std::unique_copy` after its first element: an element is copied
when `eq` does not hold between the last copied element and it. -/
def unique_copy_from {α : Type} (eq : α → α → Bool) (last : α) : List α → List α
  | [] => []
  | b :: rest =>
    if eq last b then unique_copy_from eq last rest else b :: unique_copy_from eq b rest

/-- The algorithm `std::unique_copy`: the first element of every run of equal
elements. -/
def unique_copy {α : Type} (eq : α → α → Bool) : List α → List α
  | [] => []
  | a :: rest => a :: unique_copy_from eq a rest

/-- The function `Party::consoles`: a party of the players that start a run of
players of one console. -/
def Party.consoles (lb : Lobby) (vec : List Nat) : List Nat :=
  unique_copy (fun a b => Party.Console lb a == Party.Console lb b) vec

/-- The loop `for (Party::Console other : party.consoles()) pool_[other].add(...)` of
`FinalPartyManager::join` over the consoles that are left. -/
def FinalPartyManager.join_add (lb : Lobby) (guestparty : List Nat) :
    List Nat → (Nat → List Nat) → Option (Nat → List Nat)
  | [], pool => some pool
  | other :: rest, pool =>
    match Party.add lb (pool other) guestparty with
    | none => none
    | some vec => FinalPartyManager.join_add lb guestparty rest (Function.update pool other vec)

/-- The function `FinalPartyManager::join`; `host` and `guest` are consoles.  `none`
when a member vector overflows.  (The viewports that `rebuild_displayplayers` sets
are outside this state.) -/
def FinalPartyManager.join (lb : Lobby) (s : Parties) (host guest : Nat) :
    Option (Bool × Parties) :=
  let party := s.final_party host
  -- Already in the same party.
  if Party.contains party guest then some (false, s)
  -- Parties do not fit when merged.
  else if party.length + (s.local_party guest).length > lb.MAXSPLITSCREENPLAYERS then
    some (false, s)
  else
    match FinalPartyManager.join_add lb (s.local_party guest)
        ((Party.consoles lb party).map (Party.Console lb)) s.final_party with
    | none => none
    | some pool => some (true, { s with final_party := Function.update pool guest (pool host) })

/-- The function `FinalPartyManager::leave`; `player` is a console.  The loop runs
over a copy of the party. -/
def FinalPartyManager.leave (lb : Lobby) (s : Parties) (player : Nat) : Parties :=
  let pool := (s.final_party player).foldl
    (fun pool member =>
      Function.update pool (Party.Console lb member)
        (Party.remove lb (pool (Party.Console lb member)) player))
    s.final_party
  { s with final_party := Function.update pool player (s.local_party player) }

/-- The function `G_BuildLocalSplitscreenParty`. -/
def G_BuildLocalSplitscreenParty (lb : Lobby) (s : Parties) (player : Nat) : Parties :=
  let c := Party.Console lb player
  let s1 : Parties := { s with local_party := Function.update s.local_party c
                                 (s.local_party c ++ [player]) }
  { s1 with final_party := Function.update s1.final_party c (s1.local_party c) }

/-- The function `G_JoinParty`. -/
def G_JoinParty (lb : Lobby) (s : Parties) (host guest : Nat) : Option (Bool × Parties) :=
  FinalPartyManager.join lb s (Party.Console lb host) (Party.Console lb guest)

/-- The function `G_LeaveParty`. -/
def G_LeaveParty (lb : Lobby) (s : Parties) (player : Nat) : Parties :=
  FinalPartyManager.leave lb s (Party.Console lb player)

/-! ## Actor against actor -/

/-- The last part of `PIT_CheckThing`, "z checking at last", for two actors that are
solid and not `MF_NOCLIP`: an actor that the mover passes under caps the ceiling,
and otherwise its top, one scaled unit higher, may become the floor (for a flipped
mover the roles of floor and ceiling are swapped).  `thing` is the index of the
other actor `t`. -/
def PIT_CheckThing_solid (tm : tm_t) (mover : mobj_t) (thing : Nat) (t : mobj_t) :
    BlockItReturn_t × tm_t :=
  if hasFlag mover.eflags MFE_VERTICALFLIP then
    -- pass under
    if mover.z > t.z + t.height then
      if t.z + t.height > tm.floorz then
        (.BMIT_CONTINUE,
          { tm with floorz := t.z + t.height, floorrover := none, floorslope := none,
                    floorpic := -1 })
      else (.BMIT_CONTINUE, tm)
    -- block only when jumping not high enough
    else if mover.player.isSome ∧ mover.z + mover.height > t.z - t.scale
        ∧ mover.z + mover.height < mover.ceilingz then
      if hasFlag t.flags MF_GRENADEBOUNCE
          && (hasFlag t.flags MF_MONITOR || hasFlag t.info_flags MF_MONITOR) then
        (.BMIT_ABORT, tm) -- Gold monitor hack...
      else
        (.BMIT_CONTINUE,
          { tm with floorz := t.z - t.scale, ceilingz := t.z - t.scale, -- block while in air
                    ceilingrover := none, ceilingslope := none, ceilingpic := -1,
                    floorthing := some thing }) -- needed for side collision
    else if t.z - t.scale < tm.ceilingz ∧ mover.z ≤ t.z + t.height then
      (.BMIT_CONTINUE,
        { tm with ceilingz := t.z - t.scale, ceilingrover := none, ceilingslope := none,
                  ceilingpic := -1, floorthing := some thing }) -- thing we may stand on
    else (.BMIT_CONTINUE, tm)
  else
    -- pass under
    if mover.z + mover.height < t.z then
      if t.z < tm.ceilingz then
        (.BMIT_CONTINUE,
          { tm with ceilingz := t.z, ceilingrover := none, ceilingslope := none,
                    ceilingpic := -1 })
      else (.BMIT_CONTINUE, tm)
    -- block only when jumping not high enough
    else if mover.player.isSome ∧ mover.z < t.z + t.height + t.scale
        ∧ mover.z > mover.floorz then
      if hasFlag t.flags MF_GRENADEBOUNCE
          && (hasFlag t.flags MF_MONITOR || hasFlag t.info_flags MF_MONITOR) then
        (.BMIT_ABORT, tm) -- Gold monitor hack...
      else
        (.BMIT_CONTINUE,
          { tm with floorz := t.z + t.height + t.scale,
                    ceilingz := t.z + t.height + t.scale, -- block while in air
                    floorrover := none, floorslope := none, floorpic := -1,
                    floorthing := some thing }) -- needed for side collision
    else if t.z + t.height + t.scale > tm.floorz ∧ mover.z + mover.height ≥ t.z then
      (.BMIT_CONTINUE,
        { tm with floorz := t.z + t.height + t.scale, floorrover := none,
                  floorslope := none, floorpic := -1,
                  floorthing := some thing }) -- thing we may stand on
    else (.BMIT_CONTINUE, tm)

/-- The end of `PIT_CheckThing`, from the test for two enemies on.  (The calls of
`P_DoFanAndGasJet` that return nothing act on state outside this model.) -/
def PIT_CheckThing_tail (w : World) (tm : tm_t) (mover : mobj_t) (thing : Nat) (t : mobj_t) :
    BlockItReturn_t × tm_t :=
  -- thanks to sal for solidenemies dot lua
  if hasFlag t.flags (MF_ENEMY ||| MF_BOSS) ∧ hasFlag mover.flags (MF_ENEMY ||| MF_BOSS)
      ∧ t.z + t.height ≥ mover.z ∧ mover.z + mover.height ≥ t.z then (.BMIT_ABORT, tm)
  else
    match (if mover.player.isSome then w.PIT_CheckThing_player mover t tm else none) with
    | some r => (r, tm)
    | none =>
      if (hasFlag mover.flags MF_SPRING || mover.type == MT_STEAM || mover.type == MT_SPIKE
            || mover.type == MT_WALLSPIKE) && t.player.isSome then
        -- springs, gas jets and springs should never be able to step up onto a player
        (.BMIT_CONTINUE, tm)
      -- z checking at last
      -- Treat noclip things as non-solid!
      else if t.flags &&& (MF_SOLID ||| MF_NOCLIP) = MF_SOLID
          ∧ mover.flags &&& (MF_SOLID ||| MF_NOCLIP) = MF_SOLID then
        PIT_CheckThing_solid tm mover thing t
      else (.BMIT_CONTINUE, tm) -- not solid not blocked

/-- The function `PIT_CheckThing` for the other actor `thing` of the store `mo`, with
`mover` the actor `tm.thing` as the probe holds it: the answer and `tm`. -/
def PIT_CheckThing (w : World) (mo : Nat → mobj_t) (tm : tm_t) (mover : mobj_t) (thing : Nat) :
    BlockItReturn_t × tm_t :=
  let t := mo thing
  if tm.thing = none ∨ mover.removed then
    (.BMIT_STOP, tm) -- func just popped our tm.thing, cannot continue.
  -- Ignore... things.
  else if t.removed then (.BMIT_CONTINUE, tm)
  -- don't clip against self
  else if some thing = tm.thing then (.BMIT_CONTINUE, tm)
  -- Ignore spectators
  else if (match mover.player with | some p => p.spectator | none => false)
      || (match t.player with | some p => p.spectator | none => false) then
    (.BMIT_CONTINUE, tm)
  -- Ignore the collision if BOTH things are in hitlag.
  else if t.hitlag > 0 ∧ mover.hitlag > 0 then (.BMIT_CONTINUE, tm)
  else if hasFlag t.flags MF_NOCLIPTHING
      || !hasFlag t.flags (MF_SOLID ||| MF_SPECIAL ||| MF_PAIN ||| MF_SHOOTABLE ||| MF_SPRING) then
    (.BMIT_CONTINUE, tm)
  else if cabs (t.x - tm.x) ≥ t.radius + mover.radius
      ∨ cabs (t.y - tm.y) ≥ t.radius + mover.radius then
    (.BMIT_CONTINUE, tm) -- didn't hit it
  else
    match w.PIT_CheckThing_kinds mover t tm with
    | some r => (r, tm)
    | none => PIT_CheckThing_tail w tm mover thing t

/-- Modelled from the spec: `forEachActorInCell(cell, visitor)` of the spatial index
(`P_BlockThingsIterator` is not part of the sources).  The actors of one cell are
handed to the visitor in order; the iteration ends with `true` when the visitor
answers stop, and with `false` as soon as it answers abort. -/
def P_BlockThingsIterator (w : World) (mo : Nat → mobj_t) (mover : mobj_t) :
    List Nat → tm_t → Bool × tm_t
  | [], tm => (true, tm)
  | thing :: rest, tm =>
    match PIT_CheckThing w mo tm mover thing with
    | (.BMIT_CONTINUE, tm1) => P_BlockThingsIterator w mo mover rest tm1
    | (.BMIT_STOP, tm1) => (true, tm1)
    | (.BMIT_ABORT, tm1) => (false, tm1)

/-- The actor loop of `P_CheckPosition` over the blockmap cells: a cell whose
iteration is aborted makes `blockval` false, here `blocked` true; after any other
cell `tm.hitthing` is set to `tm.floorthing`. -/
def P_CheckPosition_things (w : World) (mo : Nat → mobj_t) (mover : mobj_t) :
    List (List Nat) → Bool → tm_t → Bool × tm_t
  | [], blocked, tm => (blocked, tm)
  | cell :: rest, blocked, tm =>
    match P_BlockThingsIterator w mo mover cell tm with
    | (false, tm1) => P_CheckPosition_things w mo mover rest true tm1
    | (true, tm1) =>
      P_CheckPosition_things w mo mover rest blocked { tm1 with hitthing := tm1.floorthing }

/-- The verdict of the actor scan of a probe, computed with `PIT_CheckThing` over the
actors of the store `mo` that the blockmap hands over.  The rules of `PIT_CheckThing`
that can remove the mover are outside this model, so the test
`P_MobjWasRemoved(tm.thing)` after a cell succeeds only for a mover that was removed
before the scan. -/
def P_CheckPosition_thingscan (w : World) (mo : Nat → mobj_t) (mover : mobj_t) (tm : tm_t) :
    thingscan_t :=
  let r := P_CheckPosition_things w mo mover (w.blockThings tm.bbox) false tm
  { blocked := r.1, removed := !(w.blockThings tm.bbox).isEmpty && mover.removed,
    floorz := r.2.floorz, ceilingz := r.2.ceilingz, floorrover := r.2.floorrover,
    ceilingrover := r.2.ceilingrover, floorslope := r.2.floorslope,
    ceilingslope := r.2.ceilingslope, floorpic := r.2.floorpic, ceilingpic := r.2.ceilingpic,
    floorthing := r.2.floorthing, hitthing := r.2.hitthing }

/-! ## The slide and bounce resolvers

`tmxmove`, `tmymove`, `slidemo` and `bestslideline` are file-level variables of
`p_map.c` that each resolver assigns before it reads them; they are local values
here.  A resolver returns nothing; the value below is the state it leaves, and `none`
where a nested `P_TryMove` runs out of `depth` or the loop of `P_SlideMove` out of
`fuel`. -/

/-- Modelled from the spec: the fixed-point divide of the "fixed-point arithmetic and
geometry primitives" (`FixedDiv` is declared outside the sources): the dividend
shifted left by `FRACBITS`, divided with truncation toward zero. -/
def FixedDiv (a b : Int) : Int := cdiv (a * 2 ^ FRACBITS) b

/-- The function `P_CheckLavaWall`: the first slab of `sec` that exists, is swimmable,
belongs to a lava sector and overlaps the actor vertically makes the call
`P_DamageMobj(mo, NULL, NULL, 1, DMG_NORMAL)`. -/
def P_CheckLavaWall (w : World) (st : State) (mo : Nat) (sec : sector_t) : State :=
  let m := st.mo mo
  let hit : ffloor_t → Bool := fun rover =>
    if !hasFlag rover.fofflags FOF_EXISTS then false
    else if !hasFlag rover.fofflags FOF_SWIMMABLE then false
    else if rover.master_damagetype ≠ SD_LAVA then false
    else if (if hasFlag m.eflags MFE_VERTICALFLIP
        then decide (w.P_GetFFloorTopZAt rover m.x m.y < m.z - m.height)
        else decide (w.P_GetFFloorTopZAt rover m.x m.y < m.z)) then false
    else if (if hasFlag m.eflags MFE_VERTICALFLIP
        then decide (w.P_GetFFloorBottomZAt rover m.x m.y > m.z)
        else decide (w.P_GetFFloorBottomZAt rover m.x m.y > m.z + m.height)) then false
    else true
  if sec.ffloors.any hit then st.damage { target := mo, damagetype := DMG_NORMAL } else st

/-- The fake linedef that `P_SlideMove` builds along a paper-thin blocker: the two
vertices, `dx`, `dy` and `slopetype` are assigned, the other fields are what the
local held. -/
def P_SlideMove_junk (w : World) (blocker : mobj_t) : line_t :=
  let cosradius := FixedMul blocker.radius (w.FINECOSINE (sar blocker.angle ANGLETOFINESHIFT))
  let sinradius := FixedMul blocker.radius (w.FINESINE (sar blocker.angle ANGLETOFINESHIFT))
  { w.junk with
    v1x := blocker.x - cosradius, v1y := blocker.y - sinradius,
    v2x := blocker.x + cosradius, v2y := blocker.y + sinradius,
    dx := 2 * cosradius, dy := 2 * sinradius,
    slopetype :=
      if cosradius = 0 then ST_VERTICAL
      else if sinradius = 0 then ST_HORIZONTAL
      else if decide (sinradius > 0) = decide (cosradius > 0) then ST_POSITIVE
      else ST_NEGATIVE }

/-- The box cases of `P_SlideMove` against the blocking actor `blocker` ("There's only
four possible cases"): the first test that holds zeroes the momentum on its axis and
tries the move to the position flush with the box of the blocker on that axis; where
none holds both components of the momentum are zeroed. -/
def P_SlideMove_box (w : World) (depth : Nat) (st : State) (mo blocker : Nat) : Option State :=
  let m := st.mo mo
  let b := st.mo blocker
  if m.y + m.radius ≤ b.y - b.radius then
    (P_TryMove w depth (st.setMo mo { m with momy := 0 }) mo
      (m.x + m.momx) (b.y - b.radius - m.radius) true none).map (fun r => r.2.2)
  else if m.y - m.radius ≥ b.y + b.radius then
    (P_TryMove w depth (st.setMo mo { m with momy := 0 }) mo
      (m.x + m.momx) (b.y + b.radius + m.radius) true none).map (fun r => r.2.2)
  else if m.x + m.radius ≤ b.x - b.radius then
    (P_TryMove w depth (st.setMo mo { m with momx := 0 }) mo
      (b.x - b.radius - m.radius) (m.y + m.momy) true none).map (fun r => r.2.2)
  else if m.x - m.radius ≥ b.x + b.radius then
    (P_TryMove w depth (st.setMo mo { m with momx := 0 }) mo
      (b.x + b.radius + m.radius) (m.y + m.momy) true none).map (fun r => r.2.2)
  else some (st.setMo mo { m with momx := 0, momy := 0 })

/-- One axis of a pass of the loop of `P_SlideMove`: the coordinate to try and what
is left of the move, which advances by at most the radius. -/
def P_SlideMove_axis (pos radius tmmove : Int) : Int × Int :=
  if tmmove > radius then (pos + radius, tmmove - radius)
  else if tmmove < -radius then (pos - radius, tmmove + radius)
  else (pos + tmmove, 0)

/-- The stair step of `P_SlideMove` after a first pass that failed: the move along y
alone, and if that fails the move along x alone. -/
def P_SlideMove_stairstep (w : World) (depth : Nat) (st : State) (mo : Nat) : Option State :=
  match P_TryMove w depth st mo (st.mo mo).x ((st.mo mo).y + (st.mo mo).momy) true none with
  | none => none
  | some (true, _, st) => some st
  | some (false, _, st) =>
    (P_TryMove w depth st mo ((st.mo mo).x + (st.mo mo).momx) (st.mo mo).y true none).map
      (fun r => r.2.2)

/-- The `do ... while (tmxmove || tmymove)` loop of `P_SlideMove`, run for at most
`fuel` passes. -/
def P_SlideMove_loop (w : World) (depth : Nat) (mo : Nat) :
    Nat → Bool → Int → Int → State → Option State
  | 0, _, _, _, _ => none
  | fuel + 1, success, tmxmove, tmymove, st =>
    let m := st.mo mo
    let newx := (P_SlideMove_axis m.x m.radius tmxmove).1
    let tmxmove := (P_SlideMove_axis m.x m.radius tmxmove).2
    let newy := (P_SlideMove_axis m.y m.radius tmymove).1
    let tmymove := (P_SlideMove_axis m.y m.radius tmymove).2
    match P_TryMove w depth st mo newx newy true none with
    | none => none
    | some (false, _, st) =>
      if success || (st.mo mo).removed then some st -- Good enough!!
      else P_SlideMove_stairstep w depth st mo
    | some (true, _, st) =>
      if tmxmove ≠ 0 ∨ tmymove ≠ 0 then P_SlideMove_loop w depth mo fuel true tmxmove tmymove st
      else some st

/-- The part of `P_SlideMove` from the label `papercollision` on: the momentum is
clipped against `bestslideline`, written back, and walked in the loop. -/
def P_SlideMove_slide (w : World) (depth fuel : Nat) (st : State) (mo : Nat)
    (bestslideline : line_t) : Option State :=
  let m := P_SlideMove_clip w (st.mo mo) bestslideline
  P_SlideMove_loop w depth mo fuel false m.momx m.momy (st.setMo mo m)

/-- The function `P_SlideMove`. -/
def P_SlideMove (w : World) (depth fuel : Nat) (st : State) (mo : Nat)
    (result : Option TryMoveResult_t) : Option State :=
  let m := st.mo mo
  if m.removed then some st
  else
    match result with
    | none => some st
    | some res =>
      let blocker : Option Nat :=
        match res.mo with
        | some b =>
          if m.z + m.height > (st.mo b).z ∧ m.z < (st.mo b).z + (st.mo b).height then some b
          else none
        | none => none
      match blocker with
      | some b =>
        -- Don't mess with your momentum if it's a pushable object.
        if hasFlag (st.mo b).flags MF_PUSHABLE then some st
        else if hasFlag (st.mo b).flags MF_PAPERCOLLISION then
          P_SlideMove_slide w depth fuel st mo (P_SlideMove_junk w (st.mo b))
        else P_SlideMove_box w depth st mo b
      | none =>
        match res.line with
        | none => some st
        | some l =>
          let bestslideline := w.lines l
          let st :=
            if m.player.isSome ∧ bestslideline.sidenum1 ≠ 0xffff then
              P_CheckLavaWall w st mo
                (w.sectors (if w.P_PointOnLineSide m.x m.y bestslideline ≠ 0
                  then bestslideline.frontsector else bestslideline.backsector))
            else st
          P_SlideMove_slide w depth fuel st mo bestslideline

/-- The function `P_PlayerHitBounceLine`. -/
def P_PlayerHitBounceLine (w : World) (slidemo : mobj_t) (ld : line_t) (tmxmove tmymove : Int) :
    Int × Int :=
  let side := w.P_PointOnLineSide slidemo.x slidemo.y ld
  let lineangle := wrapAngle (ld.angle - ANGLE_90)
  let lineangle := if side = 1 then wrapAngle (lineangle + ANGLE_180) else lineangle
  let lineangle := sar lineangle ANGLETOFINESHIFT
  let movelen := w.P_AproxDistance tmxmove tmymove
  let movelen :=
    if slidemo.player.isSome ∧ movelen < 15 * w.mapobjectscale then 15 * w.mapobjectscale
    else movelen
  let x := FixedMul movelen (w.FINECOSINE lineangle)
  let y := FixedMul movelen (w.FINESINE lineangle)
  if P_IsLineTripWire ld then (wrap32 (x * 4), wrap32 (y * 4))
  else (wrap32 (tmxmove + x), wrap32 (tmymove + y))

/-- The function `P_HitBounceLine`. -/
def P_HitBounceLine (w : World) (ld : line_t) (tmxmove tmymove : Int) : Int × Int :=
  if ld.slopetype = ST_HORIZONTAL then (tmxmove, wrap32 (-tmymove))
  else if ld.slopetype = ST_VERTICAL then (wrap32 (-tmxmove), tmymove)
  else
    let lineangle := if ld.angle ≥ ANGLE_180 then ld.angle - ANGLE_180 else ld.angle
    let moveangle := w.R_PointToAngle2 0 0 tmxmove tmymove
    let deltaangle := wrapAngle (moveangle + 2 * (lineangle - moveangle))
    let deltaangle := sar deltaangle ANGLETOFINESHIFT
    let movelen := w.P_AproxDistance tmxmove tmymove
    (FixedMul movelen (w.FINECOSINE deltaangle), FixedMul movelen (w.FINESINE deltaangle))

/-- The decay of one component of the momentum of a player in `P_BouncePlayerMove`:
none after a wall bounce just made ("Stronger push-out"). -/
def P_BouncePlayerMove_decay (eflags : Nat) (mmom : Int) : Int :=
  if hasFlag eflags MFE_JUSTBOUNCEDWALL then mmom
  else FixedMul mmom (FRACUNIT - sar FRACUNIT 2 - sar FRACUNIT 3)

/-- The decay of one component of the momentum in `P_BounceMove`, by kind. -/
def P_BounceMove_decay (type : Nat) (mmom : Int) : Int :=
  if type = MT_SHELL then mmom
  else if type = MT_THROWNBOUNCE then FixedMul mmom (FRACUNIT - sar FRACUNIT 6 - sar FRACUNIT 5)
  else if type = MT_THROWNGRENADE then
    -- Quickly decay speed as it bounces
    FixedDiv mmom (2 * FRACUNIT)
  else FixedMul mmom (FRACUNIT - sar FRACUNIT 2 - sar FRACUNIT 3)

/-- The end of `P_BouncePlayerMove`, from the call of `P_PlayerHitBounceLine` on. -/
def P_BouncePlayerMove_bounce (w : World) (depth : Nat) (st : State) (mo : Nat)
    (bestslideline : line_t) (tmxmove tmymove oldmomx oldmomy : Int) : Option State :=
  let m := st.mo mo
  let t := P_PlayerHitBounceLine w m bestslideline tmxmove tmymove
  let m : mobj_t :=
    { m with eflags := m.eflags ||| MFE_JUSTBOUNCEDWALL, momx := t.1, momy := t.2,
             player := m.player.map (fun p => { p with cmomx := t.1, cmomy := t.2 }) }
  let st := st.setMo mo m
  if !P_IsLineTripWire bestslideline then
    match P_TryMove w depth st mo (m.x + t.1) (m.y + t.2) true none with
    | none => none
    | some (true, _, st) => some st
    | some (false, _, st) =>
      (P_TryMove w depth st mo ((st.mo mo).x - oldmomx) ((st.mo mo).y - oldmomy) true none).map
        (fun r => r.2.2)
  else some st

/-- The function `P_BouncePlayerMove`. -/
def P_BouncePlayerMove (w : World) (depth fuel : Nat) (st : State) (mo : Nat)
    (result : Option TryMoveResult_t) : Option State :=
  let m := st.mo mo
  if m.removed then some st
  else
    match m.player with
    | none => some st
    | some player =>
      match result with
      | none => some st
      | some res =>
        if player.spectator then P_SlideMove w depth fuel st mo result
        else
          match res.line with
          | none => some st
          | some l =>
            let bestslideline := w.lines l
            let tmxmove := P_BouncePlayerMove_decay m.eflags player.rmomx
            let tmymove := P_BouncePlayerMove_decay m.eflags player.rmomy
            if P_IsLineTripWire bestslideline then
              -- TRIPWIRE CANNOT BE MADE NONBOUNCY
              P_BouncePlayerMove_bounce w depth (st.setMo mo (w.K_ApplyTripWire m)) mo
                bestslideline tmxmove tmymove m.momx m.momy
            else if hasFlag bestslideline.flags ML_NOTBOUNCY then
              -- SRB2Kart: Non-bouncy line!
              P_SlideMove w depth fuel st mo result
            else
              P_BouncePlayerMove_bounce w depth (st.setMo mo (w.K_SpawnBumpEffect m)) mo
                bestslideline tmxmove tmymove m.momx m.momy

/-- The part of `P_BounceMove` for an actor that is no player and has not just
bounced: the momentum decays by kind, is reflected by `P_HitBounceLine` and tried;
after a failed try it is reversed and decays again.  The C code reads `result->line`
without a test of `result`, so a null `result` gives `none` here. -/
def P_BounceMove_reflect (w : World) (depth : Nat) (st : State) (mo : Nat)
    (result : Option TryMoveResult_t) : Option State :=
  let m := st.mo mo
  match result with
  | none => none
  | some res =>
    match res.line with
    | none => some st
    | some l =>
      let t := P_HitBounceLine w (w.lines l) (P_BounceMove_decay m.type m.momx)
        (P_BounceMove_decay m.type m.momy) -- clip the moves
      match P_TryMove w depth (st.setMo mo { m with momx := t.1, momy := t.2 }) mo
          (m.x + t.1) (m.y + t.2) true none with
      | none => none
      | some (true, _, st) => some st
      | some (false, _, st) =>
        if (st.mo mo).removed then some st
        else
          -- the move must have hit the middle, so bounce straight back
          some (st.setMo mo
            { (st.mo mo) with
              momx := FixedMul (wrap32 (-(st.mo mo).momx))
                (FRACUNIT - sar FRACUNIT 2 - sar FRACUNIT 3),
              momy := FixedMul (wrap32 (-(st.mo mo).momy))
                (FRACUNIT - sar FRACUNIT 2 - sar FRACUNIT 3) })

/-- The function `P_BounceMove`. -/
def P_BounceMove (w : World) (depth fuel : Nat) (st : State) (mo : Nat)
    (result : Option TryMoveResult_t) : Option State :=
  let m := st.mo mo
  if m.removed then some st
  else if m.player.isSome then P_BouncePlayerMove w depth fuel st mo result
  else if hasFlag m.eflags MFE_JUSTBOUNCEDWALL then P_SlideMove w depth fuel st mo result
  else P_BounceMove_reflect w depth st mo result

/-- The overlap of two boxes along one axis, in the words of the spec ("box
separation along whichever axis has the smaller overlap"): the sum of the radii less
the distance of the centres; it is negative where the boxes are apart. -/
def spec_boxOverlap (a ra b rb : Int) : Int := ra + rb - cabs (a - b)

/-! ## The reflect dispatch of `PIT_CheckThing` -/

/-- What the reflect dispatch of `PIT_CheckThing` does with a pair of actors. -/
inductive reflect_t where
  /-- The return of `K_BubbleShieldCollide(shield, other) ? BMIT_CONTINUE : BMIT_ABORT`. -/
  | bubble (shield other : Nat)
  /-- The return of `K_DropTargetCollide(target, other) ? BMIT_CONTINUE : BMIT_ABORT`. -/
  | droptarget (target other : Nat)
  /-- A return of `BMIT_CONTINUE` without a call. -/
  | skip
  /-- Control passes to the code below the dispatch. -/
  | pass
deriving DecidableEq, Inhabited

/-- The test of the reflect dispatch for a blown-up bubble shield: the actor is an
`MT_BUBBLESHIELD` whose target is a player with `bubbleblowup`, or is itself such a
player.  The C code reads `target->player` of a shield without a test of `target`;
a shield without target counts as not blown up here. -/
def PIT_CheckThing_bubbleblowup (mo : Nat → mobj_t) (a : mobj_t) : Bool :=
  (a.type == MT_BUBBLESHIELD
    && (match a.target with
        | some t =>
          (match (mo t).player with
           | some p => p.bubbleblowup != 0
           | none => false)
        | none => false))
  || (match a.player with
      | some p => p.bubbleblowup != 0
      | none => false)

/-- The reflect dispatch of `PIT_CheckThing` ("Bubble Shield reflect" down to "double
make sure drop targets won't collide with anything else") for the mover `tmthing`
and the other actor `thing`. -/
def PIT_CheckThing_reflect (mo : Nat → mobj_t) (tmthing thing : Nat) : reflect_t :=
  let t := mo thing
  let m := mo tmthing
  -- Bubble Shield reflect
  if PIT_CheckThing_bubbleblowup mo t = true
      ∧ (m.type = MT_ORBINAUT ∨ m.type = MT_JAWZ
        ∨ m.type = MT_BANANA ∨ m.type = MT_EGGMANITEM ∨ m.type = MT_BALLHOG
        ∨ m.type = MT_SSMINE ∨ m.type = MT_LANDMINE ∨ m.type = MT_SINK
        ∨ m.type = MT_GARDENTOP
        ∨ (m.type = MT_PLAYER ∧ t.target ≠ some tmthing)) then
    -- see if it went over / under
    if m.z > t.z + t.height then .skip -- overhead
    else if m.z + m.height < t.z then .skip -- underneath
    else .bubble thing tmthing
  else if PIT_CheckThing_bubbleblowup mo m = true
      ∧ (t.type = MT_ORBINAUT ∨ t.type = MT_JAWZ
        ∨ t.type = MT_BANANA ∨ t.type = MT_EGGMANITEM ∨ t.type = MT_BALLHOG
        ∨ t.type = MT_SSMINE ∨ m.type = MT_LANDMINE ∨ t.type = MT_SINK
        ∨ t.type = MT_GARDENTOP
        ∨ (t.type = MT_PLAYER ∧ m.target ≠ some thing)) then
    -- see if it went over / under
    if m.z > t.z + t.height then .skip -- overhead
    else if m.z + m.height < t.z then .skip -- underneath
    else .bubble tmthing thing
  -- double make sure bubbles won't collide with anything else
  else if t.type = MT_BUBBLESHIELD ∨ m.type = MT_BUBBLESHIELD then .skip
  -- Droptarget reflect
  else if (t.type = MT_DROPTARGET ∨ t.type = MT_DROPTARGET_SHIELD)
      ∧ (m.type = MT_ORBINAUT ∨ m.type = MT_JAWZ
        ∨ m.type = MT_BANANA ∨ m.type = MT_EGGMANITEM ∨ m.type = MT_BALLHOG
        ∨ m.type = MT_SSMINE ∨ m.type = MT_LANDMINE ∨ m.type = MT_SINK
        ∨ m.type = MT_GARDENTOP
        ∨ m.type = MT_PLAYER) then
    -- see if it went over / under
    if m.z > t.z + t.height then .skip -- overhead
    else if m.z + m.height < t.z then .skip -- underneath
    else .droptarget thing tmthing
  else if (m.type = MT_DROPTARGET ∨ m.type = MT_DROPTARGET_SHIELD)
      ∧ (t.type = MT_ORBINAUT ∨ t.type = MT_JAWZ
        ∨ t.type = MT_BANANA ∨ t.type = MT_EGGMANITEM ∨ t.type = MT_BALLHOG
        ∨ t.type = MT_SSMINE ∨ m.type = MT_LANDMINE ∨ t.type = MT_SINK
        ∨ t.type = MT_GARDENTOP
        ∨ t.type = MT_PLAYER) then
    -- see if it went over / under
    if m.z > t.z + t.height then .skip -- overhead
    else if m.z + m.height < t.z then .skip -- underneath
    else .droptarget tmthing thing
  -- double make sure drop targets won't collide with anything else
  else if t.type = MT_DROPTARGET ∨ m.type = MT_DROPTARGET
      ∨ t.type = MT_DROPTARGET_SHIELD ∨ m.type = MT_DROPTARGET_SHIELD then .skip
  else .pass

/-! ## Concrete scenes -/

/-- Two rooms side by side: sector 0 (floor 0, ceiling 128) where `x < 16`, sector 1
(floor `h`, ceiling 128) where `x ≥ 16`, and the two-sided line 0 between them along
`x = 16`.  The opening of the line has the higher floor as its bottom and the height
`h` as its floor step.  With `flags`, sector 1 carries sector special flags. -/
def twoRooms (h : Int) (flags : Nat) : World :=
  { sectors := fun i =>
      if i = 0 then { floorheight := 0, ceilingheight := 128 * FRACUNIT }
      else { floorheight := h, ceilingheight := 128 * FRACUNIT, specialflags := flags },
    R_PointInSubsector := fun x _ => if x < 16 * FRACUNIT then 0 else 1,
    lines := fun _ =>
      { idx := 0, special := 2001,
        bbox := { left := 16 * FRACUNIT, right := 16 * FRACUNIT,
                  bottom := -1024 * FRACUNIT, top := 1024 * FRACUNIT } },
    blockLines := fun _ =>
      [[{ idx := 0, special := 2001,
          bbox := { left := 16 * FRACUNIT, right := 16 * FRACUNIT,
                    bottom := -1024 * FRACUNIT, top := 1024 * FRACUNIT } }]],
    P_BoxOnLineSide := fun b _ =>
      if b.left < 16 * FRACUNIT ∧ 16 * FRACUNIT < b.right then -1
      else if b.right ≤ 16 * FRACUNIT then 0 else 1,
    P_PointOnLineSide := fun x _ _ => if x < 16 * FRACUNIT then 0 else 1,
    P_LineOpening := fun _ _ =>
      { opentop := 128 * FRACUNIT, openbottom := max h 0, lowfloor := min h 0,
        highceiling := 128 * FRACUNIT, openfloorstep := h } }

/-- The actor of the scenarios: radius 16, height 32, resting at the origin on the
floor of sector 0. -/
def walker : mobj_t :=
  { radius := 16 * FRACUNIT, height := 32 * FRACUNIT, ceilingz := 128 * FRACUNIT }

/-- A state whose only actor of interest is `m`, stored as actor 0. -/
def sceneOf (m : mobj_t) : State := { mo := fun _ => m }

/-- The two rooms with a floor 8 above, where the rider scan around a pushable
reaches actor 1. -/
def riderRooms : World :=
  { twoRooms (8 * FRACUNIT) 0 with pushableCells := fun _ _ => [1] }

/-- A pushable (actor 0) that moves with `momx = 8`, and a player (every other actor)
placed where the top of the pushable is once the pushable has stepped up by 8. -/
def riderScene : State :=
  { mo := fun i =>
      if i = 0 then { walker with flags := MF_SOLID ||| MF_PUSHABLE, momx := 8 * FRACUNIT }
      else { walker with flags := MF_SOLID, player := some {}, z := 41 * FRACUNIT,
                         floorz := 41 * FRACUNIT } }

/-- A pushable (actor 0) that moves with `momx = 8`, and a solid player with
`MF_NOCLIP` (every other actor) placed where the top of the pushable is once the
pushable has stepped up by 8. -/
def ghostScene : State :=
  { mo := fun i =>
      if i = 0 then { walker with flags := MF_SOLID ||| MF_PUSHABLE, momx := 8 * FRACUNIT }
      else { walker with flags := MF_SOLID ||| MF_NOCLIP, player := some {},
                         z := 41 * FRACUNIT, floorz := 41 * FRACUNIT } }

/-- Fine tables that hold the exact unit vectors at the four axis directions. -/
def exactTables : World :=
  { FINECOSINE := fun i => if i = 0 then FRACUNIT else if i = 4096 then -FRACUNIT else 0,
    FINESINE := fun i => if i = 2048 then FRACUNIT else if i = 6144 then -FRACUNIT else 0 }

/-- Fine tables sampled at half-steps, the way `finesine` is tabulated in the Doom
family of engines: the entry for index `i` is `FRACUNIT * sin((i + 1/2) * 2 * pi / 8192)`
cut to an integer, which at the four axis directions gives 25 and 65535 in place of 0
and `FRACUNIT`.  Only these four entries are given. -/
def halfStepTables : World :=
  { FINECOSINE := fun i =>
      if i = 0 then 65535 else if i = 2048 then -25 else if i = 4096 then -65535
      else if i = 6144 then 25 else 0,
    FINESINE := fun i =>
      if i = 0 then 25 else if i = 2048 then 65535 else if i = 4096 then -25
      else if i = 6144 then -65535 else 0 }

/-- An actor that moves by (10, 3) per tic. -/
def slider : mobj_t := { walker with momx := 10 * FRACUNIT, momy := 3 * FRACUNIT }

/-- A wall along the y axis. -/
def wallY : line_t := { angle := ANGLE_90, hasBacksector := false }

/-- A room whose ceiling has come down to 16: sector 0 (floor 0, ceiling 16) is
touched by actor 0. -/
def crusherRoom : World :=
  { sectors := fun _ =>
      { floorheight := 0, ceilingheight := 16 * FRACUNIT, touching_thinglist := [0] } }

/-- A vulnerable actor of height 32 resting on the floor. -/
def victim : mobj_t := { walker with flags := MF_SOLID ||| MF_SHOOTABLE }

/-- A pushable of height 32 that is not vulnerable, resting on the floor. -/
def crate : mobj_t := { walker with flags := MF_SOLID ||| MF_PUSHABLE }


/-- A crusher next to a high room: sector 0 (where `x < 16`, ceiling 16) is touched by
actor 0; sector 1 (where `x >= 16`) has its ceiling at 128; the opening of the line
between them is as low as the crusher. -/
def crusherEdge : World :=
  { twoRooms 0 0 with
    sectors := fun i =>
      if i = 0 then { floorheight := 0, ceilingheight := 16 * FRACUNIT, touching_thinglist := [0] }
      else { floorheight := 0, ceilingheight := 128 * FRACUNIT },
    P_LineOpening := fun _ _ =>
      { opentop := 16 * FRACUNIT, openbottom := 0, lowfloor := 0,
        highceiling := 128 * FRACUNIT } }

/-- The crate in the high room, with its box across the line. -/
def edgeCrate : mobj_t := { crate with x := 24 * FRACUNIT, sector := 1 }

/-- The crusher room touched by two actors: sector 0 (floor 0, ceiling 16) has the
actors 0 and 1 on its touching list. -/
def crusherPair : World :=
  { sectors := fun _ =>
      { floorheight := 0, ceilingheight := 16 * FRACUNIT, touching_thinglist := [0, 1] } }

/-- The two rooms on one level, where the line between them has sector 0 in front and
sector 1 behind. -/
def doorway : World :=
  { twoRooms 0 0 with
    blockLines := fun _ =>
      [[{ idx := 0, special := 2001, frontsector := 0, backsector := 1,
          bbox := { left := 16 * FRACUNIT, right := 16 * FRACUNIT,
                    bottom := -1024 * FRACUNIT, top := 1024 * FRACUNIT } }]] }

/-- A solid actor of radius 16 and height 32 that stands on the floor at `x = 24`. -/
def pillar : mobj_t := { walker with flags := MF_SOLID, x := 24 * FRACUNIT }

/-- The walker as a solid actor (actor 0) next to the pillar (every other actor). -/
def pillarActors (i : Nat) : mobj_t := if i = 0 then { walker with flags := MF_SOLID } else pillar

/-- One room (floor 0, ceiling 128) without lines, in which the blockmap hands the
actors 0 and 1 to every actor scan, and the scan is the one of `PIT_CheckThing`. -/
def pillarRoom : World :=
  { sectors := fun _ => { floorheight := 0, ceilingheight := 128 * FRACUNIT },
    blockThings := fun _ => [[0, 1]],
    checkThings := fun m t =>
      P_CheckPosition_thingscan { blockThings := fun _ => [[0, 1]] } pillarActors m t }

/-- The solid walker and the pillar. -/
def pillarScene : State := { mo := pillarActors }

/-- A one-sided wall along `x = 16` whose front faces the side where `x < 16`. -/
def outerWall : line_t :=
  { idx := 0, hasBacksector := false,
    bbox := { left := 16 * FRACUNIT, right := 16 * FRACUNIT,
              bottom := -1024 * FRACUNIT, top := 1024 * FRACUNIT } }

/-- The probe state of the walker standing at `(ax, 0)` for the candidate `(cx, 0)`. -/
def wallProbe (ax cx : Int) : probe_t :=
  { tm := { thing := some 0, x := cx, y := 0,
            bbox := { left := cx - 16 * FRACUNIT, right := cx + 16 * FRACUNIT,
                      bottom := -16 * FRACUNIT, top := 16 * FRACUNIT },
            ceilingz := 128 * FRACUNIT },
    thing := { walker with x := ax },
    spechit := [] }

/-- One open room (floor 0, ceiling 128) with exact tables at the axis directions;
every line index names a one-sided wall along the y axis that carries `flags`. -/
def bounceRoom (flags : Nat) : World :=
  { exactTables with
    sectors := fun _ => { floorheight := 0, ceilingheight := 128 * FRACUNIT },
    lines := fun _ =>
      { angle := ANGLE_90, hasBacksector := false, sidenum1 := 0xffff, flags := flags,
        slopetype := ST_VERTICAL } }

/-- The walker at the origin moving by (20, 20) per tic (actor 0) and a solid post of
radius 16 at `(bx, by)` (every other actor). -/
def postActors (bx by_ : Int) (i : Nat) : mobj_t :=
  if i = 0 then { walker with momx := 20 * FRACUNIT, momy := 20 * FRACUNIT }
  else { walker with flags := MF_SOLID, x := bx, y := by_ }

/-- The state of the walker and the post. -/
def postScene (bx by_ : Int) : State := { mo := postActors bx by_ }

/-- A player that moves by (10, 3) per tic. -/
def racer : mobj_t :=
  { slider with player := some { rmomx := 10 * FRACUNIT, rmomy := 3 * FRACUNIT } }

/-- Four actors of height 32 on one floor: a racer whose bubble shield is blown up
(actor 0), a land mine (actor 1), the bubble shield of the racer (actor 2), a drop
target (actor 3); every other actor is an orbinaut. -/
def reflectActors (i : Nat) : mobj_t :=
  if i = 0 then { walker with type := MT_PLAYER, player := some { bubbleblowup := 1 } }
  else if i = 1 then { walker with type := MT_LANDMINE }
  else if i = 2 then { walker with type := MT_BUBBLESHIELD, target := some 0 }
  else if i = 3 then { walker with type := MT_DROPTARGET }
  else { walker with type := MT_ORBINAUT }

/-! # Theorems -/

/-! ## Duplicate removal in the pending special lines -/

@[simp] theorem spechitint_copyinto_mo (st : State) : (spechitint_copyinto st).mo = st.mo := by
  unfold spechitint_copyinto; split <;> rfl

@[simp] theorem spechitint_copyinto_tm (st : State) : (spechitint_copyinto st).tm = st.tm := by
  unfold spechitint_copyinto; split <;> rfl

@[simp] theorem spechitint_copyinto_crossed (st : State) :
    (spechitint_copyinto st).crossed = st.crossed := by
  unfold spechitint_copyinto; split <;> rfl

theorem wrap32_natAbs_le (v : Int) : (wrap32 v).natAbs ≤ v.natAbs := by
  unfold wrap32
  omega

theorem increment_move_try_measure (noclip : Bool) (radius x tryx : Int) (hr : 1 ≤ radius) :
    (wrap32 (x - increment_move_try noclip radius x tryx)).natAbs
      ≤ (wrap32 (x - tryx)).natAbs ∧
    (increment_move_try noclip radius x tryx ≠ x →
      (wrap32 (x - increment_move_try noclip radius x tryx)).natAbs + 1
        ≤ (wrap32 (x - tryx)).natAbs) := by
  unfold increment_move_try wrap32
  split_ifs <;> constructor <;> intros <;> omega

theorem increment_move_body_next (w : World) (thing : Nat) (x y : Int) (a : Bool)
    (radius tryx tryy sj : Int) (result : Option TryMoveResult_t) (st : State)
    (tx ty sj' : Int) (res' : Option TryMoveResult_t) (st' : State)
    (h : increment_move_body w thing x y a radius tryx tryy sj result st
      = .next tx ty sj' res' st') :
    tx = increment_move_try (hasFlag (st.mo thing).flags MF_NOCLIP) radius x tryx ∧
    ty = increment_move_try (hasFlag (st.mo thing).flags MF_NOCLIP) radius y tryy := by
  unfold increment_move_body at h
  dsimp only at h
  rcases hp : P_CheckPosition w st thing
      (increment_move_try (hasFlag (st.mo thing).flags MF_NOCLIP) radius x tryx)
      (increment_move_try (hasFlag (st.mo thing).flags MF_NOCLIP) radius y tryy) result
    with ⟨b, r, s⟩
  rw [hp] at h
  cases b
  · simp at h
  · dsimp only at h
    repeat' split at h
    all_goals first
      | (injection h with h1 h2; exact ⟨h1.symm, h2.symm⟩)
      | (exact absurd h (by simp))

/-- The distance that the loop of `increment_move` still has to cover. -/
theorem increment_move_at_measure (w : World) (thing : Nat) (x y : Int) (a : Bool)
    (radius : Int) (hr : 1 ≤ radius) (n : Nat) :
    ∀ v0 v : loopvars_t, increment_move_at w thing x y a radius n v0 = some v →
      n + ((wrap32 (x - v.tryx)).natAbs + (wrap32 (y - v.tryy)).natAbs)
        ≤ (wrap32 (x - v0.tryx)).natAbs + (wrap32 (y - v0.tryy)).natAbs := by
  induction n with
  | zero =>
    intro v0 v h
    simp only [increment_move_at, Option.some.injEq] at h
    subst h
    omega
  | succ n ih =>
    intro v0 v h
    simp only [increment_move_at] at h
    split at h
    · exact absurd h (by simp)
    · rename_i tx ty sj res st hb
      split at h
      · rename_i hne
        have hnext := increment_move_body_next _ _ _ _ _ _ _ _ _ _ _ _ _ _ _ _ hb
        have hx := increment_move_try_measure (hasFlag (v0.st.mo thing).flags MF_NOCLIP)
          radius x v0.tryx hr
        have hy := increment_move_try_measure (hasFlag (v0.st.mo thing).flags MF_NOCLIP)
          radius y v0.tryy hr
        have := ih _ _ h
        simp only at this
        rw [← hnext.1] at hx
        rw [← hnext.2] at hy
        rcases hne with hne | hne
        · have := hx.2 hne
          omega
        · have := hy.2 hne
          omega
      · exact absurd h (by simp)

/-- A sub-step that rejects ends the loop with the answer false, whatever passes
are left after it. -/
theorem increment_move_loop_reject (w : World) (thing : Nat) (x y : Int) (a : Bool)
    (radius : Int) (n : Nat) :
    ∀ (v0 v : loopvars_t) (res : Option TryMoveResult_t) (st' : State) (k : Nat),
      increment_move_at w thing x y a radius n v0 = some v →
      increment_move_body w thing x y a radius v.tryx v.tryy v.stairjank v.result v.st
        = .reject res st' →
      increment_move_loop w thing x y a radius (n + 1 + k) v0.tryx v0.tryy v0.stairjank
        v0.result v0.st = some (false, v.stairjank, res, st') := by
  induction n with
  | zero =>
    intro v0 v res st' k h hb
    simp only [increment_move_at, Option.some.injEq] at h
    subst h
    have : 0 + 1 + k = k + 1 := by omega
    rw [this]
    simp only [increment_move_loop, hb]
  | succ n ih =>
    intro v0 v res st' k h hb
    simp only [increment_move_at] at h
    have : n + 1 + 1 + k = (n + 1 + k) + 1 := by omega
    rw [this]
    simp only [increment_move_loop]
    split at h
    · exact absurd h (by simp)
    · rename_i tx ty sj res1 st1 hb1
      split at h
      · rename_i hne
        simp only [hne, if_true]
        exact ih _ _ _ _ _ h hb
      · exact absurd h (by simp)

theorem increment_move_radius_pos (w : World) (m : mobj_t) (hscale : 0 < w.mapobjectscale) :
    1 ≤ increment_move_radius w m := by
  unfold increment_move_radius
  simp only [min_def, max_def]
  split_ifs <;> omega

/-- A rejecting sub-step makes `increment_move` and `P_TryMove` answer false. -/
theorem increment_move_reject_at (w : World) (st : State) (thing : Nat) (x y : Int)
    (a : Bool) (result : Option TryMoveResult_t) (hscale : 0 < w.mapobjectscale)
    (n : Nat) (v : loopvars_t) (res : Option TryMoveResult_t) (st' : State)
    (hat : increment_move_at w thing x y a (increment_move_radius w (st.mo thing)) n
      (increment_move_start st thing result) = some v)
    (hb : increment_move_body w thing x y a (increment_move_radius w (st.mo thing))
      v.tryx v.tryy v.stairjank v.result v.st = .reject res st') :
    increment_move w st thing x y a result = some (false, v.stairjank, res, st') ∧
    ∀ depth, P_TryMove w (depth + 1) st thing x y a result
      = some (false, res.map (fun r => { r with success := false }), st') := by
  have hm := increment_move_at_measure w thing x y a _
    (increment_move_radius_pos w (st.mo thing) hscale) n _ _ hat
  simp only [increment_move_start] at hm
  have hwx := wrap32_natAbs_le (x - (st.mo thing).x)
  have hwy := wrap32_natAbs_le (y - (st.mo thing).y)
  have hk : (x - (st.mo thing).x).natAbs + (y - (st.mo thing).y).natAbs + 1
      = n + 1 + ((x - (st.mo thing).x).natAbs + (y - (st.mo thing).y).natAbs - n) := by
    omega
  have hloop := increment_move_loop_reject w thing x y a _ n _ _ res st'
    ((x - (st.mo thing).x).natAbs + (y - (st.mo thing).y).natAbs - n) hat hb
  have hinc : increment_move w st thing x y a result = some (false, v.stairjank, res, st') := by
    unfold increment_move
    simp only
    rw [hk]
    exact hloop
  refine ⟨hinc, ?_⟩
  intro depth
  simp only [P_TryMove, P_TryMove_with, hinc]

/-! ## The step budget -/

/-- C1 (amended): for an actor without `MF_NOCLIP`, if at some sub-step the probe is
accepted and the opening fits, the step budget is positive, the actor's z is below
the probed floor and the floor step that the probe recorded (`tm.floorstep`)
exceeds the budget, then `increment_move` returns false and `P_TryMove` rejects
the move. -/
theorem increment_move_rejects_floorstep (w : World) (st : State) (thing : Nat) (x y : Int)
    (a : Bool) (result : Option TryMoveResult_t) (hscale : 0 < w.mapobjectscale)
    (n : Nat) (v : loopvars_t)
    (hat : increment_move_at w thing x y a (increment_move_radius w (st.mo thing)) n
      (increment_move_start st thing result) = some v)
    (hprobe : (increment_move_probe w x y (increment_move_radius w (st.mo thing)) thing v).1
      = true)
    (hclip : hasFlag (((increment_move_probe w x y (increment_move_radius w (st.mo thing))
      thing v).2.2).mo thing).flags MF_NOCLIP = false)
    (hfit : (((increment_move_probe w x y (increment_move_radius w (st.mo thing))
        thing v).2.2).mo thing).height
      ≤ ((increment_move_probe w x y (increment_move_radius w (st.mo thing)) thing v).2.2).tm.ceilingz
        - ((increment_move_probe w x y (increment_move_radius w (st.mo thing)) thing v).2.2).tm.floorz)
    (hbudget : 0 < P_GetThingStepUp w
      (((increment_move_probe w x y (increment_move_radius w (st.mo thing)) thing v).2.2).mo thing)
      (increment_move_next x y (increment_move_radius w (st.mo thing)) thing v).1
      (increment_move_next x y (increment_move_radius w (st.mo thing)) thing v).2)
    (hbelow : (((increment_move_probe w x y (increment_move_radius w (st.mo thing))
        thing v).2.2).mo thing).z
      < ((increment_move_probe w x y (increment_move_radius w (st.mo thing)) thing v).2.2).tm.floorz)
    (hstep : P_GetThingStepUp w
      (((increment_move_probe w x y (increment_move_radius w (st.mo thing)) thing v).2.2).mo thing)
      (increment_move_next x y (increment_move_radius w (st.mo thing)) thing v).1
      (increment_move_next x y (increment_move_radius w (st.mo thing)) thing v).2
      < ((increment_move_probe w x y (increment_move_radius w (st.mo thing)) thing v).2.2).tm.floorstep) :
    ∃ (res : Option TryMoveResult_t) (st' : State),
      increment_move w st thing x y a result = some (false, v.stairjank, res, st') ∧
      ∀ depth, P_TryMove w (depth + 1) st thing x y a result
        = some (false, res.map (fun r => { r with success := false }), st') := by
  rcases hp : increment_move_probe w x y (increment_move_radius w (st.mo thing)) thing v
    with ⟨b, res, s⟩
  rw [hp] at hprobe hclip hfit hbudget hbelow hstep
  simp only at hprobe hclip hfit hbudget hbelow hstep
  subst hprobe
  simp only [increment_move_probe, increment_move_next] at hp hbudget hstep
  refine ⟨res, { (spechitint_copyinto s) with
      tm := { (spechitint_copyinto s).tm with floatok := true } }, ?_⟩
  refine increment_move_reject_at w st thing x y a result hscale n v res _ hat ?_
  unfold increment_move_body
  simp only [hp]
  simp only [spechitint_copyinto_mo, spechitint_copyinto_tm, hclip, Bool.not_false, if_true]
  rw [if_neg (by omega)]
  unfold increment_move_policy
  simp only [hbudget, if_true]
  unfold increment_move_step
  simp only [hbelow, if_true]
  rw [if_neg (by omega)]

/-- C1, amended, on the scene with a floor 40 above: the actor moves by 8, its box
reaches over the line while its centre stays in the lower room, the line records a
floor step of 40 against a budget of 24, and the move is rejected. -/
theorem increment_move_rejects_floorstep_witness :
    ∃ (res : Option TryMoveResult_t) (st' : State),
      increment_move (twoRooms (40 * FRACUNIT) 0) (sceneOf walker) 0 (8 * FRACUNIT) 0 true none
        = some (false, (increment_move_start (sceneOf walker) 0 none).stairjank, res, st') ∧
      ∀ depth, P_TryMove (twoRooms (40 * FRACUNIT) 0) (depth + 1) (sceneOf walker) 0
          (8 * FRACUNIT) 0 true none
        = some (false, res.map (fun r => { r with success := false }), st') :=
  increment_move_rejects_floorstep (twoRooms (40 * FRACUNIT) 0) (sceneOf walker) 0
    (8 * FRACUNIT) 0 true none (by decide) 0 (increment_move_start (sceneOf walker) 0 none)
    rfl (by decide) (by decide) (by decide) (by decide) (by decide) (by decide)

/-- C1 fails as stated.  First scene: the actor (without `MF_NOCLIP`) moves by its
radius, so that its centre lands in the room whose floor is 40 above; the only
sub-step probes a floor that exceeds the actor's z by 40, more than the budget of
24, but the floor comes from the subsector, `tm.floorstep` stays 0, and
`increment_move` and `P_TryMove` accept the move and lift the actor by 40.
Second scene: the floor is 8 above in a sector flagged `SSF_NOSTEPUP`; the
budget is 0, the step policy is skipped, and the move is accepted. -/
theorem step_budget_counterexample :
    hasFlag walker.flags MF_NOCLIP = false ∧
    ((increment_move_probe (twoRooms (40 * FRACUNIT) 0) (16 * FRACUNIT) 0 (16 * FRACUNIT) 0
        (increment_move_start (sceneOf walker) 0 none)).1 = true ∧
      (increment_move_probe (twoRooms (40 * FRACUNIT) 0) (16 * FRACUNIT) 0 (16 * FRACUNIT) 0
        (increment_move_start (sceneOf walker) 0 none)).2.2.tm.floorz
        - ((increment_move_probe (twoRooms (40 * FRACUNIT) 0) (16 * FRACUNIT) 0 (16 * FRACUNIT) 0
            (increment_move_start (sceneOf walker) 0 none)).2.2.mo 0).z = 40 * FRACUNIT ∧
      P_GetThingStepUp (twoRooms (40 * FRACUNIT) 0) walker (16 * FRACUNIT) 0 = 24 * FRACUNIT ∧
      (increment_move (twoRooms (40 * FRACUNIT) 0) (sceneOf walker) 0 (16 * FRACUNIT) 0 true
        none).map (fun r => r.1) = some true ∧
      (P_TryMove (twoRooms (40 * FRACUNIT) 0) 1 (sceneOf walker) 0 (16 * FRACUNIT) 0 true
        none).map (fun r => (r.1, (r.2.2.mo 0).z)) = some (true, 40 * FRACUNIT)) ∧
    ((increment_move_probe (twoRooms (8 * FRACUNIT) SSF_NOSTEPUP) (16 * FRACUNIT) 0
        (16 * FRACUNIT) 0 (increment_move_start (sceneOf walker) 0 none)).1 = true ∧
      (increment_move_probe (twoRooms (8 * FRACUNIT) SSF_NOSTEPUP) (16 * FRACUNIT) 0
        (16 * FRACUNIT) 0 (increment_move_start (sceneOf walker) 0 none)).2.2.tm.floorz
        - ((increment_move_probe (twoRooms (8 * FRACUNIT) SSF_NOSTEPUP) (16 * FRACUNIT) 0
            (16 * FRACUNIT) 0 (increment_move_start (sceneOf walker) 0 none)).2.2.mo 0).z
          = 8 * FRACUNIT ∧
      P_GetThingStepUp (twoRooms (8 * FRACUNIT) SSF_NOSTEPUP) walker (16 * FRACUNIT) 0 = 0 ∧
      (increment_move (twoRooms (8 * FRACUNIT) SSF_NOSTEPUP) (sceneOf walker) 0 (16 * FRACUNIT)
        0 true none).map (fun r => r.1) = some true ∧
      (P_TryMove (twoRooms (8 * FRACUNIT) SSF_NOSTEPUP) 1 (sceneOf walker) 0 (16 * FRACUNIT) 0
        true none).map (fun r => (r.1, (r.2.2.mo 0).z)) = some (true, 0)) := by
  decide

/-! ## What a probe writes to the mover -/

theorem mobj_t.probedFrom_refl (m : mobj_t) : m.probedFrom m := rfl

theorem mobj_t.probedFrom_trans {a b c : mobj_t} (h1 : a.probedFrom b) (h2 : b.probedFrom c) :
    a.probedFrom c := by
  unfold mobj_t.probedFrom at *
  rw [h1, h2]

theorem mobj_t.probedFrom_set_removed {m k : mobj_t} (v : Bool) (h : m.probedFrom k) :
    mobj_t.probedFrom { m with removed := v } k := by
  unfold mobj_t.probedFrom at *
  rw [h]

theorem P_CheckPosition_goo_momz_thing (thing : mobj_t) (t b tt sl ms : Int) :
    (P_CheckPosition_goo_momz thing t b tt sl ms).probedFrom thing := by
  unfold P_CheckPosition_goo_momz
  split_ifs <;> exact mobj_t.probedFrom_refl _

theorem P_CheckPosition_goo_thing (pr : probe_t) (rover : ffloor_t) (t b tt sl ms : Int) :
    (P_CheckPosition_goo pr rover t b tt sl ms).thing
      = P_CheckPosition_goo_momz pr.thing t b tt sl ms := by
  unfold P_CheckPosition_goo
  simp only
  split_ifs <;> rfl

theorem P_CheckPosition_ffloor_thing (w : World) (sec : sector_t) (x y thingtop : Int)
    (pr : probe_t) (rover : ffloor_t) :
    (P_CheckPosition_ffloor w sec x y thingtop pr rover).thing.probedFrom pr.thing := by
  unfold P_CheckPosition_ffloor
  simp only
  split_ifs
  all_goals first
    | exact mobj_t.probedFrom_refl _
    | (rw [P_CheckPosition_goo_thing]; exact P_CheckPosition_goo_momz_thing _ _ _ _ _ _)

theorem P_CheckPosition_ffloors_thing (w : World) (sec : sector_t) (x y thingtop : Int)
    (l : List ffloor_t) :
    ∀ pr : probe_t,
      (l.foldl (P_CheckPosition_ffloor w sec x y thingtop) pr).thing.probedFrom pr.thing := by
  induction l with
  | nil => intro pr; exact mobj_t.probedFrom_refl _
  | cons r rest ih =>
    intro pr
    simp only [List.foldl_cons]
    exact mobj_t.probedFrom_trans (ih _) (P_CheckPosition_ffloor_thing w sec x y thingtop pr r)

theorem P_CheckPosition_polyobj_thing (w : World) (thingtop : Int) (pr : probe_t)
    (po : polyobj_t) : (P_CheckPosition_polyobj w thingtop pr po).thing = pr.thing := by
  unfold P_CheckPosition_polyobj
  dsimp only
  split <;> rfl

theorem P_CheckPosition_polyobjs_thing (w : World) (thingtop : Int) (l : List polyobj_t) :
    ∀ (seen : List Nat) (pr : probe_t),
      (P_CheckPosition_polyobjs w thingtop l seen pr).thing = pr.thing := by
  induction l with
  | nil => intro seen pr; rfl
  | cons po rest ih =>
    intro seen pr
    simp only [P_CheckPosition_polyobjs]
    split
    · exact ih _ _
    · rw [ih, P_CheckPosition_polyobj_thing]

theorem PIT_CheckLine_drops_thing (tm : tm_t) (thing : mobj_t) (o : opening_t) :
    (PIT_CheckLine_drops tm thing o).probedFrom thing := by
  unfold PIT_CheckLine_drops
  simp only
  split_ifs <;> exact mobj_t.probedFrom_refl _

theorem PIT_CheckLine_opening_thing (w : World) (pr : probe_t) (ld : line_t) (o : opening_t) :
    (PIT_CheckLine_opening w pr ld o).thing = PIT_CheckLine_drops pr.tm pr.thing o := by
  unfold PIT_CheckLine_opening add_spechit
  simp only
  split_ifs <;> rfl

theorem BlockItReturn_ite_thing {c : Prop} [Decidable c] (a b : BlockItReturn_t × probe_t)
    (m : mobj_t) (ha : a.2.thing.probedFrom m) (hb : b.2.thing.probedFrom m) :
    (if c then a else b).2.thing.probedFrom m := by
  split
  · exact ha
  · exact hb

theorem PIT_CheckLine_thing (w : World) (pr : probe_t) (ld : line_t) :
    (PIT_CheckLine w pr ld).2.thing.probedFrom pr.thing := by
  unfold PIT_CheckLine
  simp only
  repeat' apply BlockItReturn_ite_thing
  all_goals first
    | exact mobj_t.probedFrom_refl _
    | (rw [PIT_CheckLine_opening_thing]; exact PIT_CheckLine_drops_thing _ _ _)

theorem P_BlockLinesIterator_thing (w : World) (l : List line_t) :
    ∀ (seen : List Nat) (pr : probe_t),
      (P_BlockLinesIterator w l seen pr).2.2.thing.probedFrom pr.thing := by
  induction l with
  | nil => intro seen pr; exact mobj_t.probedFrom_refl _
  | cons ld rest ih =>
    intro seen pr
    simp only [P_BlockLinesIterator]
    split
    · exact ih _ _
    · have h := PIT_CheckLine_thing w pr ld
      split
      · rename_i pr1 heq
        rw [heq] at h
        exact mobj_t.probedFrom_trans (ih _ _) h
      · rename_i pr1 heq
        rw [heq] at h
        exact h
      · rename_i pr1 heq
        rw [heq] at h
        exact h

theorem P_CheckPosition_lines_thing (w : World) (cells : List (List line_t)) :
    ∀ (seen : List Nat) (blockval : Bool) (pr : probe_t),
      (P_CheckPosition_lines w cells seen blockval pr).2.thing.probedFrom pr.thing := by
  induction cells with
  | nil => intro seen blockval pr; exact mobj_t.probedFrom_refl _
  | cons cell rest ih =>
    intro seen blockval pr
    simp only [P_CheckPosition_lines]
    have h := P_BlockLinesIterator_thing w cell seen pr
    split
    · rename_i seen1 pr1 heq
      rw [heq] at h
      exact mobj_t.probedFrom_trans (ih _ _ _) h
    · rename_i seen1 pr1 heq
      rw [heq] at h
      exact mobj_t.probedFrom_trans (ih _ _ _) h

theorem P_CheckPosition_surfaces_thing (w : World) (x y thingtop : Int) (pr : probe_t) :
    (P_CheckPosition_surfaces w x y thingtop pr).thing.probedFrom pr.thing := by
  unfold P_CheckPosition_surfaces
  simp only [P_CheckPosition_polyobjs_thing]
  exact P_CheckPosition_ffloors_thing _ _ _ _ _ _ _

/-- A probe writes nothing to the mover but `momz`, the two drops and the removal
mark. -/
theorem P_CheckPosition_probe_thing (w : World) (tm : tm_t) (thing : mobj_t) (id : Nat)
    (x y : Int) (result : Option TryMoveResult_t) :
    (P_CheckPosition_probe w tm thing id x y result).2.2.thing.probedFrom thing := by
  have hbase : (P_CheckPosition_surfaces w x y (thing.z + thing.height)
      (P_CheckPosition_init w tm thing id x y)).thing.probedFrom thing :=
    mobj_t.probedFrom_trans (P_CheckPosition_surfaces_thing _ _ _ _ _)
      (mobj_t.probedFrom_refl _)
  unfold P_CheckPosition_probe
  simp only
  split_ifs
  · exact hbase
  · exact mobj_t.probedFrom_set_removed true hbase
  · exact mobj_t.probedFrom_trans (P_CheckPosition_lines_thing _ _ _ _ _) hbase

/-- On the global state a probe touches the mover, `tm` and `spechit` only. -/
theorem P_CheckPosition_frame (w : World) (st : State) (thing : Nat) (x y : Int)
    (result : Option TryMoveResult_t) :
    ((P_CheckPosition w st thing x y result).2.2.mo thing).probedFrom (st.mo thing) ∧
    (∀ t, t ≠ thing → (P_CheckPosition w st thing x y result).2.2.mo t = st.mo t) ∧
    (P_CheckPosition w st thing x y result).2.2.spechitint = st.spechitint ∧
    (P_CheckPosition w st thing x y result).2.2.numspechitint = st.numspechitint ∧
    (P_CheckPosition w st thing x y result).2.2.crossed = st.crossed ∧
    (P_CheckPosition w st thing x y result).2.2.damaged = st.damaged ∧
    (P_CheckPosition w st thing x y result).2.2.stand = st.stand := by
  unfold P_CheckPosition State.setMo
  refine ⟨?_, ?_, rfl, rfl, rfl, rfl, rfl⟩
  · simp only [Function.update_same]
    exact P_CheckPosition_probe_thing _ _ _ _ _ _ _
  · intro t ht
    simp only [Function.update_noteq ht]

/-! ## What the incremental mover writes -/

theorem mobj_t.probedFrom.movedFrom {a b : mobj_t} (h : a.probedFrom b) : a.movedFrom b := by
  unfold mobj_t.probedFrom at h
  unfold mobj_t.movedFrom
  rw [h]

theorem mobj_t.pushedFrom.player {a b : mobj_t} (h : a.pushedFrom b) : a.player = b.player := by
  unfold mobj_t.pushedFrom at h
  rw [h]

theorem mobj_t.probedFrom.probedFields {a b : mobj_t} (h : a.probedFrom b) :
    a.z = b.z ∧ a.height = b.height ∧ a.flags = b.flags ∧ a.floorz = b.floorz ∧
    a.ceilingz = b.ceilingz ∧ a.eflags = b.eflags ∧ a.x = b.x ∧ a.y = b.y := by
  unfold mobj_t.probedFrom at h
  rw [h]
  exact ⟨rfl, rfl, rfl, rfl, rfl, rfl, rfl, rfl⟩

theorem P_TryMove_cross_mem (w : World) (thing : Nat) (x y oldx oldy : Int) (l : List Nat)
    (c : crossing_t) (h : c ∈ P_TryMove_cross w thing x y oldx oldy l) :
    c.line ∈ l ∧ c.thing = thing ∧
    c.oldside = w.P_PointOnLineSide oldx oldy (w.lines c.line) ∧
    w.P_PointOnLineSide x y (w.lines c.line) ≠ c.oldside := by
  induction l with
  | nil => simp [P_TryMove_cross] at h
  | cons a rest ih =>
    by_cases hs : w.P_PointOnLineSide x y (w.lines a) ≠ w.P_PointOnLineSide oldx oldy (w.lines a)
    · simp only [P_TryMove_cross, hs, ne_eq, not_false_eq_true, if_true, List.mem_cons] at h
      rcases h with h | h
      · subst h
        exact ⟨List.mem_cons_self _ _, rfl, rfl, hs⟩
      · obtain ⟨h1, h2⟩ := ih h
        exact ⟨List.mem_cons_of_mem _ h1, h2⟩
    · simp only [P_TryMove_cross, hs, if_false] at h
      obtain ⟨h1, h2⟩ := ih h
      exact ⟨List.mem_cons_of_mem _ h1, h2⟩

theorem P_TryMove_cross_count (w : World) (thing : Nat) (x y oldx oldy : Int) (l : List Nat)
    (hnd : l.Nodup) (v : Nat) :
    (P_TryMove_cross w thing x y oldx oldy l).count
        { line := v, oldside := w.P_PointOnLineSide oldx oldy (w.lines v), thing := thing }
      = if v ∈ l ∧ w.P_PointOnLineSide x y (w.lines v) ≠ w.P_PointOnLineSide oldx oldy (w.lines v)
        then 1 else 0 := by
  induction l with
  | nil => simp [P_TryMove_cross]
  | cons a rest ih =>
    have hnd' := List.nodup_cons.1 hnd
    have ih' := ih hnd'.2
    by_cases hav : a = v
    · subst hav
      have h0 : (P_TryMove_cross w thing x y oldx oldy rest).count
          { line := a, oldside := w.P_PointOnLineSide oldx oldy (w.lines a), thing := thing }
          = 0 := by
        rw [ih']; simp [hnd'.1]
      by_cases hs : w.P_PointOnLineSide x y (w.lines a)
          ≠ w.P_PointOnLineSide oldx oldy (w.lines a)
      · simp only [P_TryMove_cross, hs, ne_eq, not_false_eq_true, if_true, List.count_cons_self,
          h0, List.mem_cons, true_or, and_self]
      · simp only [P_TryMove_cross, hs, if_false, h0, and_false]
    · have hne : ((⟨a, w.P_PointOnLineSide oldx oldy (w.lines a), thing⟩ : crossing_t)
          == ⟨v, w.P_PointOnLineSide oldx oldy (w.lines v), thing⟩) = false := by
        simp [hav]
      have hmem : (v ∈ a :: rest) ↔ v ∈ rest := by
        simp [List.mem_cons, Ne.symm hav]
      by_cases hs : w.P_PointOnLineSide x y (w.lines a)
          ≠ w.P_PointOnLineSide oldx oldy (w.lines a)
      · simp only [P_TryMove_cross, hs, ne_eq, not_false_eq_true, if_true, List.count_cons, hne,
          hmem]
        simpa using ih'
      · simp only [P_TryMove_cross, hs, if_false, hmem]
        exact ih'

/-- C6 at the failing input: a pushable without `MF_NOCLIP` that carries a solid
player with `MF_NOCLIP` moves across the special line 0.  The sub-step of the pushable
records line 0 and the sides of the two positions differ, so that one call
`P_CrossSpecialLine(line 0, 0, pushable)` is due; but `PIT_PushableMoved` moves the
rider with a nested `P_TryMove`, whose `increment_move` sets `numspechitint` to 0, and
restores `tm` only: the successful `P_TryMove` of the pushable makes no call of
`P_CrossSpecialLine` at all.  The same move in the same rooms, where the block
iteration hands no rider to `PIT_PushableMoved`, makes the one call. -/
theorem crossing_counterexample :
    hasFlag (ghostScene.mo 0).flags MF_NOCLIP = false ∧
    (increment_move riderRooms ghostScene 0 (16 * FRACUNIT) 0 true none).map
      (fun r => (r.1, r.2.2.2.pending)) = some (true, [0]) ∧
    riderRooms.P_PointOnLineSide (16 * FRACUNIT) 0 (riderRooms.lines 0)
      ≠ riderRooms.P_PointOnLineSide (ghostScene.mo 0).x (ghostScene.mo 0).y
          (riderRooms.lines 0) ∧
    (P_TryMove riderRooms 2 ghostScene 0 (16 * FRACUNIT) 0 true none).map
      (fun r => (r.1, r.2.2.crossed)) = some (true, []) ∧
    (P_TryMove (twoRooms (8 * FRACUNIT) 0) 2 ghostScene 0 (16 * FRACUNIT) 0 true none).map
      (fun r => (r.1, r.2.2.crossed))
      = some (true, [{ line := 0, oldside := 0, thing := 0 }]) := by
  refine ⟨?_, ?_, ?_, ?_, ?_⟩
  · decide
  · decide
  · decide
  · decide
  · decide

/-! ## Probing twice -/

theorem fixed_quot_bound (x B : Int) (h : |x| ≤ B) : |65536 * (x / 65536)| ≤ B + 65536 := by
  rw [abs_le] at h ⊢
  omega

theorem slide_core (s a m t u e : Int) (hs : s = 1 ∨ s = -1) (heF : e ≤ 65536)
    (ha : |a| ≤ e) (hm : |m| ≤ e) :
    65536 * |t - ((s * 65536 + a) * ((t * (s * 65536 + a)) / 65536 + (u * m) / 65536)) / 65536|
      ≤ 3 * e * |t| + 2 * e * |u| + 5 * 65536 ∧
    65536 * |(m * ((t * (s * 65536 + a)) / 65536 + (u * m) / 65536)) / 65536|
      ≤ e * (2 * |t| + |u| + 2) + 65536 ∧
    |(t * (s * 65536 + a)) / 65536 + (u * m) / 65536| ≤ 2 * |t| + |u| + 2 := by
  have he0 : 0 ≤ e := le_trans (abs_nonneg a) ha
  have e1 : (t * (s * 65536 + a)) / 65536 = (a * t) / 65536 + s * t := by
    have : t * (s * 65536 + a) = a * t + (s * t) * 65536 := by ring
    rw [this, Int.add_mul_ediv_right _ _ (by norm_num)]
  rw [e1]
  generalize hq1 : (a * t) / 65536 = q1
  generalize hq2 : (u * m) / 65536 = q2
  have e2 : (s * 65536 + a) * (q1 + s * t + q2)
      = a * (q1 + s * t + q2) + (t + s * (q1 + q2)) * 65536 := by
    rcases hs with hs | hs <;> subst hs <;> ring
  rw [e2, Int.add_mul_ediv_right _ _ (by norm_num)]
  generalize hq3 : (a * (q1 + s * t + q2)) / 65536 = q3
  generalize hq4 : (m * (q1 + s * t + q2)) / 65536 = q4
  have b1 : |65536 * q1| ≤ e * |t| + 65536 := by
    rw [← hq1]; apply fixed_quot_bound
    rw [abs_mul]; exact mul_le_mul_of_nonneg_right ha (abs_nonneg t)
  have b2 : |65536 * q2| ≤ e * |u| + 65536 := by
    rw [← hq2]; apply fixed_quot_bound
    rw [abs_mul, mul_comm]; exact mul_le_mul_of_nonneg_right hm (abs_nonneg u)
  have hs1 : |s| = 1 := by
    rcases hs with hs | hs <;> subst hs <;> simp
  have hst : |s * t| = |t| := by rw [abs_mul, hs1, one_mul]
  have hd : |q1 + s * t + q2| ≤ |t| + |q1| + |q2| := by
    calc |q1 + s * t + q2| ≤ |q1 + s * t| + |q2| := abs_add _ _
      _ ≤ |q1| + |s * t| + |q2| := by linarith [abs_add q1 (s * t)]
      _ = |t| + |q1| + |q2| := by rw [hst]; ring
  have b1' : 65536 * |q1| ≤ e * |t| + 65536 := by
    have := b1; rw [abs_mul] at this; simpa using this
  have b2' : 65536 * |q2| ≤ e * |u| + 65536 := by
    have := b2; rw [abs_mul] at this; simpa using this
  have hq1n := abs_nonneg q1
  have hq2n := abs_nonneg q2
  have htn := abs_nonneg t
  have hun := abs_nonneg u
  have eq1 : e * |q1| ≤ 65536 * |q1| := mul_le_mul_of_nonneg_right heF hq1n
  have eq2 : e * |q2| ≤ 65536 * |q2| := mul_le_mul_of_nonneg_right heF hq2n
  have et : e * |t| ≤ 65536 * |t| := mul_le_mul_of_nonneg_right heF htn
  have eu : e * |u| ≤ 65536 * |u| := mul_le_mul_of_nonneg_right heF hun
  have ed : e * |q1 + s * t + q2| ≤ e * |t| + e * |q1| + e * |q2| := by
    have := mul_le_mul_of_nonneg_left hd he0
    linarith
  have b3 : |65536 * q3| ≤ e * |q1 + s * t + q2| + 65536 := by
    rw [← hq3]; apply fixed_quot_bound
    rw [abs_mul]; exact mul_le_mul_of_nonneg_right ha (abs_nonneg _)
  have b4 : |65536 * q4| ≤ e * |q1 + s * t + q2| + 65536 := by
    rw [← hq4]; apply fixed_quot_bound
    rw [abs_mul]; exact mul_le_mul_of_nonneg_right hm (abs_nonneg _)
  have b3' : 65536 * |q3| ≤ e * |q1 + s * t + q2| + 65536 := by
    have := b3; rw [abs_mul] at this; simpa using this
  have b4' : 65536 * |q4| ≤ e * |q1 + s * t + q2| + 65536 := by
    have := b4; rw [abs_mul] at this; simpa using this
  have hsq : |s * (q1 + q2)| ≤ |q1| + |q2| := by
    rw [abs_mul, hs1, one_mul]; exact abs_add _ _
  have hq1t : |q1| ≤ |t| + 1 := by linarith
  have hq2u : |q2| ≤ |u| + 1 := by linarith
  have eq1' : e * |q1| ≤ e * (|t| + 1) := mul_le_mul_of_nonneg_left hq1t he0
  have eq2' : e * |q2| ≤ e * (|u| + 1) := mul_le_mul_of_nonneg_left hq2u he0
  refine ⟨?_, ?_, ?_⟩
  · have ht' : t - (q3 + (t + s * (q1 + q2))) = -(q3 + s * (q1 + q2)) := by ring
    rw [ht', abs_neg]
    have := abs_add q3 (s * (q1 + q2))
    linarith
  · linarith
  · linarith

theorem slide_exact (s t u : Int) (hs : s = 1 ∨ s = -1) :
    t - ((s * 65536 + 0) * ((t * (s * 65536 + 0)) / 65536 + (u * 0) / 65536)) / 65536 = 0 ∧
    u - (0 * ((t * (s * 65536 + 0)) / 65536 + (u * 0) / 65536)) / 65536 = u := by
  rcases hs with hs | hs <;> subst hs <;> constructor <;> omega

theorem wrap32_id (v : Int) (h1 : -2147483648 ≤ v) (h2 : v < 2147483648) : wrap32 v = v := by
  unfold wrap32; omega

theorem FixedMul_eq (a b : Int) : FixedMul a b = (a * b) / 65536 := by
  unfold FixedMul sar FRACBITS; norm_num

/-- The clipping of `P_HitSlideLine` for a normal `(n, m)` read from the tables, with
`n` within `e` of `s * FRACUNIT` and `m` within `e` of 0: the component along the
normal is left small and the other one nearly unchanged; both exactly so when
`e = 0`. -/
theorem slide_clip (s n m t u e : Int) (hs : s = 1 ∨ s = -1) (heF : e ≤ 65536)
    (hn : |n - s * 65536| ≤ e) (hm : |m| ≤ e) (ht : |t| ≤ 2 ^ 28) (hu : |u| ≤ 2 ^ 28) :
    65536 * |wrap32 (t - FixedMul n (wrap32 (FixedMul t n + FixedMul u m)))|
      ≤ 3 * e * |t| + 2 * e * |u| + 5 * 65536 ∧
    65536 * |wrap32 (u - FixedMul m (wrap32 (FixedMul t n + FixedMul u m))) - u|
      ≤ e * (2 * |t| + |u| + 2) + 65536 ∧
    (e = 0 → wrap32 (t - FixedMul n (wrap32 (FixedMul t n + FixedMul u m))) = 0 ∧
      wrap32 (u - FixedMul m (wrap32 (FixedMul t n + FixedMul u m))) = u) := by
  obtain ⟨a, rfl⟩ : ∃ a, n = s * 65536 + a := ⟨n - s * 65536, by ring⟩
  have ha : |a| ≤ e := by simpa using hn
  have he0 : 0 ≤ e := le_trans (abs_nonneg a) ha
  obtain ⟨c1, c2, c3⟩ := slide_core s a m t u e hs heF ha hm
  simp only [FixedMul_eq]
  have htn := abs_nonneg t
  have hun := abs_nonneg u
  have et : e * |t| ≤ 65536 * |t| := mul_le_mul_of_nonneg_right heF htn
  have eu : e * |u| ≤ 65536 * |u| := mul_le_mul_of_nonneg_right heF hun
  have ht2 : |t| ≤ 268435456 := by simpa using ht
  have hu2 : |u| ≤ 268435456 := by simpa using hu
  have hwd : wrap32 (t * (s * 65536 + a) / 65536 + u * m / 65536)
      = t * (s * 65536 + a) / 65536 + u * m / 65536 := by
    have := abs_le.1 c3
    apply wrap32_id <;> linarith [this.1, this.2]
  rw [hwd]
  have hw1 : wrap32 (t - (s * 65536 + a) * (t * (s * 65536 + a) / 65536 + u * m / 65536) / 65536)
      = t - (s * 65536 + a) * (t * (s * 65536 + a) / 65536 + u * m / 65536) / 65536 := by
    have hb : |t - (s * 65536 + a) * (t * (s * 65536 + a) / 65536 + u * m / 65536) / 65536|
        ≤ 3 * |t| + 2 * |u| + 5 := by linarith
    have := abs_le.1 hb
    apply wrap32_id <;> linarith [this.1, this.2]
  have hw2 : wrap32 (u - m * (t * (s * 65536 + a) / 65536 + u * m / 65536) / 65536)
      = u - m * (t * (s * 65536 + a) / 65536 + u * m / 65536) / 65536 := by
    have hb : |m * (t * (s * 65536 + a) / 65536 + u * m / 65536) / 65536|
        ≤ 2 * |t| + |u| + 3 := by
      have e3 : e * (2 * |t| + |u| + 2) ≤ 65536 * (2 * |t| + |u| + 2) :=
        mul_le_mul_of_nonneg_right heF (by linarith)
      linarith
    have h1 := abs_le.1 hb
    have h2 := abs_le.1 hu2
    apply wrap32_id <;> linarith [h1.1, h1.2, h2.1, h2.2]
  rw [hw1, hw2]
  refine ⟨c1, ?_, ?_⟩
  · have : u - m * (t * (s * 65536 + a) / 65536 + u * m / 65536) / 65536 - u
        = -(m * (t * (s * 65536 + a) / 65536 + u * m / 65536) / 65536) := by ring
    rw [this, abs_neg]; exact c2
  · intro h0
    subst h0
    have ha0 : a = 0 := abs_nonpos_iff.1 ha
    have hm0 : m = 0 := abs_nonpos_iff.1 hm
    subst ha0 hm0
    exact slide_exact s t u hs

theorem P_HitSlideLine_eq (w : World) (slidemo : mobj_t) (ld : line_t) (tx ty : Int) (i : Int)
    (hi : sar (if w.P_PointOnLineSide slidemo.x slidemo.y ld = 1
        then wrapAngle (wrapAngle (ld.angle - ANGLE_90) + ANGLE_180)
        else wrapAngle (ld.angle - ANGLE_90)) ANGLETOFINESHIFT = i) :
    P_HitSlideLine w slidemo ld tx ty
      = (wrap32 (tx - FixedMul (w.FINECOSINE i)
            (wrap32 (FixedMul tx (w.FINECOSINE i) + FixedMul ty (w.FINESINE i)))),
         wrap32 (ty - FixedMul (w.FINESINE i)
            (wrap32 (FixedMul tx (w.FINECOSINE i) + FixedMul ty (w.FINESINE i))))) := by
  unfold P_HitSlideLine
  simp only [hi]

/-- The normal index of an axis-aligned line: 0 or 4096 for a line along the y axis,
2048 or 6144 for a line along the x axis. -/
theorem P_HitSlideLine_axis_index (a : Int) (side1 : Prop) [Decidable side1] :
    ((a = ANGLE_90 ∨ a = ANGLE_270) →
      sar (if side1 then wrapAngle (wrapAngle (a - ANGLE_90) + ANGLE_180)
        else wrapAngle (a - ANGLE_90)) ANGLETOFINESHIFT = 0 ∨
      sar (if side1 then wrapAngle (wrapAngle (a - ANGLE_90) + ANGLE_180)
        else wrapAngle (a - ANGLE_90)) ANGLETOFINESHIFT = 4096) ∧
    ((a = 0 ∨ a = ANGLE_180) →
      sar (if side1 then wrapAngle (wrapAngle (a - ANGLE_90) + ANGLE_180)
        else wrapAngle (a - ANGLE_90)) ANGLETOFINESHIFT = 2048 ∨
      sar (if side1 then wrapAngle (wrapAngle (a - ANGLE_90) + ANGLE_180)
        else wrapAngle (a - ANGLE_90)) ANGLETOFINESHIFT = 6144) := by
  constructor
  · rintro (h | h) <;> subst h <;> by_cases hs : side1 <;>
      simp only [hs, if_true, if_false] <;> decide
  · rintro (h | h) <;> subst h <;> by_cases hs : side1 <;>
      simp only [hs, if_true, if_false] <;> decide

/-- C8 (amended): for every momentum (momx, momy) of magnitude at most 2^28 per
component and every axis-aligned blocking line, where the fine tables are within
`e <= FRACUNIT` of the exact unit vector at the axis directions: the momentum that
`P_HitSlideLine` leaves in (tmxmove, tmymove) and `P_SlideMove` writes back has a
component perpendicular to the wall of magnitude at most
`(3 e |perp| + 2 e |par|) / FRACUNIT + 5` and a component parallel to the wall within
`e (2 |perp| + |par| + 2) / FRACUNIT + 1` of the incoming one; where the tables are
exact there (`e = 0`) the perpendicular component is zero and the parallel one is
unchanged. -/
theorem P_SlideMove_clip_axis (w : World) (e : Int) (heF : e ≤ FRACUNIT) (hw : w.fineError e)
    (mo : mobj_t) (ld : line_t) (hx : |mo.momx| ≤ 2 ^ 28) (hy : |mo.momy| ≤ 2 ^ 28) :
    ((ld.angle = ANGLE_90 ∨ ld.angle = ANGLE_270) →
      FRACUNIT * |(P_SlideMove_clip w mo ld).momx|
        ≤ 3 * e * |mo.momx| + 2 * e * |mo.momy| + 5 * FRACUNIT ∧
      FRACUNIT * |(P_SlideMove_clip w mo ld).momy - mo.momy|
        ≤ e * (2 * |mo.momx| + |mo.momy| + 2) + FRACUNIT ∧
      (e = 0 → (P_SlideMove_clip w mo ld).momx = 0 ∧
        (P_SlideMove_clip w mo ld).momy = mo.momy)) ∧
    ((ld.angle = 0 ∨ ld.angle = ANGLE_180) →
      FRACUNIT * |(P_SlideMove_clip w mo ld).momy|
        ≤ 3 * e * |mo.momy| + 2 * e * |mo.momx| + 5 * FRACUNIT ∧
      FRACUNIT * |(P_SlideMove_clip w mo ld).momx - mo.momx|
        ≤ e * (2 * |mo.momy| + |mo.momx| + 2) + FRACUNIT ∧
      (e = 0 → (P_SlideMove_clip w mo ld).momy = 0 ∧
        (P_SlideMove_clip w mo ld).momx = mo.momx)) := by
  have heF' : e ≤ 65536 := heF
  obtain ⟨hA, hB⟩ := P_HitSlideLine_axis_index ld.angle (w.P_PointOnLineSide mo.x mo.y ld = 1)
  have hE := hw.east
  have hN := hw.north
  have hW := hw.west
  have hS := hw.south
  simp only [FRACUNIT] at hE hN hW hS
  unfold P_SlideMove_clip
  simp only [FRACUNIT]
  constructor
  · intro h
    rcases hA h with hi | hi
    · rw [P_HitSlideLine_eq w mo ld _ _ 0 hi]
      exact slide_clip 1 _ _ _ _ e (Or.inl rfl) heF' (by simpa using hE.1) hE.2 hx hy
    · rw [P_HitSlideLine_eq w mo ld _ _ 4096 hi]
      exact slide_clip (-1) _ _ _ _ e (Or.inr rfl) heF'
        (by simpa [sub_neg_eq_add] using hW.1) hW.2 hx hy
  · intro h
    rcases hB h with hi | hi
    · rw [P_HitSlideLine_eq w mo ld _ _ 2048 hi]
      have := slide_clip 1 (w.FINESINE 2048) (w.FINECOSINE 2048) mo.momy mo.momx e (Or.inl rfl)
        heF' (by simpa using hN.2) hN.1 hy hx
      rw [add_comm (FixedMul mo.momy _)] at this
      exact this
    · rw [P_HitSlideLine_eq w mo ld _ _ 6144 hi]
      have := slide_clip (-1) (w.FINESINE 6144) (w.FINECOSINE 6144) mo.momy mo.momx e
        (Or.inr rfl) heF' (by simpa [sub_neg_eq_add] using hS.2) hS.1 hy hx
      rw [add_comm (FixedMul mo.momy _)] at this
      exact this

theorem exactTables_fineError : exactTables.fineError 0 := by
  constructor <;> constructor <;> simp [exactTables, FRACUNIT]

theorem halfStepTables_fineError : halfStepTables.fineError 25 := by
  constructor <;> constructor <;> norm_num [halfStepTables, FRACUNIT, abs_le]

theorem slider_small : |slider.momx| ≤ 2 ^ 28 ∧ |slider.momy| ≤ 2 ^ 28 := by
  constructor <;> norm_num [slider, walker, FRACUNIT, abs_le]

/-- C8, amended, on the actor that moves by (10, 3) against a wall along the y axis:
with exact tables the slide is exact, and with the tables sampled at half-steps it is
within the bounds. -/
theorem P_SlideMove_clip_axis_witness :
    ((P_SlideMove_clip exactTables slider wallY).momx = 0 ∧
      (P_SlideMove_clip exactTables slider wallY).momy = slider.momy) ∧
    (FRACUNIT * |(P_SlideMove_clip halfStepTables slider wallY).momx|
        ≤ 3 * 25 * |slider.momx| + 2 * 25 * |slider.momy| + 5 * FRACUNIT ∧
      FRACUNIT * |(P_SlideMove_clip halfStepTables slider wallY).momy - slider.momy|
        ≤ 25 * (2 * |slider.momx| + |slider.momy| + 2) + FRACUNIT) :=
  ⟨((P_SlideMove_clip_axis exactTables 0 (by decide) exactTables_fineError slider wallY
      slider_small.1 slider_small.2).1 (Or.inl rfl)).2.2 rfl,
   ((P_SlideMove_clip_axis halfStepTables 25 (by decide) halfStepTables_fineError slider wallY
      slider_small.1 slider_small.2).1 (Or.inl rfl)).1,
   ((P_SlideMove_clip_axis halfStepTables 25 (by decide) halfStepTables_fineError slider wallY
      slider_small.1 slider_small.2).1 (Or.inl rfl)).2.1⟩

/-- C8 fails as stated: with fine tables sampled at half-steps, a momentum of (10, 3)
against a wall along the y axis keeps a perpendicular component of -54 (not zero), and
the parallel component changes from 196608 to 196358, by 250, far more than the
rounding of a fixed-point product. -/
theorem slide_counterexample :
    wallY.angle = ANGLE_90 ∧
    (slider.momx, slider.momy) = (655360, 196608) ∧
    ((P_SlideMove_clip halfStepTables slider wallY).momx,
      (P_SlideMove_clip halfStepTables slider wallY).momy) = (-54, 196358) := by
  decide

/-! ## Crushing and blocking in the sector revalidation -/

theorem and_two_pow_eq (f n : Nat) : f &&& 2 ^ n = if f.testBit n then 2 ^ n else 0 := by
  apply Nat.eq_of_testBit_eq
  intro i
  by_cases h : n = i
  · subst h
    cases hf : f.testBit n <;> simp [Nat.testBit_and, Nat.testBit_two_pow, hf]
  · cases hf : f.testBit n <;> simp [Nat.testBit_and, Nat.testBit_two_pow, hf, h]

/-- The test `(flags & (MF_PUSHABLE | MF_SHOOTABLE)) == MF_PUSHABLE`. -/
theorem immunepushable_eq (f : Nat) :
    decide (f &&& (MF_PUSHABLE ||| MF_SHOOTABLE) = MF_PUSHABLE)
      = (hasFlag f MF_PUSHABLE && !hasFlag f MF_SHOOTABLE) := by
  unfold hasFlag MF_PUSHABLE MF_SHOOTABLE
  rw [Nat.and_or_distrib_left, and_two_pow_eq, and_two_pow_eq]
  cases f.testBit 6 <;> cases f.testBit 2 <;> decide

/-- The test `flags & (MF_SHOOTABLE | MF_PUSHABLE)`. -/
theorem interacts_eq (f : Nat) :
    hasFlag f (MF_SHOOTABLE ||| MF_PUSHABLE)
      = (hasFlag f MF_SHOOTABLE || hasFlag f MF_PUSHABLE) := by
  unfold hasFlag MF_PUSHABLE MF_SHOOTABLE
  rw [Nat.and_or_distrib_left, and_two_pow_eq, and_two_pow_eq]
  cases f.testBit 6 <;> cases f.testBit 2 <;> decide

theorem P_CheckPosition_logs (w : World) (st : State) (thing : Nat) (x y : Int)
    (result : Option TryMoveResult_t) :
    (P_CheckPosition w st thing x y result).2.2.damaged = st.damaged ∧
    (P_CheckPosition w st thing x y result).2.2.nofit = st.nofit ∧
    (P_CheckPosition w st thing x y result).2.2.crushchange = st.crushchange :=
  ⟨rfl, rfl, rfl⟩

theorem P_ThingHeightClip_adjust_flags (tm : tm_t) (t : mobj_t) (a b : Bool)
    (r1 r2 : Option ffloor_t) : (P_ThingHeightClip_adjust tm t a b r1 r2).flags = t.flags := by
  unfold P_ThingHeightClip_adjust
  simp only
  split_ifs <;> rfl

/-- The function `P_ThingHeightClip` leaves the logs, `nofit`, `crushchange`, the
flags of the actor and every other actor as they are. -/
theorem P_ThingHeightClip_frame (w : World) (st : State) (thing : Nat) :
    (P_ThingHeightClip w st thing).2.damaged = st.damaged ∧
    (P_ThingHeightClip w st thing).2.nofit = st.nofit ∧
    (P_ThingHeightClip w st thing).2.crushchange = st.crushchange ∧
    ((P_ThingHeightClip w st thing).2.mo thing).flags = (st.mo thing).flags ∧
    ∀ t, t ≠ thing → (P_ThingHeightClip w st thing).2.mo t = st.mo t := by
  have hf := P_CheckPosition_frame w st thing (st.mo thing).x (st.mo thing).y none
  have hfl := hf.1.probedFields.2.2.1
  unfold P_ThingHeightClip
  simp only
  split_ifs
  · exact ⟨rfl, rfl, rfl, rfl, fun _ _ => rfl⟩
  · exact ⟨rfl, rfl, rfl, hfl, hf.2.1⟩
  · refine ⟨rfl, rfl, rfl, ?_, ?_⟩
    · simpa [State.setMo] using hfl
    · intro t ht
      simpa [State.setMo, Function.update_noteq ht] using hf.2.1 t ht
  · refine ⟨rfl, rfl, rfl, ?_, ?_⟩
    · simpa [State.setMo, P_ThingHeightClip_adjust_flags] using hfl
    · intro t ht
      simpa [State.setMo, Function.update_noteq ht] using hf.2.1 t ht
  · refine ⟨rfl, rfl, rfl, ?_, ?_⟩
    · simpa [State.setMo, P_ThingHeightClip_adjust_flags] using hfl
    · intro t ht
      simpa [State.setMo, Function.update_noteq ht] using hf.2.1 t ht

theorem P_ThingHeightClip_flags (w : World) (st : State) (thing : Nat) (i : Nat) :
    ((P_ThingHeightClip w st thing).2.mo i).flags = (st.mo i).flags := by
  by_cases h : i = thing
  · subst h; exact (P_ThingHeightClip_frame w st i).2.2.2.1
  · rw [(P_ThingHeightClip_frame w st thing).2.2.2.2 i h]

/-- A call `PIT_ChangeSector(thing, false)` makes no call of `P_DamageMobj`, changes
no flags, and leaves `nofit` as it is unless it answers false. -/
theorem PIT_ChangeSector_false_frame (w : World) (st : State) (thing : Nat) :
    (PIT_ChangeSector w st thing false).2.damaged = st.damaged ∧
    (PIT_ChangeSector w st thing false).2.crushchange = st.crushchange ∧
    (∀ i, ((PIT_ChangeSector w st thing false).2.mo i).flags = (st.mo i).flags) ∧
    ((PIT_ChangeSector w st thing false).1 = true →
      (PIT_ChangeSector w st thing false).2.nofit = st.nofit) := by
  obtain ⟨h1, h2, h3, _, _⟩ := P_ThingHeightClip_frame w st thing
  have h4 := P_ThingHeightClip_flags w st thing
  unfold PIT_ChangeSector
  simp only
  split_ifs
  · exact ⟨h1, h3, h4, fun _ => h2⟩
  · exact ⟨h1, h3, h4, fun _ => h2⟩
  · unfold PIT_ChangeSector_crush PIT_ChangeSector_rest
    simp only [Bool.false_and, Bool.false_eq_true, if_false, false_or]
    split_ifs
    · exact ⟨h1, h3, h4, fun h => absurd h (by simp)⟩
    · split
      · exact ⟨h1, h3, h4, fun h => absurd h (by simp)⟩
      · exact ⟨h1, h3, h4, fun _ => h2⟩
    · split
      · exact ⟨h1, h3, h4, fun h => absurd h (by simp)⟩
      · exact ⟨h1, h3, h4, fun _ => h2⟩
    · exact ⟨h1, h3, h4, fun _ => h2⟩

/-- A scan of the first half of `P_CheckSector` makes no call of `P_DamageMobj` and
changes no flags; it leaves `nofit` as it is when nothing blocks and sets it when
something does. -/
theorem P_CheckSector_scan_frame (w : World) (guarded : Bool) (l : List Nat) :
    ∀ st : State,
      (P_CheckSector_scan w guarded l st).2.damaged = st.damaged ∧
      (P_CheckSector_scan w guarded l st).2.crushchange = st.crushchange ∧
      (∀ i, ((P_CheckSector_scan w guarded l st).2.mo i).flags = (st.mo i).flags) ∧
      ((P_CheckSector_scan w guarded l st).1 = true →
        (P_CheckSector_scan w guarded l st).2.nofit = st.nofit) ∧
      ((P_CheckSector_scan w guarded l st).1 = false →
        (P_CheckSector_scan w guarded l st).2.nofit = true) := by
  induction l with
  | nil => intro st; exact ⟨rfl, rfl, fun _ => rfl, fun _ => rfl, fun h => absurd h (by simp [P_CheckSector_scan])⟩
  | cons t rest ih =>
    intro st
    obtain ⟨f1, f2, f3, f4⟩ := PIT_ChangeSector_false_frame w st t
    simp only [P_CheckSector_scan]
    split_ifs with c1 c2
    · exact ih st
    · obtain ⟨g1, g2, g3, g4, g5⟩ := ih (PIT_ChangeSector w st t false).2
      exact ⟨g1.trans f1, g2.trans f2, fun i => (g3 i).trans (f3 i),
        fun h => (g4 h).trans (f4 c2), g5⟩
    · exact ⟨f1, f2, f3, fun h => absurd h (by simp), fun _ => rfl⟩

theorem P_CheckSector_attached_frame (w : World) (l : List (Nat × Bool)) :
    ∀ st : State,
      (P_CheckSector_attached w l st).2.damaged = st.damaged ∧
      (P_CheckSector_attached w l st).2.crushchange = st.crushchange ∧
      (∀ i, ((P_CheckSector_attached w l st).2.mo i).flags = (st.mo i).flags) ∧
      ((P_CheckSector_attached w l st).1 = true →
        (P_CheckSector_attached w l st).2.nofit = st.nofit) ∧
      ((P_CheckSector_attached w l st).1 = false →
        (P_CheckSector_attached w l st).2.nofit = true) := by
  induction l with
  | nil => intro st; exact ⟨rfl, rfl, fun _ => rfl, fun _ => rfl, fun h => absurd h (by simp [P_CheckSector_attached])⟩
  | cons p rest ih =>
    intro st
    obtain ⟨sec, solid⟩ := p
    obtain ⟨f1, f2, f3, f4, f5⟩ :=
      P_CheckSector_scan_frame w true (w.sectors sec).touching_thinglist st
    simp only [P_CheckSector_attached]
    split_ifs with c1 c2
    · exact ih st
    · obtain ⟨g1, g2, g3, g4, g5⟩ :=
        ih (P_CheckSector_scan w true (w.sectors sec).touching_thinglist st).2
      exact ⟨g1.trans f1, g2.trans f2, fun i => (g3 i).trans (f3 i),
        fun h => (g4 h).trans (f4 c2), g5⟩
    · have c2' : (P_CheckSector_scan w true (w.sectors sec).touching_thinglist st).1 = false := by
        simpa using c2
      exact ⟨f1, f2, f3, fun h => absurd h (by simp), fun _ => f5 c2'⟩

/-- The first half of `P_CheckSector` makes no call of `P_DamageMobj` and changes no
flags; it leaves `nofit` as it is when nothing blocks and sets it when something
does. -/
theorem P_CheckSector_first_frame (w : World) (st : State) (sector : Nat) :
    (P_CheckSector_first w st sector).2.damaged = st.damaged ∧
    (P_CheckSector_first w st sector).2.crushchange = st.crushchange ∧
    (∀ i, ((P_CheckSector_first w st sector).2.mo i).flags = (st.mo i).flags) ∧
    ((P_CheckSector_first w st sector).1 = true →
      (P_CheckSector_first w st sector).2.nofit = st.nofit) ∧
    ((P_CheckSector_first w st sector).1 = false →
      (P_CheckSector_first w st sector).2.nofit = true) := by
  obtain ⟨a1, a2, a3, a4, a5⟩ := P_CheckSector_scan_frame w false (w.polyobjThings sector) st
  obtain ⟨b1, b2, b3, b4, b5⟩ := P_CheckSector_attached_frame w
    ((w.sectors sector).attached.zip (w.sectors sector).attachedsolid)
    (P_CheckSector_scan w false (w.polyobjThings sector) st).2
  obtain ⟨c1, c2, c3, c4, c5⟩ := P_CheckSector_scan_frame w true
    (w.sectors sector).touching_thinglist
    (P_CheckSector_attached w
      ((w.sectors sector).attached.zip (w.sectors sector).attachedsolid)
      (P_CheckSector_scan w false (w.polyobjThings sector) st).2).2
  unfold P_CheckSector_first
  simp only
  split_ifs with h1 h2
  · have h1' : (P_CheckSector_scan w false (w.polyobjThings sector) st).1 = false := by
      simpa using h1
    exact ⟨a1, a2, a3, fun h => absurd (h1'.symm.trans h) (by simp), fun _ => a5 h1'⟩
  · have h1' : (P_CheckSector_scan w false (w.polyobjThings sector) st).1 = true := by
      simpa using h1
    have h2' : (P_CheckSector_attached w
        ((w.sectors sector).attached.zip (w.sectors sector).attachedsolid)
        (P_CheckSector_scan w false (w.polyobjThings sector) st).2).1 = false := by
      simpa using h2
    exact ⟨b1.trans a1, b2.trans a2, fun i => (b3 i).trans (a3 i),
      fun h => absurd (h2'.symm.trans h) (by simp), fun _ => b5 h2'⟩
  · have h1' : (P_CheckSector_scan w false (w.polyobjThings sector) st).1 = true := by
      simpa using h1
    have h2' : (P_CheckSector_attached w
        ((w.sectors sector).attached.zip (w.sectors sector).attachedsolid)
        (P_CheckSector_scan w false (w.polyobjThings sector) st).2).1 = true := by
      simpa using h2
    exact ⟨c1.trans (b1.trans a1), c2.trans (b2.trans a2),
      fun i => (c3 i).trans ((b3 i).trans (a3 i)),
      fun h => (c4 h).trans ((b4 h2').trans (a4 h1')), c5⟩

theorem P_ThingHeightClip_fails_clips (w : World) (st : State) (thing : Nat)
    (h : (P_ThingHeightClip w st thing).1 = false) :
    hasFlag (st.mo thing).flags MF_NOCLIPHEIGHT = false := by
  by_cases hc : hasFlag (st.mo thing).flags MF_NOCLIPHEIGHT = true
  · unfold P_ThingHeightClip at h
    simp [hc] at h
  · simpa using hc

theorem PIT_ChangeSector_ffloors_some (w : World) (thing : mobj_t) (l : List ffloor_t) :
    ∀ killer : Option Nat, ∃ k, PIT_ChangeSector_ffloors w thing false l killer = some k := by
  induction l with
  | nil => intro killer; exact ⟨killer, rfl⟩
  | cons r rest ih =>
    intro killer
    simp only [PIT_ChangeSector_ffloors, Bool.false_eq_true, if_false]
    split_ifs
    · exact ih _
    · exact ih _
    · exact ih _

/-- A pushable that is not vulnerable, does not fit, and has its top above its
`ceilingz` (with `z <= ceilingz`) and above the ceiling of its own sector, makes
`PIT_ChangeSector` answer false, whatever `realcrush` is. -/
theorem PIT_ChangeSector_blocks (w : World) (st : State) (thing : Nat) (realcrush : Bool)
    (hpush : hasFlag (st.mo thing).flags MF_PUSHABLE = true)
    (hshoot : hasFlag (st.mo thing).flags MF_SHOOTABLE = false)
    (hclip : (P_ThingHeightClip w st thing).1 = false)
    (htop : ((P_ThingHeightClip w st thing).2.mo thing).z
        + ((P_ThingHeightClip w st thing).2.mo thing).height
      > ((P_ThingHeightClip w st thing).2.mo thing).ceilingz)
    (hz : ((P_ThingHeightClip w st thing).2.mo thing).z
      ≤ ((P_ThingHeightClip w st thing).2.mo thing).ceilingz)
    (hsec : ((P_ThingHeightClip w st thing).2.mo thing).z
        + ((P_ThingHeightClip w st thing).2.mo thing).height
      > (w.sectors ((P_ThingHeightClip w st thing).2.mo thing).sector).ceilingheight) :
    (PIT_ChangeSector w st thing realcrush).1 = false := by
  have hfl := (P_ThingHeightClip_frame w st thing).2.2.2.1
  have hnc := P_ThingHeightClip_fails_clips w st thing hclip
  unfold PIT_ChangeSector
  simp only [hclip, immunepushable_eq, interacts_eq, hfl, hpush, hshoot, hnc, Bool.false_eq_true,
    if_false, Bool.or_true, Bool.not_true, Bool.or_false, Bool.not_false, Bool.and_self]
  unfold PIT_ChangeSector_crush
  simp only [htop, hz, hsec, and_self, if_true]

theorem P_CheckSector_scan_append (w : World) (guarded : Bool) (l1 l2 : List Nat) :
    ∀ st : State,
      P_CheckSector_scan w guarded (l1 ++ l2) st
        = if (P_CheckSector_scan w guarded l1 st).1
          then P_CheckSector_scan w guarded l2 (P_CheckSector_scan w guarded l1 st).2
          else P_CheckSector_scan w guarded l1 st := by
  induction l1 with
  | nil => intro st; simp [P_CheckSector_scan]
  | cons t rest ih =>
    intro st
    simp only [List.cons_append, P_CheckSector_scan]
    split_ifs <;> simp_all

theorem P_CheckSector_reach_flags (w : World) (st : State) (sector : Nat) (crunch : Bool)
    (pre : List Nat) (st1 : State) (h : P_CheckSector_reach w st sector crunch pre = some st1) :
    ∀ i, (st1.mo i).flags = (st.mo i).flags := by
  intro i
  have a := (P_CheckSector_scan_frame w false (w.polyobjThings sector)
    { st with nofit := false, crushchange := crunch }).2.2.1 i
  have b := (P_CheckSector_attached_frame w
    ((w.sectors sector).attached.zip (w.sectors sector).attachedsolid)
    (P_CheckSector_scan w false (w.polyobjThings sector)
      { st with nofit := false, crushchange := crunch }).2).2.2.1 i
  have c := (P_CheckSector_scan_frame w true pre
    (P_CheckSector_attached w
      ((w.sectors sector).attached.zip (w.sectors sector).attachedsolid)
      (P_CheckSector_scan w false (w.polyobjThings sector)
        { st with nofit := false, crushchange := crunch }).2).2).2.2.1 i
  unfold P_CheckSector_reach at h
  simp only at h
  split_ifs at h
  rw [← Option.some.inj h]
  exact c.trans (b.trans a)

/-- C10 (amended): for either value of crunch, if an actor of the sector's touching
list is `MF_PUSHABLE`, not `MF_SHOOTABLE` and without `MF_NOBLOCKMAP`, and, in the
state in which the first half of `P_CheckSector` reaches it, it fails
`P_ThingHeightClip` with its top above both its `ceilingz` (with `z <= ceilingz`)
and the `ceilingheight` of its own sector (`thing->subsector->sector`), then
`P_CheckSector` returns true (`nofit`) and no call of `P_DamageMobj` is made from
`PIT_ChangeSector` during that call. -/
theorem P_CheckSector_blocked (w : World) (st : State) (sector thing : Nat) (crunch : Bool)
    (pre rest : List Nat)
    (hlist : (w.sectors sector).touching_thinglist = pre ++ thing :: rest)
    (hnb : hasFlag (st.mo thing).flags MF_NOBLOCKMAP = false)
    (hpush : hasFlag (st.mo thing).flags MF_PUSHABLE = true)
    (hshoot : hasFlag (st.mo thing).flags MF_SHOOTABLE = false)
    (hreach : ∀ st1 : State, P_CheckSector_reach w st sector crunch pre = some st1 →
      (P_ThingHeightClip w st1 thing).1 = false ∧
      ((P_ThingHeightClip w st1 thing).2.mo thing).z
          + ((P_ThingHeightClip w st1 thing).2.mo thing).height
        > ((P_ThingHeightClip w st1 thing).2.mo thing).ceilingz ∧
      ((P_ThingHeightClip w st1 thing).2.mo thing).z
        ≤ ((P_ThingHeightClip w st1 thing).2.mo thing).ceilingz ∧
      ((P_ThingHeightClip w st1 thing).2.mo thing).z
          + ((P_ThingHeightClip w st1 thing).2.mo thing).height
        > (w.sectors ((P_ThingHeightClip w st1 thing).2.mo thing).sector).ceilingheight) :
    (P_CheckSector w st sector crunch).1 = true ∧
    (P_CheckSector w st sector crunch).2.damaged = st.damaged := by
  obtain ⟨d1, _, _, _, n2⟩ :=
    P_CheckSector_first_frame w { st with nofit := false, crushchange := crunch } sector
  have key : (P_CheckSector_first w { st with nofit := false, crushchange := crunch } sector).1
      = false := by
    by_contra hne
    have hT : (P_CheckSector_first w { st with nofit := false, crushchange := crunch }
        sector).1 = true := by simpa using hne
    unfold P_CheckSector_first at hT
    simp only at hT
    split_ifs at hT with a b
    · exact absurd hT (by simpa using a)
    · exact absurd hT (by simpa using b)
    · rw [hlist, P_CheckSector_scan_append] at hT
      split_ifs at hT with c
      · have hr : P_CheckSector_reach w st sector crunch pre
            = some (P_CheckSector_scan w true pre (P_CheckSector_attached w
                ((w.sectors sector).attached.zip (w.sectors sector).attachedsolid)
                (P_CheckSector_scan w false (w.polyobjThings sector)
                  { st with nofit := false, crushchange := crunch }).2).2).2 := by
          unfold P_CheckSector_reach
          simp only [a, b, c, Bool.not_true, Bool.false_eq_true, if_false]
        have hfl := P_CheckSector_reach_flags w st sector crunch pre _ hr thing
        obtain ⟨e1, e2, e3, e4⟩ := hreach _ hr
        have hblk := PIT_ChangeSector_blocks w _ thing false (by rw [hfl]; exact hpush)
          (by rw [hfl]; exact hshoot) e1 e2 e3 e4
        simp only [P_CheckSector_scan, hfl, hnb, Bool.and_false, Bool.false_eq_true, if_false,
          hblk] at hT
      · exact absurd hT c
  unfold P_CheckSector
  simp only [key, Bool.not_false, if_true]
  exact ⟨n2 key, d1⟩

/-- C10, amended, on the crate under the crusher, for both values of crunch. -/
theorem P_CheckSector_blocked_witness :
    ((P_CheckSector crusherRoom (sceneOf crate) 0 true).1 = true ∧
      (P_CheckSector crusherRoom (sceneOf crate) 0 true).2.damaged = (sceneOf crate).damaged) ∧
    ((P_CheckSector crusherRoom (sceneOf crate) 0 false).1 = true ∧
      (P_CheckSector crusherRoom (sceneOf crate) 0 false).2.damaged = (sceneOf crate).damaged) :=
  ⟨P_CheckSector_blocked crusherRoom (sceneOf crate) 0 0 true [] [] rfl (by decide) (by decide)
      (by decide)
      (fun st1 h => by
        have e : P_CheckSector_reach crusherRoom (sceneOf crate) 0 true []
            = some { sceneOf crate with nofit := false, crushchange := true } := rfl
        rw [e] at h
        rw [← Option.some.inj h]
        decide),
   P_CheckSector_blocked crusherRoom (sceneOf crate) 0 0 false [] [] rfl (by decide) (by decide)
      (by decide)
      (fun st1 h => by
        have e : P_CheckSector_reach crusherRoom (sceneOf crate) 0 false []
            = some { sceneOf crate with nofit := false, crushchange := false } := rfl
        rw [e] at h
        rw [← Option.some.inj h]
        decide)⟩

/-- C10 fails as stated.  First scene: the crate has `MF_NOBLOCKMAP`; both halves pass
it over and `P_CheckSector` returns false.  Second scene: the crate touches the
crusher sector 0 from the high room; it fails `P_ThingHeightClip`, its top (32) is
above its `ceilingz` (16, with z = 0) and above the ceiling of the sector (16), but
`PIT_ChangeSector` compares with the ceiling of the crate's own sector (128): nothing
blocks, the second half makes the call `P_DamageMobj(thing, ..., DMG_CRUSHED)`, and
`P_CheckSector` returns false. -/
theorem blocking_counterexample :
    (hasFlag (MF_SOLID ||| MF_PUSHABLE ||| MF_NOBLOCKMAP) MF_PUSHABLE = true ∧
      hasFlag (MF_SOLID ||| MF_PUSHABLE ||| MF_NOBLOCKMAP) MF_SHOOTABLE = false ∧
      (P_ThingHeightClip crusherRoom
        (sceneOf { crate with flags := MF_SOLID ||| MF_PUSHABLE ||| MF_NOBLOCKMAP }) 0).1 = false ∧
      (P_CheckSector crusherRoom
        (sceneOf { crate with flags := MF_SOLID ||| MF_PUSHABLE ||| MF_NOBLOCKMAP }) 0 true).1
        = false) ∧
    ((crusherEdge.sectors 0).touching_thinglist = [0] ∧
      hasFlag edgeCrate.flags MF_PUSHABLE = true ∧ hasFlag edgeCrate.flags MF_SHOOTABLE = false ∧
      hasFlag edgeCrate.flags MF_NOBLOCKMAP = false ∧
      (P_ThingHeightClip crusherEdge (sceneOf edgeCrate) 0).1 = false ∧
      (((P_ThingHeightClip crusherEdge (sceneOf edgeCrate) 0).2.mo 0).z,
        ((P_ThingHeightClip crusherEdge (sceneOf edgeCrate) 0).2.mo 0).height,
        ((P_ThingHeightClip crusherEdge (sceneOf edgeCrate) 0).2.mo 0).ceilingz,
        (crusherEdge.sectors 0).ceilingheight)
        = (0, 32 * FRACUNIT, 16 * FRACUNIT, 16 * FRACUNIT) ∧
      (P_CheckSector crusherEdge (sceneOf edgeCrate) 0 true).1 = false ∧
      (P_CheckSector crusherEdge (sceneOf edgeCrate) 0 true).2.damaged
        = [{ target := 0, source := none, damagetype := DMG_CRUSHED }]) := by
  refine ⟨⟨?_, ?_, ?_, ?_⟩, ?_, ?_, ?_, ?_, ?_, ?_, ?_, ?_⟩ <;> decide

theorem P_CheckSector_crush_skip (w : World) (st : State) (pre l : List Nat)
    (h : ∀ t, t ∈ pre → hasFlag (st.mo t).flags MF_NOBLOCKMAP = true) :
    P_CheckSector_crush w true (pre ++ l) st = P_CheckSector_crush w true l st := by
  induction pre with
  | nil => rfl
  | cons t rest ih =>
    have ht := h t (List.mem_cons_self _ _)
    simp only [List.cons_append, P_CheckSector_crush, ht, Bool.and_self, if_true]
    exact ih (fun u hu => h u (List.mem_cons_of_mem _ hu))

/-- A vulnerable actor that is not pushable, does not fit, and has its top above its
`ceilingz` (with `z <= ceilingz`) is damaged by `PIT_ChangeSector(thing, true)`, and
`nofit` stays as it is. -/
theorem PIT_ChangeSector_crushes (w : World) (st : State) (thing : Nat)
    (hpush : hasFlag (st.mo thing).flags MF_PUSHABLE = false)
    (hshoot : hasFlag (st.mo thing).flags MF_SHOOTABLE = true)
    (hclip : (P_ThingHeightClip w st thing).1 = false)
    (htop : ((P_ThingHeightClip w st thing).2.mo thing).z
        + ((P_ThingHeightClip w st thing).2.mo thing).height
      > ((P_ThingHeightClip w st thing).2.mo thing).ceilingz)
    (hz : ((P_ThingHeightClip w st thing).2.mo thing).z
      ≤ ((P_ThingHeightClip w st thing).2.mo thing).ceilingz) :
    ∃ d : damage_t,
      (PIT_ChangeSector w st thing true).2 = (P_ThingHeightClip w st thing).2.damage d ∧
      d.target = thing ∧ (d.damagetype = DMG_CRUSHED ∨ d.damagetype = DMG_SPECTATOR) := by
  have hfl := (P_ThingHeightClip_frame w st thing).2.2.2.1
  have hnc := P_ThingHeightClip_fails_clips w st thing hclip
  unfold PIT_ChangeSector
  simp only [hclip, immunepushable_eq, interacts_eq, hfl, hpush, hshoot, hnc, Bool.false_eq_true,
    if_false, Bool.or_false, Bool.not_true, Bool.false_and, Bool.true_or]
  unfold PIT_ChangeSector_crush
  simp only [htop, hz, and_self, if_true, Bool.false_eq_true, false_and, if_false, or_false,
    and_true]
  obtain ⟨k, hk⟩ := PIT_ChangeSector_ffloors_some w ((P_ThingHeightClip w st thing).2.mo thing)
    (w.sectors ((P_ThingHeightClip w st thing).2.mo thing).sector).ffloors none
  split
  · rename_i heq
    split_ifs at heq
    · rw [hk] at heq; exact absurd heq (by simp)
  · split_ifs
    · exact ⟨_, rfl, rfl, Or.inr rfl⟩
    · exact ⟨_, rfl, rfl, Or.inl rfl⟩

/-- C9 (amended): for a sector whose ceiling has been lowered so that a touching
shootable, non-pushable actor without `MF_NOBLOCKMAP` no longer fits
(`P_ThingHeightClip` fails, its top is above its `ceilingz`, with `z <= ceilingz`),
where the first half of `P_CheckSector` finds nothing that blocks and the actor is
the first that the second half processes: `P_CheckSector(sector, true)` makes the
call `P_DamageMobj` with `DMG_CRUSHED` (`DMG_SPECTATOR` for a spectator in a netgame)
on that actor, and its return value is false: `nofit` is not set for an actor that
is crushed. -/
theorem P_CheckSector_crushes (w : World) (st st1 : State) (sector thing : Nat)
    (pre rest : List Nat)
    (hfirst : P_CheckSector_first w { st with nofit := false, crushchange := true } sector
      = (true, st1))
    (hpoly : P_CheckSector_crush w false (w.polyobjThings sector) st1 = none)
    (hatt : P_CheckSector_crushAttached w
      ((w.sectors sector).attached.zip (w.sectors sector).attachedsolid) st1 = none)
    (hlist : (w.sectors sector).touching_thinglist = pre ++ thing :: rest)
    (hpre : ∀ t, t ∈ pre → hasFlag (st.mo t).flags MF_NOBLOCKMAP = true)
    (hnb : hasFlag (st.mo thing).flags MF_NOBLOCKMAP = false)
    (hshoot : hasFlag (st.mo thing).flags MF_SHOOTABLE = true)
    (hpush : hasFlag (st.mo thing).flags MF_PUSHABLE = false)
    (hclip : (P_ThingHeightClip w st1 thing).1 = false)
    (htop : ((P_ThingHeightClip w st1 thing).2.mo thing).z
        + ((P_ThingHeightClip w st1 thing).2.mo thing).height
      > ((P_ThingHeightClip w st1 thing).2.mo thing).ceilingz)
    (hz : ((P_ThingHeightClip w st1 thing).2.mo thing).z
      ≤ ((P_ThingHeightClip w st1 thing).2.mo thing).ceilingz) :
    (P_CheckSector w st sector true).1 = false ∧
    ∃ d : damage_t, (P_CheckSector w st sector true).2.damaged = st.damaged ++ [d] ∧
      d.target = thing ∧ (d.damagetype = DMG_CRUSHED ∨ d.damagetype = DMG_SPECTATOR) := by
  obtain ⟨d1, _, fl, n1, _⟩ :=
    P_CheckSector_first_frame w { st with nofit := false, crushchange := true } sector
  rw [hfirst] at d1 fl n1
  simp only at d1 fl n1
  obtain ⟨cd, cn, _, _, _⟩ := P_ThingHeightClip_frame w st1 thing
  have hsec : P_CheckSector_second w st1 sector = (PIT_ChangeSector w st1 thing true).2 := by
    unfold P_CheckSector_second
    rw [hpoly, hatt, hlist,
      P_CheckSector_crush_skip w st1 pre _ (fun t ht => by rw [fl t]; exact hpre t ht)]
    simp only [P_CheckSector_crush, fl thing, hnb, Bool.and_false, Bool.false_eq_true, if_false]
  obtain ⟨d, hd, ht, hty⟩ := PIT_ChangeSector_crushes w st1 thing (by rw [fl]; exact hpush)
    (by rw [fl]; exact hshoot) hclip htop hz
  unfold P_CheckSector
  simp only [hfirst, Bool.not_true, Bool.false_eq_true, if_false, hsec, hd]
  refine ⟨?_, d, ?_, ht, hty⟩
  · show (P_ThingHeightClip w st1 thing).2.nofit = false
    rw [cn, n1 trivial]
  · show (P_ThingHeightClip w st1 thing).2.damaged ++ [d] = st.damaged ++ [d]
    rw [cd, d1]

/-- C9, amended, on the vulnerable actor under the crusher. -/
theorem P_CheckSector_crushes_witness :
    (P_CheckSector crusherRoom (sceneOf victim) 0 true).1 = false ∧
    ∃ d : damage_t,
      (P_CheckSector crusherRoom (sceneOf victim) 0 true).2.damaged
        = (sceneOf victim).damaged ++ [d] ∧
      d.target = 0 ∧ (d.damagetype = DMG_CRUSHED ∨ d.damagetype = DMG_SPECTATOR) :=
  P_CheckSector_crushes crusherRoom (sceneOf victim)
    (P_CheckSector_first crusherRoom
      { sceneOf victim with nofit := false, crushchange := true } 0).2 0 0 [] []
    (Prod.ext (by decide) rfl) rfl rfl rfl (fun _ h => absurd h (List.not_mem_nil _))
    (by decide) (by decide) (by decide) (by decide) (by decide) (by decide)

/-- C9 fails as stated: a vulnerable actor of height 32 under a ceiling that has come
down to 16 fails `P_ThingHeightClip` with its top above its `ceilingz`;
`P_CheckSector(sector, true)` makes the call `P_DamageMobj(thing, ..., DMG_CRUSHED)`,
but its return value is false: `nofit` is set only for a pushable that is not
vulnerable. -/
theorem crush_counterexample :
    (crusherRoom.sectors 0).touching_thinglist = [0] ∧
    hasFlag victim.flags MF_SHOOTABLE = true ∧ hasFlag victim.flags MF_PUSHABLE = false ∧
    (P_ThingHeightClip crusherRoom (sceneOf victim) 0).1 = false ∧
    ((P_ThingHeightClip crusherRoom (sceneOf victim) 0).2.mo 0).z
        + ((P_ThingHeightClip crusherRoom (sceneOf victim) 0).2.mo 0).height
      > ((P_ThingHeightClip crusherRoom (sceneOf victim) 0).2.mo 0).ceilingz ∧
    (P_CheckSector crusherRoom (sceneOf victim) 0 true).2.damaged
      = [{ target := 0, source := none, damagetype := DMG_CRUSHED }] ∧
    (P_CheckSector crusherRoom (sceneOf victim) 0 true).1 = false := by
  refine ⟨?_, ?_, ?_, ?_, ?_, ?_, ?_⟩ <;> decide

/-! ## The sub-steps of the incremental mover -/

/-- The rounded-up quotient is the least number of steps of `r` that cover `a`. -/
theorem ceilDiv_le_iff (a r k : Nat) (hr : 0 < r) : ceilDiv a r ≤ k ↔ a ≤ k * r := by
  unfold ceilDiv
  rw [← Nat.lt_succ_iff, Nat.div_lt_iff_lt_mul hr, Nat.succ_mul]
  omega

/-- Where the coordinates and their difference fit a `fixed_t`, the next probe
coordinate is `radius` nearer to the destination, or the destination itself. -/
theorem increment_move_try_dist (radius x tryx : Int) (hr : 1 ≤ radius)
    (hx : INT32_MIN ≤ x ∧ x ≤ INT32_MAX) (ht : INT32_MIN ≤ tryx ∧ tryx ≤ INT32_MAX)
    (hd : (x - tryx).natAbs ≤ 2147483647) :
    (x - increment_move_try false radius x tryx).natAbs = (x - tryx).natAbs - radius.toNat ∧
    |increment_move_try false radius x tryx - tryx| ≤ radius ∧
    ((tryx ≤ increment_move_try false radius x tryx ∧ increment_move_try false radius x tryx ≤ x)
      ∨ (x ≤ increment_move_try false radius x tryx
        ∧ increment_move_try false radius x tryx ≤ tryx)) := by
  unfold INT32_MIN INT32_MAX at hx ht
  unfold increment_move_try wrap32
  simp only [Bool.false_eq_true, if_false, abs_le]
  split_ifs <;> refine ⟨?_, ⟨?_, ?_⟩, ?_⟩ <;> omega

/-- The loop of `increment_move` goes on only from a point that is not the
destination. -/
theorem increment_move_at_ne (w : World) (thing : Nat) (x y : Int) (a : Bool)
    (radius : Int) (n : Nat) :
    ∀ v0 v : loopvars_t, increment_move_at w thing x y a radius (n + 1) v0 = some v →
      v.tryx ≠ x ∨ v.tryy ≠ y := by
  induction n with
  | zero =>
    intro v0 v h
    simp only [increment_move_at] at h
    split at h
    · exact absurd h (by simp)
    · split at h
      · rename_i hne
        simp only [Option.some.injEq] at h
        subst h
        exact hne
      · exact absurd h (by simp)
  | succ n ih =>
    intro v0 v h
    rw [increment_move_at] at h
    split at h
    · exact absurd h (by simp)
    · split at h
      · exact ih _ _ h
      · exact absurd h (by simp)

/-- A sub-step that is reached has every sub-step before it. -/
theorem increment_move_at_prefix (w : World) (thing : Nat) (x y : Int) (a : Bool)
    (radius : Int) (n : Nat) :
    ∀ v0 v : loopvars_t, increment_move_at w thing x y a radius (n + 1) v0 = some v →
      ∃ u, increment_move_at w thing x y a radius n v0 = some u := by
  induction n with
  | zero => intro v0 v _; exact ⟨v0, rfl⟩
  | succ n ih =>
    intro v0 v h
    rw [increment_move_at] at h
    split at h
    · exact absurd h (by simp)
    · rename_i tx ty sj r s heq
      split at h
      · rename_i hne
        obtain ⟨u, hu⟩ := ih _ _ h
        refine ⟨u, ?_⟩
        rw [increment_move_at]
        simp only [heq, hne, if_true]
        exact hu
      · exact absurd h (by simp)

/-- The distance left at the start of sub-step `n`, where the coordinates and their
differences fit a `fixed_t` and the actor is without `MF_NOCLIP` at the sub-steps
before: each of them has taken `radius` off both axes, toward the destination. -/
theorem increment_move_at_dist (w : World) (thing : Nat) (x y : Int) (a : Bool)
    (radius : Int) (hr : 1 ≤ radius)
    (hx : INT32_MIN ≤ x ∧ x ≤ INT32_MAX) (hy : INT32_MIN ≤ y ∧ y ≤ INT32_MAX) (n : Nat) :
    ∀ v0 v : loopvars_t,
      (INT32_MIN ≤ v0.tryx ∧ v0.tryx ≤ INT32_MAX) → (INT32_MIN ≤ v0.tryy ∧ v0.tryy ≤ INT32_MAX) →
      (x - v0.tryx).natAbs ≤ 2147483647 → (y - v0.tryy).natAbs ≤ 2147483647 →
      (∀ k, k < n → (increment_move_at w thing x y a radius k v0).map
        (fun u => hasFlag (u.st.mo thing).flags MF_NOCLIP) ≠ some true) →
      increment_move_at w thing x y a radius n v0 = some v →
      (x - v.tryx).natAbs = (x - v0.tryx).natAbs - n * radius.toNat ∧
      (y - v.tryy).natAbs = (y - v0.tryy).natAbs - n * radius.toNat ∧
      ((v0.tryx ≤ v.tryx ∧ v.tryx ≤ x) ∨ (x ≤ v.tryx ∧ v.tryx ≤ v0.tryx)) ∧
      ((v0.tryy ≤ v.tryy ∧ v.tryy ≤ y) ∨ (y ≤ v.tryy ∧ v.tryy ≤ v0.tryy)) := by
  induction n with
  | zero =>
    intro v0 v _ _ _ _ _ h
    simp only [increment_move_at, Option.some.injEq] at h
    subst h
    refine ⟨by omega, by omega, ?_, ?_⟩ <;> omega
  | succ n ih =>
    intro v0 v hx0 hy0 hdx hdy hclip h
    have hc : hasFlag (v0.st.mo thing).flags MF_NOCLIP = false := by
      have := hclip 0 (by omega)
      simp only [increment_move_at, Option.map_some', ne_eq, Option.some.injEq] at this
      exact Bool.eq_false_iff.mpr this
    rcases heq : increment_move_body w thing x y a radius v0.tryx v0.tryy v0.stairjank
      v0.result v0.st with ⟨r0, s0⟩ | ⟨tx, ty, sj1, r, s⟩
    · simp only [increment_move_at, heq] at h
      exact absurd h (by simp)
    · simp only [increment_move_at, heq] at h
      by_cases hne : tx ≠ x ∨ ty ≠ y
      · simp only [hne, if_true] at h
        have e : ∀ k, increment_move_at w thing x y a radius (k + 1) v0
            = increment_move_at w thing x y a radius k ⟨tx, ty, sj1, r, s⟩ := fun k => by
          rw [increment_move_at]
          simp only [heq, hne, if_true]
        have hclip1 : ∀ k, k < n → (increment_move_at w thing x y a radius k
            ⟨tx, ty, sj1, r, s⟩).map (fun u => hasFlag (u.st.mo thing).flags MF_NOCLIP)
              ≠ some true := fun k hk => by
          rw [← e]
          exact hclip (k + 1) (by omega)
        have hnext := increment_move_body_next _ _ _ _ _ _ _ _ _ _ _ _ _ _ _ _ heq
        rw [hc] at hnext
        obtain ⟨dx, -, bx⟩ := increment_move_try_dist radius x v0.tryx hr hx hx0 hdx
        obtain ⟨dy, -, by1⟩ := increment_move_try_dist radius y v0.tryy hr hy hy0 hdy
        rw [← hnext.1] at dx bx
        rw [← hnext.2] at dy by1
        obtain ⟨h1, h2, h3, h4⟩ := ih ⟨tx, ty, sj1, r, s⟩ v (by simp only; omega)
          (by simp only; omega) (by simp only; omega) (by simp only; omega) hclip1 h
        simp only at h1 h2 h3 h4
        refine ⟨?_, ?_, ?_, ?_⟩
        · rw [h1, dx, Nat.add_mul]; omega
        · rw [h2, dy, Nat.add_mul]; omega
        · omega
        · omega
      · simp only [hne, if_false] at h
        exact absurd h (by simp)

/-- The loop of `increment_move` ends within one pass per unit of distance left. -/
theorem increment_move_loop_total (w : World) (thing : Nat) (x y : Int) (a : Bool)
    (radius : Int) (hr : 1 ≤ radius) (fuel : Nat) :
    ∀ (tryx tryy sj : Int) (result : Option TryMoveResult_t) (st : State),
      (wrap32 (x - tryx)).natAbs + (wrap32 (y - tryy)).natAbs < fuel →
      ∃ out, increment_move_loop w thing x y a radius fuel tryx tryy sj result st = some out := by
  induction fuel with
  | zero => intro tryx tryy sj result st h; omega
  | succ fuel ih =>
    intro tryx tryy sj result st h
    simp only [increment_move_loop]
    split
    · exact ⟨_, rfl⟩
    · rename_i tx ty sj1 r s heq
      split
      · rename_i hne
        have hnext := increment_move_body_next _ _ _ _ _ _ _ _ _ _ _ _ _ _ _ _ heq
        have hx := increment_move_try_measure (hasFlag (st.mo thing).flags MF_NOCLIP)
          radius x tryx hr
        have hy := increment_move_try_measure (hasFlag (st.mo thing).flags MF_NOCLIP)
          radius y tryy hr
        rw [← hnext.1] at hx
        rw [← hnext.2] at hy
        apply ih
        rcases hne with hne | hne
        · have := hx.2 hne
          omega
        · have := hy.2 hne
          omega
      · exact ⟨_, rfl⟩

/-- A sub-step that ends at the destination ends the loop with the answer true,
whatever passes are left after it. -/
theorem increment_move_loop_accepted (w : World) (thing : Nat) (x y : Int) (a : Bool)
    (radius : Int) (n : Nat) :
    ∀ (v0 v : loopvars_t) (sj : Int) (res : Option TryMoveResult_t) (st' : State) (k : Nat),
      increment_move_at w thing x y a radius n v0 = some v →
      increment_move_body w thing x y a radius v.tryx v.tryy v.stairjank v.result v.st
        = .next x y sj res st' →
      increment_move_loop w thing x y a radius (n + 1 + k) v0.tryx v0.tryy v0.stairjank
        v0.result v0.st = some (true, sj, res, st') := by
  induction n with
  | zero =>
    intro v0 v sj res st' k h hb
    simp only [increment_move_at, Option.some.injEq] at h
    subst h
    have : 0 + 1 + k = k + 1 := by omega
    rw [this]
    simp only [increment_move_loop, hb, ne_eq, not_true_eq_false, or_self, if_false]
  | succ n ih =>
    intro v0 v sj res st' k h hb
    simp only [increment_move_at] at h
    have : n + 1 + 1 + k = (n + 1 + k) + 1 := by omega
    rw [this]
    simp only [increment_move_loop]
    split at h
    · exact absurd h (by simp)
    · rename_i tx ty sj1 res1 st1 hb1
      split at h
      · rename_i hne
        simp only [hne, if_true]
        exact ih _ _ _ _ _ _ h hb
      · exact absurd h (by simp)

/-- The number of probes of the specification is at most the fuel of the loop. -/
theorem increment_move_probes_le (dx dy r : Int) (hr : 1 ≤ r) :
    increment_move_probes dx dy r ≤ dx.natAbs + dy.natAbs + 1 := by
  have hR : 0 < r.toNat := by omega
  have ex : ceilDiv dx.natAbs r.toNat ≤ dx.natAbs :=
    (ceilDiv_le_iff _ _ _ hR).mpr (Nat.le_mul_of_pos_right _ hR)
  have ey : ceilDiv dy.natAbs r.toNat ≤ dy.natAbs :=
    (ceilDiv_le_iff _ _ _ hR).mpr (Nat.le_mul_of_pos_right _ hR)
  unfold increment_move_probes
  omega

/-- Fewer than `k` probes leave one axis short of the destination, and
`increment_move_probes` probes reach it on both. -/
theorem increment_move_probes_spec (dx dy r : Int) (hr : 1 ≤ r) (k : Nat) :
    (k + 1 < increment_move_probes dx dy r →
      (k + 1) * r.toNat < dx.natAbs ∨ (k + 1) * r.toNat < dy.natAbs) ∧
    (increment_move_probes dx dy r ≤ k + 1 →
      dx.natAbs ≤ (k + 1) * r.toNat ∧ dy.natAbs ≤ (k + 1) * r.toNat) ∧
    ((k + 1) * r.toNat < dx.natAbs ∨ (k + 1) * r.toNat < dy.natAbs →
      k + 1 < increment_move_probes dx dy r) := by
  have hR : 0 < r.toNat := by omega
  have ex := ceilDiv_le_iff dx.natAbs r.toNat (k + 1) hR
  have ey := ceilDiv_le_iff dy.natAbs r.toNat (k + 1) hR
  unfold increment_move_probes
  refine ⟨?_, ?_, ?_⟩
  · intro h
    by_contra hc
    have h1 : dx.natAbs ≤ (k + 1) * r.toNat := by omega
    have h2 : dy.natAbs ≤ (k + 1) * r.toNat := by omega
    have := ex.mpr h1
    have := ey.mpr h2
    omega
  · intro h
    exact ⟨ex.mp (by omega), ey.mp (by omega)⟩
  · intro h
    by_contra hc
    have h1 := ex.mp (by omega)
    have h2 := ey.mp (by omega)
    omega

/-- A sub-step that does not reject and does not end at the destination is followed
by the next sub-step. -/
theorem increment_move_at_snoc (w : World) (thing : Nat) (x y : Int) (a : Bool)
    (radius : Int) (n : Nat) :
    ∀ (v0 v : loopvars_t) (tx ty sj : Int) (res : Option TryMoveResult_t) (s : State),
      increment_move_at w thing x y a radius n v0 = some v →
      increment_move_body w thing x y a radius v.tryx v.tryy v.stairjank v.result v.st
        = .next tx ty sj res s →
      (tx ≠ x ∨ ty ≠ y) →
      increment_move_at w thing x y a radius (n + 1) v0 = some ⟨tx, ty, sj, res, s⟩ := by
  induction n with
  | zero =>
    intro v0 v tx ty sj res s h hb hne
    simp only [increment_move_at, Option.some.injEq] at h
    subst h
    simp only [increment_move_at, hb, hne, if_true]
  | succ n ih =>
    intro v0 v tx ty sj res s h hb hne
    rw [increment_move_at] at h
    rw [increment_move_at]
    split at h
    · exact absurd h (by simp)
    · rename_i tx1 ty1 sj1 r1 s1 heq
      split at h
      · rename_i hne1
        simp only [hne1, if_true]
        exact ih _ _ _ _ _ _ _ h hb hne
      · exact absurd h (by simp)

/-- C18 (amended): with `r = min(max(radius, mapobjectscale), 16 * mapobjectscale)`
and `mapobjectscale > 0` where `16 * mapobjectscale` fits a `fixed_t`, the loop of
`increment_move` terminates for every actor and destination, that is
`increment_move` returns.  For a destination `(x, y)` such that the coordinates of the
start and of the destination and their differences fit a `fixed_t`, with
`N = max(ceil(|dx| / r), ceil(|dy| / r), 1)`, and for an actor that is without
`MF_NOCLIP` when each of the first `N` sub-steps starts: `increment_move` makes at
most `N` probes, and every probe point differs from the previous one (the starting
point for the first probe) by at most `r` on each axis; and if none of the first `N`
sub-steps rejects, probe number `N` is made at exactly `(x, y)`, it is the last one,
and `increment_move` returns true. -/
theorem increment_move_substeps (w : World) (st : State) (thing : Nat) (x y : Int) (a : Bool)
    (result : Option TryMoveResult_t)
    (hscale : 0 < w.mapobjectscale ∧ 16 * w.mapobjectscale ≤ INT32_MAX) :
    (∃ out, increment_move w st thing x y a result = some out) ∧
    ((INT32_MIN ≤ (st.mo thing).x ∧ (st.mo thing).x ≤ INT32_MAX) →
     (INT32_MIN ≤ (st.mo thing).y ∧ (st.mo thing).y ≤ INT32_MAX) →
     (INT32_MIN ≤ x ∧ x ≤ INT32_MAX) → (INT32_MIN ≤ y ∧ y ≤ INT32_MAX) →
     (-INT32_MAX ≤ x - (st.mo thing).x ∧ x - (st.mo thing).x ≤ INT32_MAX) →
     (-INT32_MAX ≤ y - (st.mo thing).y ∧ y - (st.mo thing).y ≤ INT32_MAX) →
     (∀ n, n < increment_move_probes (x - (st.mo thing).x) (y - (st.mo thing).y)
        (increment_move_radius w (st.mo thing)) →
      (increment_move_at w thing x y a (increment_move_radius w (st.mo thing)) n
        (increment_move_start st thing result)).map
          (fun v => hasFlag (v.st.mo thing).flags MF_NOCLIP) ≠ some true) →
       (∀ (n : Nat) (v : loopvars_t),
         increment_move_at w thing x y a (increment_move_radius w (st.mo thing)) n
             (increment_move_start st thing result) = some v →
           n < increment_move_probes (x - (st.mo thing).x) (y - (st.mo thing).y)
             (increment_move_radius w (st.mo thing)) ∧
           |(increment_move_next x y (increment_move_radius w (st.mo thing)) thing v).1 - v.tryx|
             ≤ increment_move_radius w (st.mo thing) ∧
           |(increment_move_next x y (increment_move_radius w (st.mo thing)) thing v).2 - v.tryy|
             ≤ increment_move_radius w (st.mo thing)) ∧
       ((∀ n, n < increment_move_probes (x - (st.mo thing).x) (y - (st.mo thing).y)
             (increment_move_radius w (st.mo thing)) →
           (increment_move_at w thing x y a (increment_move_radius w (st.mo thing)) n
             (increment_move_start st thing result)).map
               (fun v => (increment_move_body w thing x y a (increment_move_radius w (st.mo thing))
                 v.tryx v.tryy v.stairjank v.result v.st).rejected) ≠ some true) →
         ∃ (v : loopvars_t) (sj : Int) (res : Option TryMoveResult_t) (st' : State),
           increment_move_at w thing x y a (increment_move_radius w (st.mo thing))
             (increment_move_probes (x - (st.mo thing).x) (y - (st.mo thing).y)
               (increment_move_radius w (st.mo thing)) - 1)
             (increment_move_start st thing result) = some v ∧
           increment_move_next x y (increment_move_radius w (st.mo thing)) thing v = (x, y) ∧
           increment_move_body w thing x y a (increment_move_radius w (st.mo thing))
             v.tryx v.tryy v.stairjank v.result v.st = .next x y sj res st' ∧
           increment_move w st thing x y a result = some (true, sj, res, st'))) := by
  have hr := increment_move_radius_pos w (st.mo thing) hscale.1
  refine ⟨?_, ?_⟩
  · unfold increment_move
    simp only
    have hwx := wrap32_natAbs_le (x - (st.mo thing).x)
    have hwy := wrap32_natAbs_le (y - (st.mo thing).y)
    exact increment_move_loop_total w thing x y a _ hr _ _ _ _ _ _ (by omega)
  intro hx0 hy0 hx hy hdx hdy hclip
  generalize hN : increment_move_probes (x - (st.mo thing).x) (y - (st.mo thing).y)
    (increment_move_radius w (st.mo thing)) = N at hclip ⊢
  have hfuel := increment_move_probes_le (x - (st.mo thing).x) (y - (st.mo thing).y) _ hr
  have hspec := increment_move_probes_spec (x - (st.mo thing).x) (y - (st.mo thing).y) _ hr
  rw [hN] at hfuel hspec
  have hN1 : 1 ≤ N := by
    rw [← hN]
    unfold increment_move_probes
    omega
  obtain ⟨r, hrd⟩ : ∃ r, increment_move_radius w (st.mo thing) = r := ⟨_, rfl⟩
  simp only [hrd] at hr hclip hfuel hspec ⊢
  have hax : (x - (st.mo thing).x).natAbs ≤ 2147483647 := by
    unfold INT32_MAX at hdx
    omega
  have hay : (y - (st.mo thing).y).natAbs ≤ 2147483647 := by
    unfold INT32_MAX at hdy
    omega
  -- the distance left at a sub-step that is reached within the first `N`
  have hdist : ∀ (n : Nat) (v : loopvars_t), n ≤ N →
      increment_move_at w thing x y a r n (increment_move_start st thing result) = some v →
      (x - v.tryx).natAbs = (x - (st.mo thing).x).natAbs - n * r.toNat ∧
      (y - v.tryy).natAbs = (y - (st.mo thing).y).natAbs - n * r.toNat ∧
      (INT32_MIN ≤ v.tryx ∧ v.tryx ≤ INT32_MAX) ∧ (INT32_MIN ≤ v.tryy ∧ v.tryy ≤ INT32_MAX) := by
    intro n v hn hat
    obtain ⟨h1, h2, h3, h4⟩ := increment_move_at_dist w thing x y a r hr hx hy n
      (increment_move_start st thing result) v hx0 hy0 hax hay
      (fun k hk => hclip k (by omega)) hat
    have s0 : (increment_move_start st thing result).tryx = (st.mo thing).x := rfl
    have s1 : (increment_move_start st thing result).tryy = (st.mo thing).y := rfl
    rw [s0] at h1 h3
    rw [s1] at h2 h4
    exact ⟨h1, h2, by omega, by omega⟩
  -- every sub-step that is reached is one of the first `N`
  have hlt : ∀ (n : Nat) (v : loopvars_t),
      increment_move_at w thing x y a r n (increment_move_start st thing result) = some v →
      n < N := by
    intro n
    induction n with
    | zero => intro _ _; omega
    | succ m ih =>
      intro v hat
      obtain ⟨u, hu⟩ := increment_move_at_prefix w thing x y a r m _ v hat
      have hm := ih u hu
      obtain ⟨h1, h2, -, -⟩ := hdist (m + 1) v (by omega) hat
      have hne := increment_move_at_ne w thing x y a r m _ v hat
      apply (hspec m).2.2
      rcases hne with hne | hne
      · left; omega
      · right; omega
  -- what a sub-step among the first `N` that does not reject yields
  have hstep : ∀ (n : Nat) (v : loopvars_t), n < N →
      increment_move_at w thing x y a r n (increment_move_start st thing result) = some v →
      hasFlag (v.st.mo thing).flags MF_NOCLIP = false ∧
      (x - increment_move_try false r x v.tryx).natAbs
        = (x - (st.mo thing).x).natAbs - (n + 1) * r.toNat ∧
      (y - increment_move_try false r y v.tryy).natAbs
        = (y - (st.mo thing).y).natAbs - (n + 1) * r.toNat ∧
      |increment_move_try false r x v.tryx - v.tryx| ≤ r ∧
      |increment_move_try false r y v.tryy - v.tryy| ≤ r := by
    intro n v hn hat
    have hc : hasFlag (v.st.mo thing).flags MF_NOCLIP = false := by
      have := hclip n hn
      rw [hat] at this
      simp only [Option.map_some', ne_eq, Option.some.injEq] at this
      exact Bool.eq_false_iff.mpr this
    obtain ⟨h1, h2, h3, h4⟩ := hdist n v (by omega) hat
    obtain ⟨dx, ax, -⟩ := increment_move_try_dist r x v.tryx hr hx h3 (by omega)
    obtain ⟨dy, ay, -⟩ := increment_move_try_dist r y v.tryy hr hy h4 (by omega)
    refine ⟨hc, ?_, ?_, ax, ay⟩
    · rw [dx, h1, Nat.add_mul]; omega
    · rw [dy, h2, Nat.add_mul]; omega
  refine ⟨?_, ?_⟩
  · intro n v hat
    have hn := hlt n v hat
    obtain ⟨hc, -, -, ax, ay⟩ := hstep n v hn hat
    simp only [increment_move_next, hc]
    exact ⟨hn, ax, ay⟩
  · intro hno
    -- each of the first `N` sub-steps is reached
    have hreach : ∀ k, k < N →
        ∃ v, increment_move_at w thing x y a r k (increment_move_start st thing result)
          = some v := by
      intro k
      induction k with
      | zero => intro _; exact ⟨_, rfl⟩
      | succ k ih =>
        intro hk
        obtain ⟨v, hat⟩ := ih (by omega)
        obtain ⟨hc, dx, dy, -, -⟩ := hstep k v (by omega) hat
        have hrej := hno k (by omega)
        rw [hat] at hrej
        simp only [Option.map_some', ne_eq, Option.some.injEq] at hrej
        rcases hb : increment_move_body w thing x y a r v.tryx v.tryy v.stairjank v.result v.st
          with ⟨r0, s0⟩ | ⟨tx, ty, sj1, r1, s1⟩
        · rw [hb] at hrej
          exact absurd rfl hrej
        · have hnext := increment_move_body_next _ _ _ _ _ _ _ _ _ _ _ _ _ _ _ _ hb
          rw [hc] at hnext
          rw [← hnext.1] at dx
          rw [← hnext.2] at dy
          refine ⟨_, increment_move_at_snoc w thing x y a r k _ v tx ty sj1 r1 s1 hat hb ?_⟩
          rcases (hspec k).1 hk with h | h
          · left; intro e; rw [e] at dx; simp only [sub_self, Int.natAbs_zero] at dx; omega
          · right; intro e; rw [e] at dy; simp only [sub_self, Int.natAbs_zero] at dy; omega
    obtain ⟨v, hat⟩ := hreach (N - 1) (by omega)
    obtain ⟨hc, dx, dy, -, -⟩ := hstep (N - 1) v (by omega) hat
    have hrej := hno (N - 1) (by omega)
    rw [hat] at hrej
    simp only [Option.map_some', ne_eq, Option.some.injEq] at hrej
    rcases hb : increment_move_body w thing x y a r v.tryx v.tryy v.stairjank v.result v.st
      with ⟨r0, s0⟩ | ⟨tx, ty, sj1, r1, s1⟩
    · rw [hb] at hrej
      exact absurd rfl hrej
    · have hnext := increment_move_body_next _ _ _ _ _ _ _ _ _ _ _ _ _ _ _ _ hb
      rw [hc] at hnext
      have hle := (hspec (N - 1)).2.1 (by omega)
      have e1 : N - 1 + 1 = N := by omega
      rw [e1] at dx dy hle
      have ex : tx = x := by
        rw [← hnext.1] at dx
        omega
      have ey : ty = y := by
        rw [← hnext.2] at dy
        omega
      subst ex ey
      refine ⟨v, sj1, r1, s1, hat, ?_, hb, ?_⟩
      · simp only [increment_move_next, hc]
        rw [← hnext.1, ← hnext.2]
      · unfold increment_move
        simp only [hrd]
        have hk : (tx - (st.mo thing).x).natAbs + (ty - (st.mo thing).y).natAbs + 1
            = (N - 1) + 1 + ((tx - (st.mo thing).x).natAbs + (ty - (st.mo thing).y).natAbs
              + 1 - N) := by omega
        rw [hk]
        exact increment_move_loop_accepted w thing tx ty a r (N - 1)
          (increment_move_start st thing result) v sj1 r1 s1 _ hat hb

/-- C18, amended, on a move of 40 along x by an actor of radius 16 on level ground:
three probes are due, none of the three sub-steps rejects, the third probes the
destination, and `increment_move` returns true. -/
theorem increment_move_substeps_witness :
    increment_move_probes (40 * FRACUNIT - ((sceneOf walker).mo 0).x)
      (0 - ((sceneOf walker).mo 0).y)
      (increment_move_radius (twoRooms 0 0) ((sceneOf walker).mo 0)) = 3 ∧
    (∃ out, increment_move (twoRooms 0 0) (sceneOf walker) 0 (40 * FRACUNIT) 0 true none
      = some out) ∧
    ∃ (v : loopvars_t) (sj : Int) (res : Option TryMoveResult_t) (st' : State),
      increment_move_at (twoRooms 0 0) 0 (40 * FRACUNIT) 0 true
        (increment_move_radius (twoRooms 0 0) ((sceneOf walker).mo 0))
        (increment_move_probes (40 * FRACUNIT - ((sceneOf walker).mo 0).x)
          (0 - ((sceneOf walker).mo 0).y)
          (increment_move_radius (twoRooms 0 0) ((sceneOf walker).mo 0)) - 1)
        (increment_move_start (sceneOf walker) 0 none) = some v ∧
      increment_move_next (40 * FRACUNIT) 0
        (increment_move_radius (twoRooms 0 0) ((sceneOf walker).mo 0)) 0 v
        = (40 * FRACUNIT, 0) ∧
      increment_move_body (twoRooms 0 0) 0 (40 * FRACUNIT) 0 true
        (increment_move_radius (twoRooms 0 0) ((sceneOf walker).mo 0))
        v.tryx v.tryy v.stairjank v.result v.st = .next (40 * FRACUNIT) 0 sj res st' ∧
      increment_move (twoRooms 0 0) (sceneOf walker) 0 (40 * FRACUNIT) 0 true none
        = some (true, sj, res, st') :=
  have h := increment_move_substeps (twoRooms 0 0) (sceneOf walker) 0 (40 * FRACUNIT) 0 true none
    (by decide)
  ⟨by decide, h.1,
    (h.2 (by decide) (by decide) (by decide) (by decide) (by decide) (by decide)
      (by decide)).2 (by decide)⟩

/-- C18 fails as stated, for an actor without `MF_NOCLIP` and of radius 16, where
`r` is 16.  First scene: the actor at `x = INT32_MIN` is sent to `x = 16`; the
difference `x - tryx` does not fit a `fixed_t` and comes out negative, `tryx -= radius`
wraps, and the first probe is made at `x = 2146435072`, which is `2^32 - 2^20` away
from the starting point.  Second scene: the actor at `x = -24576` is sent to
`x = 24576`; the difference comes out negative again, the first probe is made at
`x = -24592`, away from the destination, and the 3071 probes that are left of the
3072 of the claim cannot cover the distance to the destination in steps of at most
`r`. -/
theorem substeps_counterexample :
    (0 < (twoRooms 0 0).mapobjectscale ∧ 16 * (twoRooms 0 0).mapobjectscale ≤ INT32_MAX) ∧
    hasFlag walker.flags MF_NOCLIP = false ∧
    (increment_move_radius (twoRooms 0 0) { walker with x := INT32_MIN } = 16 * FRACUNIT ∧
      increment_move_next (16 * FRACUNIT) 0
        (increment_move_radius (twoRooms 0 0) { walker with x := INT32_MIN }) 0
        (increment_move_start (sceneOf { walker with x := INT32_MIN }) 0 none)
        = (2146435072, 0) ∧
      (increment_move_first (twoRooms 0 0) (sceneOf { walker with x := INT32_MIN }) 0
        (16 * FRACUNIT) 0 none).2.2.tm.x = 2146435072 ∧
      2146435072 - INT32_MIN = 4294967296 - 16 * FRACUNIT) ∧
    (increment_move_radius (twoRooms 0 0) { walker with x := -24576 * FRACUNIT }
        = 16 * FRACUNIT ∧
      increment_move_next (24576 * FRACUNIT) 0
        (increment_move_radius (twoRooms 0 0) { walker with x := -24576 * FRACUNIT }) 0
        (increment_move_start (sceneOf { walker with x := -24576 * FRACUNIT }) 0 none)
        = (-24592 * FRACUNIT, 0) ∧
      (increment_move_first (twoRooms 0 0) (sceneOf { walker with x := -24576 * FRACUNIT }) 0
        (24576 * FRACUNIT) 0 none).2.2.tm.x = -24592 * FRACUNIT ∧
      increment_move_probes (24576 * FRACUNIT - -24576 * FRACUNIT) 0 (16 * FRACUNIT) = 3072 ∧
      3071 * (16 * FRACUNIT) < 24576 * FRACUNIT - -24592 * FRACUNIT) := by
  refine ⟨?_, ?_, ⟨?_, ?_, ?_, ?_⟩, ?_, ?_, ?_, ?_, ?_⟩
  · decide
  · decide
  · decide
  · decide
  · decide
  · decide
  · decide
  · decide
  · decide
  · decide
  · decide

/-! ## The result record of a rejected move -/

/-- C19 on the crusher room with two vulnerable actors of height 32 under a ceiling
at 16: neither actor fits and nothing blocks, `P_CheckSector(sector, true)` damages
actor 0 and returns; actor 1 is not damaged in that call, although the crushing step
run on it afterwards damages it too. -/
theorem crusher_pair_first_only :
    (P_ThingHeightClip crusherPair (sceneOf victim) 0).1 = false ∧
    (P_ThingHeightClip crusherPair (sceneOf victim) 1).1 = false ∧
    (P_CheckSector_first crusherPair
      { sceneOf victim with nofit := false, crushchange := true } 0).1 = true ∧
    (P_CheckSector crusherPair (sceneOf victim) 0 true).2.damaged
      = [{ target := 0, damagetype := DMG_CRUSHED }] ∧
    (PIT_ChangeSector crusherPair (P_CheckSector crusherPair (sceneOf victim) 0 true).2 1
        true).2.damaged
      = [{ target := 0, damagetype := DMG_CRUSHED }, { target := 1, damagetype := DMG_CRUSHED }] := by
  refine ⟨?_, ?_, ?_, ?_, ?_⟩
  · decide
  · decide
  · decide
  · decide
  · decide

/-! ## The pending lines across the move of a rider -/

/-- C20 on a pushable that steps up by 8 across the special line 0 with a player
standing on it: when `increment_move` has accepted the move of the pushable, line 0 is
pending (`numspechitint` is 1); `PIT_PushableMoved` then moves the player with a
nested `P_TryMove` and restores `tm`, which comes out equal to what it was, but not
the buffer: `numspechitint` is left at the value to which the delivery loop of the
nested move has run it down, the largest `size_t`.  The outer `P_TryMove` then reads
the buffer beyond its entries, which the model answers with `none`. -/
theorem PIT_PushableMoved_pending :
    ((increment_move riderRooms riderScene 0 (8 * FRACUNIT) 0 true none).bind (fun r =>
      (PIT_PushableMoved
        (fun st t x y => (P_TryMove riderRooms 1 st t x y true none).map (fun q => q.2.2))
        { r.2.2.2 with stand := 0, standx := 8 * FRACUNIT, standy := 0 } 1).map (fun s =>
          (r.2.2.2.pending, r.2.2.2.numspechitint, s.numspechitint,
            decide (s.tm = r.2.2.2.tm), (s.mo 1).x - (r.2.2.2.mo 1).x))))
      = some ([0], 1, 2 ^ 64 - 1, true, 8 * FRACUNIT) ∧
    (P_TryMove riderRooms 2 riderScene 0 (8 * FRACUNIT) 0 true none).isNone = true := by
  refine ⟨?_, ?_⟩
  · decide
  · decide

/-! ## A plane that is blocked -/

@[simp] theorem World.setFloorheight_floor (w : World) (sector : Nat) (h : Int) :
    ((w.setFloorheight sector h).sectors sector).floorheight = h := by
  simp [World.setFloorheight]

@[simp] theorem World.setFloorheight_ceiling (w : World) (sector : Nat) (h : Int) :
    ((w.setFloorheight sector h).sectors sector).ceilingheight
      = (w.sectors sector).ceilingheight := by
  simp [World.setFloorheight]

@[simp] theorem World.setCeilingheight_ceiling (w : World) (sector : Nat) (h : Int) :
    ((w.setCeilingheight sector h).sectors sector).ceilingheight = h := by
  simp [World.setCeilingheight]

@[simp] theorem World.setCeilingheight_floor (w : World) (sector : Nat) (h : Int) :
    ((w.setCeilingheight sector h).sectors sector).floorheight
      = (w.sectors sector).floorheight := by
  simp [World.setCeilingheight]

/-- A floor block that answers `crushed`, where the other answer is not `crushed`, has
found the sector not to fit at the tentative height and has set the floor back. -/
theorem T_MovePlane_floor_crushed (w : World) (st : State) (sector : Nat) (crush : Bool)
    (h : Int) (na : Bool) (blocked moved : result_e) (hm : moved ≠ .crushed)
    (hc : (T_MovePlane_floor w st sector crush h na blocked moved).1 = .crushed) :
    ((T_MovePlane_floor w st sector crush h na blocked moved).2.1.sectors sector).floorheight
      = (w.sectors sector).floorheight ∧
    ((T_MovePlane_floor w st sector crush h na blocked moved).2.1.sectors sector).ceilingheight
      = (w.sectors sector).ceilingheight ∧
    (P_CheckSector (w.setFloorheight sector h) st sector crush).1 = true := by
  unfold T_MovePlane_floor at hc ⊢
  simp only at hc ⊢
  split at hc
  · rename_i hf
    rw [if_pos hf]
    simp only [Bool.and_eq_true] at hf
    simp only [World.setFloorheight_floor, World.setFloorheight_ceiling]
    exact ⟨trivial, trivial, hf.1⟩
  · exact absurd hc hm

theorem T_MovePlane_ceiling_crushed (w : World) (st : State) (sector : Nat) (crush : Bool)
    (h : Int) (na : Bool) (blocked moved : result_e) (hm : moved ≠ .crushed)
    (hc : (T_MovePlane_ceiling w st sector crush h na blocked moved).1 = .crushed) :
    ((T_MovePlane_ceiling w st sector crush h na blocked moved).2.1.sectors sector).floorheight
      = (w.sectors sector).floorheight ∧
    ((T_MovePlane_ceiling w st sector crush h na blocked moved).2.1.sectors sector).ceilingheight
      = (w.sectors sector).ceilingheight ∧
    (P_CheckSector (w.setCeilingheight sector h) st sector crush).1 = true := by
  unfold T_MovePlane_ceiling at hc ⊢
  simp only at hc ⊢
  split at hc
  · rename_i hf
    rw [if_pos hf]
    simp only [Bool.and_eq_true] at hf
    simp only [World.setCeilingheight_floor, World.setCeilingheight_ceiling]
    exact ⟨trivial, trivial, hf.1⟩
  · exact absurd hc hm

/-- A block of `T_MovePlane` both of whose answers are `pastdest` answers `pastdest`. -/
theorem T_MovePlane_floor_pastdest (w : World) (st : State) (sector : Nat) (crush : Bool)
    (h : Int) (na : Bool) :
    (T_MovePlane_floor w st sector crush h na .pastdest .pastdest).1 = .pastdest := by
  unfold T_MovePlane_floor
  simp only
  split <;> rfl

theorem T_MovePlane_ceiling_pastdest (w : World) (st : State) (sector : Nat) (crush : Bool)
    (h : Int) (na : Bool) :
    (T_MovePlane_ceiling w st sector crush h na .pastdest .pastdest).1 = .pastdest := by
  unfold T_MovePlane_ceiling
  simp only
  split <;> rfl

/-- C13: whenever `T_MovePlane` returns `crushed`, the floorheight and the
ceilingheight of the sector equal their values before the call, and `P_CheckSector`
has reported a non-fit for the tentative height: the plane that the call moves (the
floor for `floorOrCeiling = 0`, else the ceiling) set one `speed` step in the
`direction`. -/
theorem T_MovePlane_crushed (w : World) (st : State) (sector : Nat) (speed dest : Int)
    (crush : Bool) (floorOrCeiling direction : Int)
    (h : (T_MovePlane w st sector speed dest crush floorOrCeiling direction).1 = .crushed) :
    ((T_MovePlane w st sector speed dest crush floorOrCeiling direction).2.1.sectors
        sector).floorheight = (w.sectors sector).floorheight ∧
    ((T_MovePlane w st sector speed dest crush floorOrCeiling direction).2.1.sectors
        sector).ceilingheight = (w.sectors sector).ceilingheight ∧
    (P_CheckSector
      (if floorOrCeiling = 0 then
         w.setFloorheight sector ((w.sectors sector).floorheight + direction * speed)
       else w.setCeilingheight sector ((w.sectors sector).ceilingheight + direction * speed))
      st sector crush).1 = true := by
  unfold T_MovePlane at h ⊢
  simp only at h ⊢
  have np : result_e.pastdest ≠ result_e.crushed := by decide
  have no : result_e.ok ≠ result_e.crushed := by decide
  by_cases f0 : floorOrCeiling = 0
  · rw [if_pos f0] at h ⊢
    rw [if_pos f0]
    by_cases d0 : direction = -1
    · rw [if_pos d0] at h ⊢
      have e : (w.sectors sector).floorheight + direction * speed
          = (w.sectors sector).floorheight - speed := by rw [d0]; ring
      rw [e]
      by_cases c : (w.sectors sector).floorheight - speed < dest
      · rw [if_pos c, T_MovePlane_floor_pastdest] at h
        exact absurd h np
      · rw [if_neg c] at h ⊢
        exact T_MovePlane_floor_crushed _ _ _ _ _ _ _ _ no h
    · rw [if_neg d0] at h ⊢
      by_cases d1 : direction = 1
      · rw [if_pos d1] at h ⊢
        have e : (w.sectors sector).floorheight + direction * speed
            = (w.sectors sector).floorheight + speed := by rw [d1]; ring
        rw [e]
        by_cases c : (w.sectors sector).floorheight + speed
            > (if dest < (w.sectors sector).ceilingheight then dest
               else (w.sectors sector).ceilingheight)
        · rw [if_pos c, T_MovePlane_floor_pastdest] at h
          exact absurd h np
        · rw [if_neg c] at h ⊢
          exact T_MovePlane_floor_crushed _ _ _ _ _ _ _ _ no h
      · rw [if_neg d1] at h
        exact absurd h no
  · rw [if_neg f0] at h ⊢
    rw [if_neg f0]
    by_cases f1 : floorOrCeiling = 1
    · rw [if_pos f1] at h ⊢
      by_cases d0 : direction = -1
      · rw [if_pos d0] at h ⊢
        have e : (w.sectors sector).ceilingheight + direction * speed
            = (w.sectors sector).ceilingheight - speed := by rw [d0]; ring
        rw [e]
        by_cases c : (w.sectors sector).ceilingheight - speed
            < (if dest > (w.sectors sector).floorheight then dest
               else (w.sectors sector).floorheight)
        · rw [if_pos c, T_MovePlane_ceiling_pastdest] at h
          exact absurd h np
        · rw [if_neg c] at h ⊢
          exact T_MovePlane_ceiling_crushed _ _ _ _ _ _ _ _ no h
      · rw [if_neg d0] at h ⊢
        by_cases d1 : direction = 1
        · rw [if_pos d1] at h ⊢
          have e : (w.sectors sector).ceilingheight + direction * speed
              = (w.sectors sector).ceilingheight + speed := by rw [d1]; ring
          rw [e]
          by_cases c : (w.sectors sector).ceilingheight + speed > dest
          · rw [if_pos c, T_MovePlane_ceiling_pastdest] at h
            exact absurd h np
          · rw [if_neg c] at h ⊢
            exact T_MovePlane_ceiling_crushed _ _ _ _ _ _ _ _ no h
        · rw [if_neg d1] at h
          exact absurd h no
    · rw [if_neg f1] at h
      exact absurd h no

/-- C13 on the crusher room with a pushable that is not vulnerable: the ceiling at 16
is sent down by one unit, the pushable blocks it, and the call answers `crushed`
with the ceiling back at 16. -/
theorem T_MovePlane_crushed_witness :
    (T_MovePlane crusherRoom (sceneOf crate) 0 FRACUNIT 0 true 1 (-1)).1 = .crushed ∧
    ((T_MovePlane crusherRoom (sceneOf crate) 0 FRACUNIT 0 true 1 (-1)).2.1.sectors
        0).floorheight = 0 ∧
    ((T_MovePlane crusherRoom (sceneOf crate) 0 FRACUNIT 0 true 1 (-1)).2.1.sectors
        0).ceilingheight = 16 * FRACUNIT :=
  ⟨by decide,
    (T_MovePlane_crushed crusherRoom (sceneOf crate) 0 FRACUNIT 0 true 1 (-1) (by decide)).1,
    (T_MovePlane_crushed crusherRoom (sceneOf crate) 0 FRACUNIT 0 true 1 (-1) (by decide)).2.1⟩

/-! ## Teleport moves -/

theorem mem_keptSectors (l : List msecnode_t) (s : Nat) :
    s ∈ keptSectors l ↔ ∃ m ∈ l, m.m_thing ≠ none ∧ m.m_sector = s := by
  unfold keptSectors
  simp only [List.mem_map, List.mem_filter]
  constructor
  · rintro ⟨m, ⟨hm, hk⟩, hs⟩
    exact ⟨m, hm, by intro h; rw [h] at hk; simp at hk, hs⟩
  · rintro ⟨m, hm, hk, hs⟩
    refine ⟨m, ⟨hm, ?_⟩, hs⟩
    cases h : m.m_thing with
    | none => exact absurd h hk
    | some v => rfl

theorem P_AddSecnode_keep_none (s thing : Nat) (l : List msecnode_t)
    (h : P_AddSecnode_keep s thing l = none) : ∀ m ∈ l, m.m_sector ≠ s := by
  induction l with
  | nil => intro m hm; simp at hm
  | cons node rest ih =>
    simp only [P_AddSecnode_keep] at h
    split at h
    · exact absurd h (by simp)
    · rename_i hne
      simp only [Option.map_eq_none'] at h
      intro m hm
      rcases List.mem_cons.mp hm with rfl | hm
      · exact hne
      · exact ih h m hm

/-- The search loop of `P_AddSecnode` marks one node of the sector and keeps the
other nodes. -/
theorem P_AddSecnode_keep_some (s thing : Nat) (l : List msecnode_t) :
    ∀ l', P_AddSecnode_keep s thing l = some l' → keptFirst thing l →
      keptFirst thing l' ∧
      (∀ m ∈ l', m ∈ l ∨ (m.m_sector = s ∧ m.m_thing = some thing)) ∧
      (∀ m ∈ l, m.m_thing ≠ none → m ∈ l' ∨ m.m_sector = s) ∧
      (∃ m ∈ l', m.m_sector = s ∧ m.m_thing = some thing) := by
  induction l with
  | nil => intro l' h; simp [P_AddSecnode_keep] at h
  | cons node rest ih =>
    intro l' h hk
    simp only [P_AddSecnode_keep] at h
    split at h
    · rename_i heq
      simp only [Option.some.injEq] at h
      subst h
      refine ⟨⟨Or.inr rfl, hk.2.1, hk.2.2⟩, ?_, ?_, ?_⟩
      · intro m hm
        rcases List.mem_cons.mp hm with rfl | hm
        · exact Or.inr ⟨heq, rfl⟩
        · exact Or.inl (List.mem_cons_of_mem _ hm)
      · intro m hm _
        rcases List.mem_cons.mp hm with rfl | hm
        · exact Or.inr heq
        · exact Or.inl (List.mem_cons_of_mem _ hm)
      · exact ⟨_, List.mem_cons_self _ _, heq, rfl⟩
    · rename_i hne
      rcases hr : P_AddSecnode_keep s thing rest with _ | l1
      · rw [hr] at h; simp at h
      · rw [hr] at h
        simp only [Option.map_some', Option.some.injEq] at h
        subst h
        obtain ⟨k1, k2, k3, m0, hm0, hs0, ht0⟩ := ih l1 hr hk.2.2
        refine ⟨⟨hk.1, ?_, k1⟩, ?_, ?_, ?_⟩
        · intro m hm hmk
          rcases k2 m hm with hin | ⟨hsec, _⟩
          · exact hk.2.1 m hin hmk
          · rw [hsec]; exact fun e => hne e.symm
        · intro m hm
          rcases List.mem_cons.mp hm with rfl | hm
          · exact Or.inl (List.mem_cons_self _ _)
          · rcases k2 m hm with hin | hnew
            · exact Or.inl (List.mem_cons_of_mem _ hin)
            · exact Or.inr hnew
        · intro m hm hmk
          rcases List.mem_cons.mp hm with rfl | hm
          · exact Or.inl (List.mem_cons_self _ _)
          · rcases k3 m hm hmk with hin | hsec
            · exact Or.inl (List.mem_cons_of_mem _ hin)
            · exact Or.inr hsec
        · exact ⟨m0, List.mem_cons_of_mem _ hm0, hs0, ht0⟩

/-- `P_AddSecnode` keeps the list well marked and adds the sector to the kept ones. -/
theorem P_AddSecnode_spec (s thing : Nat) (l : List msecnode_t) (hk : keptFirst thing l) :
    keptFirst thing (P_AddSecnode s thing l) ∧
    ∀ s', s' ∈ keptSectors (P_AddSecnode s thing l) ↔ s' = s ∨ s' ∈ keptSectors l := by
  unfold P_AddSecnode
  rcases hr : P_AddSecnode_keep s thing l with _ | l1
  · have hn := P_AddSecnode_keep_none s thing l hr
    refine ⟨⟨Or.inr rfl, fun m hm _ => hn m hm, hk⟩, ?_⟩
    intro s'
    simp only [mem_keptSectors, List.mem_cons]
    constructor
    · rintro ⟨m, hm | hm, hmk, hs⟩
      · subst hm; exact Or.inl hs.symm
      · exact Or.inr ⟨m, hm, hmk, hs⟩
    · rintro (h | ⟨m, hm, hmk, hs⟩)
      · exact ⟨_, Or.inl rfl, by simp, h.symm⟩
      · exact ⟨m, Or.inr hm, hmk, hs⟩
  · obtain ⟨k1, k2, k3, m0, hm0, hs0, ht0⟩ := P_AddSecnode_keep_some s thing l l1 hr hk
    refine ⟨k1, ?_⟩
    intro s'
    simp only [mem_keptSectors]
    constructor
    · rintro ⟨m, hm, hmk, hs⟩
      rcases k2 m hm with hin | ⟨hsec, _⟩
      · exact Or.inr ⟨m, hin, hmk, hs⟩
      · exact Or.inl (by rw [← hs, hsec])
    · rintro (h | ⟨m, hm, hmk, hs⟩)
      · exact ⟨m0, hm0, by rw [ht0]; simp, by rw [hs0, h]⟩
      · rcases k3 m hm hmk with hin | hsec
        · exact ⟨m, hin, hmk, hs⟩
        · exact ⟨m0, hm0, by rw [ht0]; simp, by rw [hs0, ← hsec, hs]⟩

/-- `PIT_GetSectors` adds the sectors on the sides of a line that crosses the box. -/
theorem PIT_GetSectors_spec (w : World) (tm : tm_t) (thing : Nat) (l : List msecnode_t)
    (ld : line_t) (hk : keptFirst thing l) :
    keptFirst thing (PIT_GetSectors w tm thing l ld) ∧
    ∀ s, s ∈ keptSectors (PIT_GetSectors w tm thing l ld)
      ↔ s ∈ keptSectors l ∨ PIT_GetSectors_adds w tm ld s := by
  unfold PIT_GetSectors PIT_GetSectors_adds
  by_cases c1 : tm.bbox.right ≤ ld.bbox.left ∨ tm.bbox.left ≥ ld.bbox.right
      ∨ tm.bbox.top ≤ ld.bbox.bottom ∨ tm.bbox.bottom ≥ ld.bbox.top
  · rw [if_pos c1]
    exact ⟨hk, fun s => ⟨Or.inl, fun h => h.elim id (fun h => absurd c1 h.1)⟩⟩
  · rw [if_neg c1]
    by_cases c2 : w.P_BoxOnLineSide tm.bbox ld ≠ -1
    · rw [if_pos c2]
      exact ⟨hk, fun s => ⟨Or.inl, fun h => h.elim id (fun h => absurd h.2.1 c2)⟩⟩
    · rw [if_neg c2]
      simp only [ne_eq, not_not] at c2
      by_cases c3 : ld.polyobj.isSome = true
      · rw [if_pos c3]
        refine ⟨hk, fun s => ⟨Or.inl, fun h => h.elim id (fun h => ?_)⟩⟩
        rw [h.2.2.1] at c3
        exact absurd c3 (by simp)
      · rw [if_neg c3]
        have hp : ld.polyobj = none := by
          cases hpo : ld.polyobj with
          | none => rfl
          | some p => rw [hpo] at c3; simp at c3
        have a1 := P_AddSecnode_spec ld.frontsector thing l hk
        simp only
        by_cases c4 : ld.hasBacksector = true
        · rw [if_pos c4]
          have a2 := P_AddSecnode_spec ld.backsector thing _ a1.1
          refine ⟨a2.1, fun s => ?_⟩
          rw [a2.2, a1.2]
          constructor
          · rintro (h | h | h)
            · exact Or.inr ⟨c1, c2, hp, Or.inr ⟨c4, h.symm⟩⟩
            · exact Or.inr ⟨c1, c2, hp, Or.inl h.symm⟩
            · exact Or.inl h
          · rintro (h | ⟨_, _, _, h | ⟨_, h⟩⟩)
            · exact Or.inr (Or.inr h)
            · exact Or.inr (Or.inl h.symm)
            · exact Or.inl h.symm
        · rw [if_neg c4]
          refine ⟨a1.1, fun s => ?_⟩
          rw [a1.2]
          constructor
          · rintro (h | h)
            · exact Or.inr ⟨c1, c2, hp, Or.inl h.symm⟩
            · exact Or.inl h
          · rintro (h | ⟨_, _, _, h | ⟨h, _⟩⟩)
            · exact Or.inr h
            · exact Or.inl h.symm
            · exact absurd h c4

/-- The scan of one run of lines adds the sectors of every crossing line that has
not been met before, when a line index stands for one line. -/
theorem P_BlockLinesIterator_sectors_spec (w : World) (tm : tm_t) (thing : Nat)
    (ls : List line_t) :
    ∀ (seen : List Nat) (l : List msecnode_t),
      (∀ a ∈ ls, ∀ b ∈ ls, a.idx = b.idx → a = b) → keptFirst thing l →
      keptFirst thing (P_BlockLinesIterator_sectors w tm thing ls seen l).2 ∧
      ∀ s, s ∈ keptSectors (P_BlockLinesIterator_sectors w tm thing ls seen l).2
        ↔ s ∈ keptSectors l ∨ ∃ ld ∈ ls, ld.idx ∉ seen ∧ PIT_GetSectors_adds w tm ld s := by
  induction ls with
  | nil =>
    intro seen l _ hk
    exact ⟨hk, fun s => ⟨Or.inl, fun h => h.elim id (fun ⟨_, hm, _⟩ => by simp at hm)⟩⟩
  | cons ld rest ih =>
    intro seen l hidx hk
    have hrest : ∀ a ∈ rest, ∀ b ∈ rest, a.idx = b.idx → a = b :=
      fun a ha b hb => hidx a (List.mem_cons_of_mem _ ha) b (List.mem_cons_of_mem _ hb)
    simp only [P_BlockLinesIterator_sectors]
    by_cases hs : seen.contains ld.idx = true
    · rw [if_pos hs]
      obtain ⟨k1, k2⟩ := ih seen l hrest hk
      refine ⟨k1, fun s => ?_⟩
      rw [k2]
      have hin : ld.idx ∈ seen := by simpa using hs
      constructor
      · rintro (h | ⟨a, ha, hn, had⟩)
        · exact Or.inl h
        · exact Or.inr ⟨a, List.mem_cons_of_mem _ ha, hn, had⟩
      · rintro (h | ⟨a, ha, hn, had⟩)
        · exact Or.inl h
        · rcases List.mem_cons.mp ha with rfl | ha
          · exact absurd hin hn
          · exact Or.inr ⟨a, ha, hn, had⟩
    · rw [if_neg hs]
      have hnin : ld.idx ∉ seen := by simpa using hs
      obtain ⟨g1, g2⟩ := PIT_GetSectors_spec w tm thing l ld hk
      obtain ⟨k1, k2⟩ := ih (ld.idx :: seen) _ hrest g1
      refine ⟨k1, fun s => ?_⟩
      rw [k2, g2]
      constructor
      · rintro ((h | h) | ⟨a, ha, hn, had⟩)
        · exact Or.inl h
        · exact Or.inr ⟨ld, List.mem_cons_self _ _, hnin, h⟩
        · exact Or.inr ⟨a, List.mem_cons_of_mem _ ha,
            fun h => hn (List.mem_cons_of_mem _ h), had⟩
      · rintro (h | ⟨a, ha, hn, had⟩)
        · exact Or.inl (Or.inl h)
        · rcases List.mem_cons.mp ha with rfl | ha
          · exact Or.inl (Or.inr had)
          · by_cases he : a.idx = ld.idx
            · have := hidx a (List.mem_cons_of_mem _ ha) ld (List.mem_cons_self _ _) he
              subst this
              exact Or.inl (Or.inr had)
            · refine Or.inr ⟨a, ha, ?_, had⟩
              intro hmem
              rcases List.mem_cons.mp hmem with h | h
              · exact he h
              · exact hn h

/-- The cells are scanned as one run of lines. -/
theorem P_CreateSecNodeList_lines_join (w : World) (tm : tm_t) (thing : Nat)
    (cells : List (List line_t)) :
    ∀ (seen : List Nat) (l : List msecnode_t),
      P_CreateSecNodeList_lines w tm thing cells seen l
        = (P_BlockLinesIterator_sectors w tm thing cells.flatten seen l).2 := by
  have happ : ∀ (a b : List line_t) (seen : List Nat) (l : List msecnode_t),
      P_BlockLinesIterator_sectors w tm thing (a ++ b) seen l
        = P_BlockLinesIterator_sectors w tm thing b
            (P_BlockLinesIterator_sectors w tm thing a seen l).1
            (P_BlockLinesIterator_sectors w tm thing a seen l).2 := by
    intro a
    induction a with
    | nil => intro b seen l; rfl
    | cons ld rest ih =>
      intro b seen l
      simp only [List.cons_append, P_BlockLinesIterator_sectors]
      split
      · exact ih _ _ _
      · exact ih _ _ _
  induction cells with
  | nil => intro seen l; rfl
  | cons cell rest ih =>
    intro seen l
    simp only [P_CreateSecNodeList_lines, List.flatten_cons]
    rw [ih, happ]

theorem keptFirst_clear (thing : Nat) (l : List msecnode_t) :
    keptFirst thing (l.map (fun node => { node with m_thing := none })) ∧
    keptSectors (l.map (fun node => { node with m_thing := none })) = [] := by
  induction l with
  | nil => exact ⟨trivial, rfl⟩
  | cons node rest ih =>
    refine ⟨⟨Or.inl rfl, ?_, ih.1⟩, ?_⟩
    · intro m hm hmk
      simp only [List.mem_map] at hm
      obtain ⟨a, _, rfl⟩ := hm
      exact absurd rfl hmk
    · have := ih.2
      unfold keptSectors at this ⊢
      simp only [List.map_cons, List.filter_cons, Option.isSome_none, Bool.false_eq_true,
        if_false]
      exact this

/-- The kept nodes of a well-marked list belong to the actor and have pairwise
different sectors. -/
theorem keptFirst_filter (thing : Nat) (l : List msecnode_t) (hk : keptFirst thing l) :
    (∀ node ∈ l.filter (fun node => node.m_thing.isSome), node.m_thing = some thing) ∧
    (keptSectors l).Nodup := by
  induction l with
  | nil => exact ⟨fun n hn => by simp at hn, List.nodup_nil⟩
  | cons node rest ih =>
    obtain ⟨h1, h2, h3⟩ := hk
    obtain ⟨i1, i2⟩ := ih h3
    constructor
    · intro n hn
      simp only [List.mem_filter, List.mem_cons] at hn
      rcases hn with ⟨rfl | hn, hs⟩
      · rcases h1 with h | h
        · rw [h] at hs; simp at hs
        · exact h
      · exact i1 n (List.mem_filter.mpr ⟨hn, hs⟩)
    · unfold keptSectors at i2 ⊢
      by_cases hs : node.m_thing.isSome = true
      · simp only [List.filter_cons, hs, if_true, List.map_cons, List.nodup_cons]
        refine ⟨?_, i2⟩
        intro hmem
        simp only [List.mem_map, List.mem_filter] at hmem
        obtain ⟨m, ⟨hm, hmk⟩, hsec⟩ := hmem
        exact h2 m hm (by intro h; rw [h] at hmk; simp at hmk) hsec
      · simp only [List.filter_cons, hs, Bool.false_eq_true, if_false]
        exact i2

/-- C17: after `P_CreateSecNodeList(thing, x, y)`, `sector_list` holds exactly one node
for each sector that is the front or back sector of a line, not of a polyobject,
that crosses the actor's box at `(x, y)` (among the lines that the blockmap hands
over for the box), plus one for the sector of the actor's subsector, and nothing
else: no sector appears twice and every node's `m_thing` is the actor.  The
hypothesis says that a line index stands for one line. -/
theorem P_CreateSecNodeList_spec (w : World) (st : State) (sector_list : List msecnode_t)
    (thing : Nat) (x y : Int)
    (hidx : ∀ a ∈ (w.blockLines (P_CreateSecNodeList_tm st thing x y).bbox).flatten,
      ∀ b ∈ (w.blockLines (P_CreateSecNodeList_tm st thing x y).bbox).flatten,
        a.idx = b.idx → a = b) :
    ((P_CreateSecNodeList w st sector_list thing x y).1.map (fun node => node.m_sector)).Nodup ∧
    (∀ node ∈ (P_CreateSecNodeList w st sector_list thing x y).1, node.m_thing = some thing) ∧
    ∀ s, s ∈ (P_CreateSecNodeList w st sector_list thing x y).1.map (fun node => node.m_sector)
      ↔ s = (st.mo thing).sector ∨
        ∃ ld ∈ (w.blockLines (P_CreateSecNodeList_tm st thing x y).bbox).flatten,
          PIT_GetSectors_adds w (P_CreateSecNodeList_tm st thing x y) ld s := by
  obtain ⟨c1, c2⟩ := keptFirst_clear thing sector_list
  obtain ⟨s1, s2⟩ := P_BlockLinesIterator_sectors_spec w (P_CreateSecNodeList_tm st thing x y)
    thing _ [] _ hidx c1
  obtain ⟨a1, a2⟩ := P_AddSecnode_spec (st.mo thing).sector thing _ s1
  obtain ⟨f1, f2⟩ := keptFirst_filter thing _ a1
  unfold P_CreateSecNodeList
  simp only [P_CreateSecNodeList_lines_join]
  refine ⟨f2, f1, fun s => ?_⟩
  have := a2 s
  unfold keptSectors at this
  rw [this, ← keptSectors, s2, c2]
  simp

/-- C17 on the walker whose box lies across the line between the two rooms: the list
that had two stale nodes for sector 5 comes out as one node for the back sector 1
and one for sector 0, which is both the front sector and the actor's own. -/
theorem P_CreateSecNodeList_spec_witness :
    (∀ a ∈ (doorway.blockLines (P_CreateSecNodeList_tm (sceneOf walker) 0 (8 * FRACUNIT)
        0).bbox).flatten,
      ∀ b ∈ (doorway.blockLines (P_CreateSecNodeList_tm (sceneOf walker) 0 (8 * FRACUNIT)
        0).bbox).flatten, a.idx = b.idx → a = b) ∧
    (P_CreateSecNodeList doorway (sceneOf walker)
        [{ m_sector := 5, m_thing := some 0 }, { m_sector := 5, m_thing := some 0 }] 0
        (8 * FRACUNIT) 0).1
      = [{ m_sector := 1, m_thing := some 0 }, { m_sector := 0, m_thing := some 0 }] ∧
    ((P_CreateSecNodeList doorway (sceneOf walker)
        [{ m_sector := 5, m_thing := some 0 }, { m_sector := 5, m_thing := some 0 }] 0
        (8 * FRACUNIT) 0).1.map (fun node => node.m_sector)).Nodup :=
  ⟨by decide, by decide,
    (P_CreateSecNodeList_spec doorway (sceneOf walker)
      [{ m_sector := 5, m_thing := some 0 }, { m_sector := 5, m_thing := some 0 }] 0
      (8 * FRACUNIT) 0 (by decide)).1⟩

/-! ## Joining and leaving a party -/

/-- The loop of `join` appends the guest's party to the party of a console once for
every time the console comes up. -/
theorem FinalPartyManager.join_add_spec (lb : Lobby) (g : List Nat) (cs : List Nat) :
    ∀ (pool pool' : Nat → List Nat), FinalPartyManager.join_add lb g cs pool = some pool' →
      ∀ c, pool' c = pool c ++ (List.replicate (cs.count c) g).flatten := by
  induction cs with
  | nil =>
    intro pool pool' h c
    simp only [FinalPartyManager.join_add, Option.some.injEq] at h
    subst h
    simp
  | cons other rest ih =>
    intro pool pool' h c
    simp only [FinalPartyManager.join_add] at h
    rcases ha : Party.add lb (pool other) g with _ | vec
    · rw [ha] at h; exact absurd h (by simp)
    · rw [ha] at h
      simp only at h
      have hv : vec = pool other ++ g := by
        unfold Party.add at ha
        split at ha
        · simp only [Option.some.injEq] at ha; exact ha.symm
        · exact absurd ha (by simp)
      rw [ih _ _ h c]
      by_cases hc : other = c
      · subst hc
        simp only [Function.update_same, List.count_cons_self, List.replicate_succ,
          List.flatten_cons, hv, List.append_assoc]
      · have hc2 : c ≠ other := fun e => hc e.symm
        rw [Function.update_noteq hc2, List.count_cons_of_ne hc2]

/-- C15 (amended): if `FinalPartyManager::join(host, guest)` returns true, and the
members of host's party whose console is host form exactly one run of that party
(or guest's local party is empty), then afterwards the final parties of host and
guest are the same member list, equal to host's previous party followed by guest's
local splitscreen party in order, and its size is at most `MAXSPLITSCREENPLAYERS`. -/
theorem FinalPartyManager_join_spec (lb : Lobby) (s s' : Parties) (host guest : Nat)
    (h : FinalPartyManager.join lb s host guest = some (true, s'))
    (hrun : ((Party.consoles lb (s.final_party host)).map (Party.Console lb)).count host = 1
      ∨ s.local_party guest = []) :
    s'.final_party host = s'.final_party guest ∧
    s'.final_party host = s.final_party host ++ s.local_party guest ∧
    (s'.final_party host).length ≤ lb.MAXSPLITSCREENPLAYERS := by
  unfold FinalPartyManager.join at h
  simp only at h
  split at h
  · exact absurd h (by simp)
  · split at h
    · exact absurd h (by simp)
    · rename_i hsize
      rcases hj : FinalPartyManager.join_add lb (s.local_party guest)
          ((Party.consoles lb (s.final_party host)).map (Party.Console lb)) s.final_party
        with _ | pool
      · rw [hj] at h; exact absurd h (by simp)
      · rw [hj] at h
        simp only [Option.some.injEq, Prod.mk.injEq, true_and] at h
        subst h
        have hp := FinalPartyManager.join_add_spec lb _ _ _ _ hj host
        have hval : pool host = s.final_party host ++ s.local_party guest := by
          rw [hp]
          rcases hrun with hr | hr
          · rw [hr]; simp
          · rw [hr]; simp
        have hfin : (Function.update pool guest (pool host)) host = pool host := by
          by_cases e : host = guest
          · subst e; simp
          · rw [Function.update_noteq e]
        simp only [hfin, Function.update_same]
        refine ⟨trivial, hval, ?_⟩
        rw [hval, List.length_append]
        omega

/-- C15, amended, on two consoles with one player each: player 1 joins the party of
player 0. -/
theorem FinalPartyManager_join_spec_witness :
    ∃ s' : Parties,
      FinalPartyManager.join {} (G_BuildLocalSplitscreenParty {}
          (G_BuildLocalSplitscreenParty {} {} 0) 1) 0 1 = some (true, s') ∧
      s'.final_party 0 = [0, 1] ∧ s'.final_party 1 = [0, 1] := by
  have e : (FinalPartyManager.join {} (G_BuildLocalSplitscreenParty {}
      (G_BuildLocalSplitscreenParty {} {} 0) 1) 0 1).map (fun r => r.1) = some true := by
    decide
  rcases h : FinalPartyManager.join {} (G_BuildLocalSplitscreenParty {}
      (G_BuildLocalSplitscreenParty {} {} 0) 1) 0 1 with _ | ⟨b, s'⟩
  · rw [h] at e; exact absurd e (by simp)
  · rw [h] at e
    simp only [Option.map_some', Option.some.injEq] at e
    subst e
    have t := FinalPartyManager_join_spec {} _ s' 0 1 h (Or.inl (by decide))
    refine ⟨s', rfl, ?_, ?_⟩
    · rw [t.2.1]; decide
    · rw [← t.1, t.2.1]; decide

/-- C15 fails as stated: console 1 has built its local party, console 0 has none.
`join(0, 1)` returns true, and both final parties are empty: the party of player 1
is not in them. -/
theorem join_counterexample :
    (FinalPartyManager.join {} (G_BuildLocalSplitscreenParty {} {} 1) 0 1).map
        (fun r => (r.1, r.2.final_party 0, r.2.final_party 1))
      = some (true, [], []) ∧
    (G_BuildLocalSplitscreenParty {} {} 1).final_party 0
        ++ (G_BuildLocalSplitscreenParty {} {} 1).local_party 1 = [1] := by
  refine ⟨?_, ?_⟩
  · decide
  · decide

theorem unique_copy_from_same {α : Type} (eq : α → α → Bool) (last : α) (l : List α)
    (h : ∀ b ∈ l, eq last b = true) : unique_copy_from eq last l = [] := by
  induction l with
  | nil => rfl
  | cons b rest ih =>
    simp only [unique_copy_from, h b (List.mem_cons_self _ _), if_true]
    exact ih (fun c hc => h c (List.mem_cons_of_mem _ hc))

/-- A party whose members all have the console `c` has the consoles `[c]`, or none
when it is empty. -/
theorem Party.consoles_same (lb : Lobby) (vec : List Nat) (c : Nat)
    (h : ∀ m ∈ vec, lb.playerconsole m = c) :
    (Party.consoles lb vec).map (Party.Console lb) = if vec = [] then [] else [c] := by
  cases vec with
  | nil => rfl
  | cons a rest =>
    have ha := h a (List.mem_cons_self _ _)
    simp only [Party.consoles, unique_copy]
    rw [unique_copy_from_same]
    · simp [Party.Console, ha]
    · intro b hb
      have hb2 := h b (List.mem_cons_of_mem _ hb)
      simp [Party.Console, ha, hb2]

/-- The loop of `leave` removes the players of the console `player` from the party of
every console that has a member in the list, and leaves the other parties. -/
theorem FinalPartyManager.leave_fold (lb : Lobby) (player : Nat) (ms : List Nat) :
    ∀ (pool : Nat → List Nat) (c : Nat),
      ms.foldl
          (fun pool member =>
            Function.update pool (Party.Console lb member)
              (Party.remove lb (pool (Party.Console lb member)) player))
          pool c
        = if ∃ m ∈ ms, Party.Console lb m = c then Party.remove lb (pool c) player
          else pool c := by
  induction ms with
  | nil => intro pool c; simp
  | cons m rest ih =>
    intro pool c
    simp only [List.foldl_cons]
    rw [ih]
    by_cases hm : Party.Console lb m = c
    · subst hm
      have hidem : Party.remove lb (Party.remove lb (pool (Party.Console lb m)) player) player
          = Party.remove lb (pool (Party.Console lb m)) player := by
        unfold Party.remove
        rw [List.filter_filter]
        congr 1
        funext x
        simp
      simp only [Function.update_same, hidem, List.mem_cons, exists_eq_or_imp, true_or,
        if_true, ite_self]
    · have hc : c ≠ Party.Console lb m := fun e => hm e.symm
      simp only [Function.update_noteq hc, List.mem_cons, exists_eq_or_imp, hm, false_or]

/-- C16 (amended): for two different consoles host and guest whose local parties
hold only players of their own console, starting from a state where host's and
guest's final parties equal their local parties, a successful `join(host, guest)`
followed by `leave(guest)` restores both final parties to their pre-join member
lists: `final_party[guest]` equals `local_party[guest]`, and `final_party[host]` is
host's pre-join party, members in their original order, and contains no player
whose console is guest.  (What guest's final party was before the join plays no
part.) -/
theorem FinalPartyManager_join_leave (lb : Lobby) (s s1 : Parties) (host guest : Nat)
    (hne : host ≠ guest)
    (hH : ∀ m ∈ s.local_party host, lb.playerconsole m = host)
    (hG : ∀ m ∈ s.local_party guest, lb.playerconsole m = guest)
    (h0 : s.final_party host = s.local_party host)
    (hj : FinalPartyManager.join lb s host guest = some (true, s1)) :
    (FinalPartyManager.leave lb s1 guest).final_party guest = s.local_party guest ∧
    (FinalPartyManager.leave lb s1 guest).final_party host = s.final_party host ∧
    (∀ m ∈ (FinalPartyManager.leave lb s1 guest).final_party host,
      lb.playerconsole m ≠ guest) ∧
    (FinalPartyManager.leave lb s1 guest).local_party = s.local_party := by
  have hcs := Party.consoles_same lb (s.final_party host) host (by rw [h0]; exact hH)
  -- the state after the join
  have hs1 : s1.local_party = s.local_party ∧
      s1.final_party guest = s1.final_party host ∧
      s1.final_party host
        = if s.final_party host = [] then [] else s.final_party host ++ s.local_party guest := by
    unfold FinalPartyManager.join at hj
    simp only at hj
    split at hj
    · exact absurd hj (by simp)
    · split at hj
      · exact absurd hj (by simp)
      · rcases hja : FinalPartyManager.join_add lb (s.local_party guest)
            ((Party.consoles lb (s.final_party host)).map (Party.Console lb)) s.final_party
          with _ | pool
        · rw [hja] at hj; exact absurd hj (by simp)
        · rw [hja] at hj
          simp only [Option.some.injEq, Prod.mk.injEq, true_and] at hj
          subst hj
          have hp := FinalPartyManager.join_add_spec lb _ _ _ _ hja host
          rw [hcs] at hp
          simp only [Function.update_same, Function.update_noteq hne]
          refine ⟨trivial, trivial, ?_⟩
          rw [hp]
          by_cases he : s.final_party host = []
          · simp [he]
          · simp [he]
  obtain ⟨hl, hg, hh⟩ := hs1
  have hrem : Party.remove lb (s.final_party host ++ s.local_party guest) guest
      = s.final_party host := by
    unfold Party.remove
    rw [List.filter_append]
    have e1 : (s.final_party host).filter (fun other => Party.Console lb other != guest)
        = s.final_party host := by
      rw [List.filter_eq_self]
      intro m hm
      rw [h0] at hm
      simp [Party.Console, hH m hm, hne]
    have e2 : (s.local_party guest).filter (fun other => Party.Console lb other != guest)
        = [] := by
      rw [List.filter_eq_nil_iff]
      intro m hm
      simp [Party.Console, hG m hm]
    rw [e1, e2, List.append_nil]
  have hhost : (FinalPartyManager.leave lb s1 guest).final_party host = s.final_party host := by
    unfold FinalPartyManager.leave
    simp only [Function.update_noteq hne]
    rw [FinalPartyManager.leave_fold, hg, hh]
    by_cases he : s.final_party host = []
    · simp [he]
    · rw [if_neg he]
      have hex : ∃ m ∈ s.final_party host ++ s.local_party guest, Party.Console lb m = host := by
        obtain ⟨a, rest, hcons⟩ := List.exists_cons_of_ne_nil he
        refine ⟨a, ?_, ?_⟩
        · rw [hcons]; simp
        · apply hH
          rw [← h0, hcons]
          exact List.mem_cons_self _ _
      rw [if_pos hex, hrem]
  refine ⟨?_, hhost, ?_, ?_⟩
  · unfold FinalPartyManager.leave
    simp only [Function.update_same, hl]
  · rw [hhost, h0]
    intro m hm
    rw [hH m hm]
    exact hne
  · unfold FinalPartyManager.leave
    exact hl

/-- C16, amended, on two consoles with one player each: player 1 joins the party of
player 0 and leaves it again. -/
theorem FinalPartyManager_join_leave_witness :
    ∃ s1 : Parties,
      FinalPartyManager.join {} (G_BuildLocalSplitscreenParty {}
          (G_BuildLocalSplitscreenParty {} {} 0) 1) 0 1 = some (true, s1) ∧
      (FinalPartyManager.leave {} s1 1).final_party 1 = [1] ∧
      (FinalPartyManager.leave {} s1 1).final_party 0 = [0] := by
  have e : (FinalPartyManager.join {} (G_BuildLocalSplitscreenParty {}
      (G_BuildLocalSplitscreenParty {} {} 0) 1) 0 1).map (fun r => r.1) = some true := by
    decide
  rcases h : FinalPartyManager.join {} (G_BuildLocalSplitscreenParty {}
      (G_BuildLocalSplitscreenParty {} {} 0) 1) 0 1 with _ | ⟨b, s1⟩
  · rw [h] at e; exact absurd e (by simp)
  · rw [h] at e
    simp only [Option.map_some', Option.some.injEq] at e
    subst e
    have t := FinalPartyManager_join_leave {} _ s1 0 1 (by decide) (by decide) (by decide)
      (by decide) h
    refine ⟨s1, rfl, ?_, ?_⟩
    · rw [t.1]; decide
    · rw [t.2.1]; decide

/-- C16 fails as stated, in two ways.  First: player 1 plays on console 0 and is the
only member of the local party of that console, which is also its final party;
`join(0, 0)` returns true (the party does not contain player 0), and after `leave(0)`
the final party of the host is `[1]` again: it contains player 1, whose console is
the guest.  Second: the local party of console 0 holds player 5, whose console has
meanwhile become 1; `join(0, 1)` returns true, and after `leave(1)` the final party of
console 0 still holds player 5, whose console is the guest. -/
theorem join_leave_counterexample :
    ((G_BuildLocalSplitscreenParty { playerconsole := fun _ => 0 } {} 1).final_party 0
      = (G_BuildLocalSplitscreenParty { playerconsole := fun _ => 0 } {} 1).local_party 0 ∧
    (FinalPartyManager.join { playerconsole := fun _ => 0 }
        (G_BuildLocalSplitscreenParty { playerconsole := fun _ => 0 } {} 1) 0 0).map
      (fun r => (r.1,
        (FinalPartyManager.leave { playerconsole := fun _ => 0 } r.2 0).final_party 0))
      = some (true, [1])) ∧
    (FinalPartyManager.join { playerconsole := fun p => if p = 5 then 1 else p }
        { local_party := fun c => if c = 0 then [5] else if c = 1 then [1] else [],
          final_party := fun c => if c = 0 then [5] else if c = 1 then [1] else [] } 0 1).map
      (fun r => (r.1,
        (FinalPartyManager.leave { playerconsole := fun p => if p = 5 then 1 else p } r.2
          1).final_party 0,
        (FinalPartyManager.leave { playerconsole := fun p => if p = 5 then 1 else p } r.2
          1).final_party 1))
      = some (true, [5], [1]) := by
  refine ⟨⟨?_, ?_⟩, ?_⟩
  · decide
  · decide
  · decide

/-! ## Two solid actors -/

/-- C11 (amended): for every pair of distinct solid actors (`MF_SOLID`, no `MF_NOCLIP`,
neither a player, not both in hitlag, the pair subject to no rule for a particular
kind of actor and not a pair of enemies or bosses) whose boxes overlap at the
candidate position and whose vertical extents overlap, `PIT_CheckThing` returns
`BMIT_CONTINUE`, never `BMIT_ABORT`: for an unflipped mover it raises `tm.floorz` to the
other actor's top plus its scale, when that is higher, and records that actor as
`tm.floorthing`; for a flipped mover it lowers `tm.ceilingz` to the other actor's
bottom minus its scale, when that is lower, and records the actor likewise. -/
theorem PIT_CheckThing_solid_pair (w : World) (mo : Nat → mobj_t) (tm : tm_t) (mover : mobj_t)
    (id thing : Nat)
    (hid : tm.thing = some id) (hne : thing ≠ id)
    (hlive : mover.removed = false ∧ (mo thing).removed = false)
    (hplayer : mover.player = none ∧ (mo thing).player = none)
    (hlag : ¬ ((mo thing).hitlag > 0 ∧ mover.hitlag > 0))
    (hsolid : (mo thing).flags &&& (MF_SOLID ||| MF_NOCLIP) = MF_SOLID
      ∧ mover.flags &&& (MF_SOLID ||| MF_NOCLIP) = MF_SOLID)
    (hclip : hasFlag (mo thing).flags MF_NOCLIPTHING = false)
    (hkind : w.PIT_CheckThing_kinds mover (mo thing) tm = none)
    (henemy : ¬ (hasFlag (mo thing).flags (MF_ENEMY ||| MF_BOSS) = true
      ∧ hasFlag mover.flags (MF_ENEMY ||| MF_BOSS) = true))
    (hbox : cabs ((mo thing).x - tm.x) < (mo thing).radius + mover.radius
      ∧ cabs ((mo thing).y - tm.y) < (mo thing).radius + mover.radius)
    (hz : mover.z ≤ (mo thing).z + (mo thing).height
      ∧ (mo thing).z ≤ mover.z + mover.height) :
    (PIT_CheckThing w mo tm mover thing).1 = .BMIT_CONTINUE ∧
    (PIT_CheckThing w mo tm mover thing).2
      = if hasFlag mover.eflags MFE_VERTICALFLIP then
          if (mo thing).z - (mo thing).scale < tm.ceilingz then
            { tm with ceilingz := (mo thing).z - (mo thing).scale, ceilingrover := none,
                      ceilingslope := none, ceilingpic := -1, floorthing := some thing }
          else tm
        else
          if (mo thing).z + (mo thing).height + (mo thing).scale > tm.floorz then
            { tm with floorz := (mo thing).z + (mo thing).height + (mo thing).scale,
                      floorrover := none, floorslope := none, floorpic := -1,
                      floorthing := some thing }
          else tm := by
  obtain ⟨hl1, hl2⟩ := hlive
  obtain ⟨hp1, hp2⟩ := hplayer
  obtain ⟨hs1, hs2⟩ := hsolid
  obtain ⟨hb1, hb2⟩ := hbox
  obtain ⟨hz1, hz2⟩ := hz
  have hsol : hasFlag (mo thing).flags
      (MF_SOLID ||| MF_SPECIAL ||| MF_PAIN ||| MF_SHOOTABLE ||| MF_SPRING) = true := by
    have h1 : (mo thing).flags &&& MF_SOLID = MF_SOLID := by
      have := congrArg (fun v => v &&& MF_SOLID) hs1
      simp only [Nat.and_assoc] at this
      have e : (MF_SOLID ||| MF_NOCLIP) &&& MF_SOLID = MF_SOLID := by decide
      rw [e] at this
      rw [this]; decide
    have h2 : (mo thing).flags
        &&& (MF_SOLID ||| MF_SPECIAL ||| MF_PAIN ||| MF_SHOOTABLE ||| MF_SPRING) ≠ 0 := by
      intro h0
      have := congrArg (fun v => v &&& MF_SOLID) h0
      simp only [Nat.and_assoc, Nat.zero_and] at this
      have e : (MF_SOLID ||| MF_SPECIAL ||| MF_PAIN ||| MF_SHOOTABLE ||| MF_SPRING) &&& MF_SOLID
          = MF_SOLID := by decide
      rw [e, h1] at this
      exact absurd this (by decide)
    simp only [hasFlag, bne_iff_ne, ne_eq]
    exact h2
  have hself : ¬ (some thing = tm.thing) := by
    rw [hid]; intro h; exact hne (Option.some.inj h)
  have hdist : ¬ (cabs ((mo thing).x - tm.x) ≥ (mo thing).radius + mover.radius
      ∨ cabs ((mo thing).y - tm.y) ≥ (mo thing).radius + mover.radius) := by
    intro h; rcases h with h | h <;> omega
  have hfirst : ¬ (tm.thing = none ∨ mover.removed = true) := by
    rw [hid, hl1]; simp
  have hen : ¬ (hasFlag (mo thing).flags (MF_ENEMY ||| MF_BOSS) = true
      ∧ hasFlag mover.flags (MF_ENEMY ||| MF_BOSS) = true
      ∧ (mo thing).z + (mo thing).height ≥ mover.z
      ∧ mover.z + mover.height ≥ (mo thing).z) := fun h => henemy ⟨h.1, h.2.1⟩
  have htail : PIT_CheckThing w mo tm mover thing
      = PIT_CheckThing_solid tm mover thing (mo thing) := by
    unfold PIT_CheckThing
    simp only
    rw [if_neg hfirst, hl2]
    simp only [Bool.false_eq_true, if_false]
    rw [if_neg hself, hp1, hp2]
    simp only [Bool.or_self, Bool.false_eq_true, if_false]
    rw [if_neg hlag, hclip, hsol]
    simp only [Bool.not_true, Bool.or_self, Bool.false_eq_true, if_false]
    rw [if_neg hdist, hkind]
    simp only
    unfold PIT_CheckThing_tail
    rw [if_neg hen, hp1, hp2]
    simp only [Option.isSome_none, Bool.false_eq_true, if_false, Bool.and_false]
    rw [if_pos ⟨hs1, hs2⟩]
  rw [htail]
  unfold PIT_CheckThing_solid
  rw [hp1]
  simp only [Option.isSome_none, Bool.false_eq_true, false_and, if_false]
  by_cases hf : hasFlag mover.eflags MFE_VERTICALFLIP = true
  · rw [if_pos hf, if_pos hf, if_neg (by omega)]
    by_cases c : (mo thing).z - (mo thing).scale < tm.ceilingz
    · rw [if_pos ⟨c, hz1⟩, if_pos c]
      exact ⟨rfl, rfl⟩
    · rw [if_neg (fun h => c h.1), if_neg c]
      exact ⟨rfl, rfl⟩
  · rw [if_neg hf, if_neg hf, if_neg (by omega)]
    by_cases c : (mo thing).z + (mo thing).height + (mo thing).scale > tm.floorz
    · rw [if_pos ⟨c, by omega⟩, if_pos c]
      exact ⟨rfl, rfl⟩
    · rw [if_neg (fun h => c h.1), if_neg c]
      exact ⟨rfl, rfl⟩

/-- C11, amended, on the solid walker probed at `x = 8` next to the pillar at `x = 24`:
the answer is `BMIT_CONTINUE` and the floor of the probe is the top of the pillar plus
one unit, 33. -/
theorem PIT_CheckThing_solid_pair_witness :
    (PIT_CheckThing pillarRoom pillarActors
        { thing := some 0, x := 8 * FRACUNIT, ceilingz := 128 * FRACUNIT } (pillarActors 0) 1).1
      = .BMIT_CONTINUE ∧
    (PIT_CheckThing pillarRoom pillarActors
        { thing := some 0, x := 8 * FRACUNIT, ceilingz := 128 * FRACUNIT } (pillarActors 0)
        1).2.floorz = 33 * FRACUNIT := by
  have t := PIT_CheckThing_solid_pair pillarRoom pillarActors
    { thing := some 0, x := 8 * FRACUNIT, ceilingz := 128 * FRACUNIT } (pillarActors 0) 0 1
    rfl (by decide) (by decide) (by decide) (by decide) (by decide) (by decide) rfl
    (by decide) (by decide) (by decide)
  refine ⟨t.1, ?_⟩
  rw [t.2]
  decide

/-- C11 fails as stated: the solid walker and the pillar are two solid actors of no
particular kind, neither a player; at the candidate position `x = 8` their boxes
overlap (the centres are 16 apart, the radii add up to 32) and both reach from 0 to
32.  `PIT_CheckThing` answers `BMIT_CONTINUE`, `P_CheckPosition` returns true, and
`P_TryMove` accepts the move: the walker ends at `x = 8` with `z = 33`, on top of the
pillar, which the result record names. -/
theorem solid_pair_counterexample :
    (PIT_CheckThing pillarRoom pillarActors
        { thing := some 0, x := 8 * FRACUNIT, ceilingz := 128 * FRACUNIT } (pillarActors 0) 1).1
      = .BMIT_CONTINUE ∧
    (P_CheckPosition pillarRoom pillarScene 0 (8 * FRACUNIT) 0 none).1 = true ∧
    (P_TryMove pillarRoom 1 pillarScene 0 (8 * FRACUNIT) 0 true (some {})).map
        (fun r => (r.1, r.2.1, (r.2.2.mo 0).x, (r.2.2.mo 0).z))
      = some (true, some { success := true, line := none, mo := some 1 }, 8 * FRACUNIT,
          33 * FRACUNIT) := by
  refine ⟨?_, ?_, ?_⟩
  · decide
  · decide
  · decide

/-! ## Lines that block by category -/

/-- The test `flags & (MF_ENEMY | MF_BOSS)`. -/
theorem enemyboss_eq (f : Nat) :
    hasFlag f (MF_ENEMY ||| MF_BOSS) = (hasFlag f MF_ENEMY || hasFlag f MF_BOSS) := by
  unfold hasFlag MF_ENEMY MF_BOSS
  rw [Nat.and_or_distrib_left, and_two_pow_eq, and_two_pow_eq]
  cases f.testBit 21 <;> cases f.testBit 7 <;> decide

/-- C27: `P_IsLineBlocking(ld, thing)` is true exactly when the actor is neither a
missile nor a spectating player and either the line has `ML_IMPASSABLE`, or the actor
is a player and the line has `ML_BLOCKPLAYERS`, or the actor is a non-player with
`MF_ENEMY` or `MF_BOSS` and the line has `ML_BLOCKMONSTERS`; for every other actor and
line it is false. -/
theorem P_IsLineBlocking_iff (ld : line_t) (thing : mobj_t) :
    P_IsLineBlocking ld thing = true ↔
      hasFlag thing.flags MF_MISSILE = false ∧
      ¬ (∃ p, thing.player = some p ∧ p.spectator = true) ∧
      (hasFlag ld.flags ML_IMPASSABLE = true ∨
       (thing.player ≠ none ∧ hasFlag ld.flags ML_BLOCKPLAYERS = true) ∨
       (thing.player = none ∧
         (hasFlag thing.flags MF_ENEMY = true ∨ hasFlag thing.flags MF_BOSS = true) ∧
         hasFlag ld.flags ML_BLOCKMONSTERS = true)) := by
  unfold P_IsLineBlocking
  rw [enemyboss_eq]
  cases hm : hasFlag thing.flags MF_MISSILE
  · cases hp : thing.player with
    | none =>
      cases hi : hasFlag ld.flags ML_IMPASSABLE <;>
      cases he : hasFlag thing.flags MF_ENEMY <;>
      cases hb : hasFlag thing.flags MF_BOSS <;>
      cases hk : hasFlag ld.flags ML_BLOCKMONSTERS <;> simp
    | some p =>
      cases hs : p.spectator <;>
      cases hi : hasFlag ld.flags ML_IMPASSABLE <;>
      cases hk : hasFlag ld.flags ML_BLOCKPLAYERS <;> simp [hs]
  · simp

/-! ## The midpoint rule of the slab scan -/

/-- A saved copy whose three references are null or live is restored as it is. -/
theorem P_RestoreTMStruct_live (st : State) (s : tm_t)
    (h1 : ∀ i, s.thing = some i → (st.mo i).removed = false)
    (h2 : ∀ i, s.floorthing = some i → (st.mo i).removed = false)
    (h3 : ∀ i, s.hitthing = some i → (st.mo i).removed = false) :
    (P_RestoreTMStruct st s).tm = s := by
  unfold P_RestoreTMStruct
  cases s with
  | mk thing flags x y bbox floatok floorz ceilingz dropoffz drpoffceilz floorstep ceilingstep
      floorrover ceilingrover floorslope ceilingslope floorpic ceilingpic floorthing hitthing
      blockingline ceilingline =>
    simp only at h1 h2 h3 ⊢
    cases thing <;> cases floorthing <;> cases hitthing <;> simp_all

/-- C28: for every saved copy `s` of `tm`, after `P_RestoreTMStruct(s)` every field of
`tm` equals the corresponding field of `s`, except that each of `thing`, `floorthing`
and `hitthing` that refers to a removed actor is null; consequently
`P_CreateSecNodeList` leaves `tm` unchanged whenever those three references are null
or live. -/
theorem P_RestoreTMStruct_spec (w : World) (st : State) (s : tm_t)
    (sector_list : List msecnode_t) (thing : Nat) (x y : Int) :
    ({ (P_RestoreTMStruct st s).tm with
        thing := s.thing, floorthing := s.floorthing, hitthing := s.hitthing } = s ∧
     (P_RestoreTMStruct st s).tm.thing
       = (match s.thing with
          | some i => if (st.mo i).removed then none else some i
          | none => none) ∧
     (P_RestoreTMStruct st s).tm.floorthing
       = (match s.floorthing with
          | some i => if (st.mo i).removed then none else some i
          | none => none) ∧
     (P_RestoreTMStruct st s).tm.hitthing
       = (match s.hitthing with
          | some i => if (st.mo i).removed then none else some i
          | none => none)) ∧
    ((∀ i, st.tm.thing = some i → (st.mo i).removed = false) →
     (∀ i, st.tm.floorthing = some i → (st.mo i).removed = false) →
     (∀ i, st.tm.hitthing = some i → (st.mo i).removed = false) →
     (P_CreateSecNodeList w st sector_list thing x y).2.tm = st.tm) := by
  refine ⟨⟨rfl, rfl, rfl, rfl⟩, ?_⟩
  intro h1 h2 h3
  exact P_RestoreTMStruct_live _ _ h1 h2 h3

/-- C28 on the walker whose box lies across the line between the two rooms, with
`tm` naming the live actor 0: the list is rebuilt and `tm` comes out as it was. -/
theorem P_RestoreTMStruct_spec_witness :
    (∀ i, ({ sceneOf walker with tm := { thing := some 0, x := 7 } } : State).tm.thing = some i →
      (({ sceneOf walker with tm := { thing := some 0, x := 7 } } : State).mo i).removed = false) ∧
    (P_CreateSecNodeList doorway { sceneOf walker with tm := { thing := some 0, x := 7 } } [] 0
        (8 * FRACUNIT) 0).2.tm = { thing := some 0, x := 7 } :=
  ⟨fun _ _ => rfl,
    (P_RestoreTMStruct_spec doorway { sceneOf walker with tm := { thing := some 0, x := 7 } }
      {} [] 0 (8 * FRACUNIT) 0).2 (fun _ _ => rfl) (fun _ _ => rfl) (fun _ _ => rfl)⟩

/-! ## Planes do not pass each other -/

/-- The floor block of `T_MovePlane` run for a height `h` that is not above the
ceiling leaves the floor at or below the ceiling. -/
theorem T_MovePlane_floor_below (w : World) (st : State) (sector : Nat) (crush : Bool)
    (h : Int) (na : Bool) (blocked moved : result_e)
    (h0 : (w.sectors sector).floorheight ≤ (w.sectors sector).ceilingheight)
    (hh : h ≤ (w.sectors sector).ceilingheight) :
    ((T_MovePlane_floor w st sector crush h na blocked moved).2.1.sectors sector).floorheight
      ≤ ((T_MovePlane_floor w st sector crush h na blocked moved).2.1.sectors
          sector).ceilingheight := by
  unfold T_MovePlane_floor
  simp only
  split
  · simp only [World.setFloorheight_floor, World.setFloorheight_ceiling]
    exact h0
  · simp only [World.setFloorheight_floor, World.setFloorheight_ceiling]
    exact hh

/-- The ceiling block of `T_MovePlane` run for a height `h` that is not below the
floor leaves the ceiling at or above the floor. -/
theorem T_MovePlane_ceiling_above (w : World) (st : State) (sector : Nat) (crush : Bool)
    (h : Int) (na : Bool) (blocked moved : result_e)
    (h0 : (w.sectors sector).floorheight ≤ (w.sectors sector).ceilingheight)
    (hh : (w.sectors sector).floorheight ≤ h) :
    ((T_MovePlane_ceiling w st sector crush h na blocked moved).2.1.sectors sector).floorheight
      ≤ ((T_MovePlane_ceiling w st sector crush h na blocked moved).2.1.sectors
          sector).ceilingheight := by
  unfold T_MovePlane_ceiling
  simp only
  split
  · simp only [World.setCeilingheight_floor, World.setCeilingheight_ceiling]
    exact h0
  · simp only [World.setCeilingheight_floor, World.setCeilingheight_ceiling]
    exact hh

/-- C30: for every sector with `floorheight <= ceilingheight` and every speed and dest,
`T_MovePlane` moving the floor up (`floorOrCeiling = 0`, `direction = 1`) or the
ceiling down (`floorOrCeiling = 1`, `direction = -1`) leaves
`floorheight <= ceilingheight`, whatever `P_CheckSector` returns. -/
theorem T_MovePlane_ordered (w : World) (st : State) (sector : Nat) (speed dest : Int)
    (crush : Bool)
    (h0 : (w.sectors sector).floorheight ≤ (w.sectors sector).ceilingheight) :
    ((T_MovePlane w st sector speed dest crush 0 1).2.1.sectors sector).floorheight
      ≤ ((T_MovePlane w st sector speed dest crush 0 1).2.1.sectors sector).ceilingheight ∧
    ((T_MovePlane w st sector speed dest crush 1 (-1)).2.1.sectors sector).floorheight
      ≤ ((T_MovePlane w st sector speed dest crush 1 (-1)).2.1.sectors sector).ceilingheight := by
  constructor
  · unfold T_MovePlane
    simp only [if_true, show ¬ ((1 : Int) = -1) by decide, if_false]
    have hd : (if dest < (w.sectors sector).ceilingheight then dest
        else (w.sectors sector).ceilingheight) ≤ (w.sectors sector).ceilingheight := by
      split <;> omega
    by_cases c : (w.sectors sector).floorheight + speed
        > (if dest < (w.sectors sector).ceilingheight then dest
           else (w.sectors sector).ceilingheight)
    · rw [if_pos c]
      exact T_MovePlane_floor_below _ _ _ _ _ _ _ _ h0 hd
    · rw [if_neg c]
      exact T_MovePlane_floor_below _ _ _ _ _ _ _ _ h0 (by omega)
  · unfold T_MovePlane
    simp only [show ¬ ((1 : Int) = 0) by decide, if_false, if_true]
    have hd : (w.sectors sector).floorheight
        ≤ (if dest > (w.sectors sector).floorheight then dest
           else (w.sectors sector).floorheight) := by
      split <;> omega
    by_cases c : (w.sectors sector).ceilingheight - speed
        < (if dest > (w.sectors sector).floorheight then dest
           else (w.sectors sector).floorheight)
    · rw [if_pos c]
      exact T_MovePlane_ceiling_above _ _ _ _ _ _ _ _ h0 hd
    · rw [if_neg c]
      exact T_MovePlane_ceiling_above _ _ _ _ _ _ _ _ h0 (by omega)

/-- C30 on the crusher room (floor 0, ceiling 16): a floor sent up by 64 toward 128
stops at the ceiling, and a ceiling sent down by 64 toward -128 stops at the floor. -/
theorem T_MovePlane_ordered_witness :
    (crusherRoom.sectors 0).floorheight ≤ (crusherRoom.sectors 0).ceilingheight ∧
    ((T_MovePlane crusherRoom (sceneOf walker) 0 (64 * FRACUNIT) (128 * FRACUNIT) false 0
        1).2.1.sectors 0).floorheight
      ≤ ((T_MovePlane crusherRoom (sceneOf walker) 0 (64 * FRACUNIT) (128 * FRACUNIT) false 0
          1).2.1.sectors 0).ceilingheight ∧
    ((T_MovePlane crusherRoom (sceneOf walker) 0 (64 * FRACUNIT) (-128 * FRACUNIT) false 1
        (-1)).2.1.sectors 0).floorheight
      ≤ ((T_MovePlane crusherRoom (sceneOf walker) 0 (64 * FRACUNIT) (-128 * FRACUNIT) false 1
          (-1)).2.1.sectors 0).ceilingheight :=
  ⟨by decide,
    (T_MovePlane_ordered crusherRoom (sceneOf walker) 0 (64 * FRACUNIT) (128 * FRACUNIT) false
      (by decide)).1,
    (T_MovePlane_ordered crusherRoom (sceneOf walker) 0 (64 * FRACUNIT) (-128 * FRACUNIT) false
      (by decide)).2⟩

/-! ## The drop-off test of a sub-step -/

/-- Claim C21, amended.  For a contacted line without a back sector (the box of the
candidate straddles it, a paper-thin mover crosses it, the mover is not removed and
the collision hook gives no verdict), `PIT_CheckLine` records the line as the
blocking line and decides by the side of the actor's current position
`(thing.x, thing.y)`: it rejects (`BMIT_ABORT`) exactly when the actor stands on the
front side, and goes on (`BMIT_CONTINUE`) exactly when the actor stands on the back
side.  The candidate position enters through the contact tests only. -/
theorem PIT_CheckLine_one_sided (w : World) (pr : probe_t) (ld : line_t)
    (hpoly : ∀ po, ld.polyobj = some po → hasFlag po.flags POF_SOLID = true)
    (hbox : ld.bbox.left < pr.tm.bbox.right ∧ pr.tm.bbox.left < ld.bbox.right
      ∧ ld.bbox.bottom < pr.tm.bbox.top ∧ pr.tm.bbox.bottom < ld.bbox.top)
    (hside : w.P_BoxOnLineSide pr.tm.bbox ld = -1)
    (hpaper : ¬ (hasFlag pr.thing.flags MF_PAPERCOLLISION = true
      ∧ w.P_PointOnLineSide
          (pr.tm.x - FixedMul pr.thing.radius
            (w.FINECOSINE (sar pr.thing.angle ANGLETOFINESHIFT)))
          (pr.tm.y - FixedMul pr.thing.radius
            (w.FINESINE (sar pr.thing.angle ANGLETOFINESHIFT))) ld
        = w.P_PointOnLineSide
          (pr.tm.x + FixedMul pr.thing.radius
            (w.FINECOSINE (sar pr.thing.angle ANGLETOFINESHIFT)))
          (pr.tm.y + FixedMul pr.thing.radius
            (w.FINESINE (sar pr.thing.angle ANGLETOFINESHIFT))) ld))
    (hrem : pr.thing.removed = false)
    (hhook : w.LUA_HookMobjLineCollide pr.thing ld = 0)
    (hone : ld.hasBacksector = false) :
    ((PIT_CheckLine w pr ld).1 = .BMIT_ABORT
      ↔ w.P_PointOnLineSide pr.thing.x pr.thing.y ld = 0) ∧
    ((PIT_CheckLine w pr ld).1 = .BMIT_CONTINUE
      ↔ w.P_PointOnLineSide pr.thing.x pr.thing.y ld ≠ 0) ∧
    (PIT_CheckLine w pr ld).2 = { pr with tm := { pr.tm with blockingline := some ld.idx } } := by
  have key : PIT_CheckLine w pr ld
      = (if w.P_PointOnLineSide pr.thing.x pr.thing.y ld ≠ 0 then
          (.BMIT_CONTINUE, { pr with tm := { pr.tm with blockingline := some ld.idx } })
         else (.BMIT_ABORT, { pr with tm := { pr.tm with blockingline := some ld.idx } })) := by
    have c2 : ¬ (pr.tm.bbox.right ≤ ld.bbox.left ∨ pr.tm.bbox.left ≥ ld.bbox.right
        ∨ pr.tm.bbox.top ≤ ld.bbox.bottom ∨ pr.tm.bbox.bottom ≥ ld.bbox.top) := by omega
    have c3 : ¬ (w.P_BoxOnLineSide pr.tm.bbox ld ≠ -1) := by simp [hside]
    have c5 : ¬ ((0 : Nat) = 1) := by decide
    have c6 : ¬ ((0 : Nat) = 2) := by decide
    unfold PIT_CheckLine
    simp only
    rcases hp : ld.polyobj with _ | po
    · simp only [Bool.false_eq_true, if_false]
      rw [if_neg c2, if_neg c3, if_neg hpaper]
      simp only [hrem, hhook, hone, Bool.false_eq_true, if_false, Bool.not_false, if_true]
      rw [if_neg c5, if_neg c6]
    · simp only [hpoly po hp, Bool.not_true, Bool.false_eq_true, if_false]
      rw [if_neg c2, if_neg c3, if_neg hpaper]
      simp only [hrem, hhook, hone, Bool.false_eq_true, if_false, Bool.not_false, if_true]
      rw [if_neg c5, if_neg c6]
  rw [key]
  by_cases c : w.P_PointOnLineSide pr.thing.x pr.thing.y ld ≠ 0
  · rw [if_pos c]
    refine ⟨⟨fun h => ?_, fun h => absurd h c⟩, ⟨fun _ => c, fun _ => rfl⟩, rfl⟩
    cases h
  · rw [if_neg c]
    refine ⟨⟨fun _ => not_not.mp c, fun _ => rfl⟩, ⟨fun h => ?_, fun h => absurd h c⟩, rfl⟩
    cases h

/-- C21, amended, on the wall along `x = 16`: the walker stands in front of the wall
at `x = 8`, the candidate at `x = 24` lies behind it, and the candidate is
rejected. -/
theorem PIT_CheckLine_one_sided_witness :
    (twoRooms 0 0).P_PointOnLineSide (wallProbe (8 * FRACUNIT) (24 * FRACUNIT)).thing.x
        (wallProbe (8 * FRACUNIT) (24 * FRACUNIT)).thing.y outerWall = 0 ∧
    (PIT_CheckLine (twoRooms 0 0) (wallProbe (8 * FRACUNIT) (24 * FRACUNIT)) outerWall).1
      = .BMIT_ABORT :=
  ⟨by decide,
   (PIT_CheckLine_one_sided (twoRooms 0 0) (wallProbe (8 * FRACUNIT) (24 * FRACUNIT)) outerWall
     (by decide) (by decide) (by decide) (by decide) (by decide) (by decide) (by decide)).1.2
     (by decide)⟩

/-- C21 fails as stated.  The wall along `x = 16` is contacted by the box of the
candidate at `x = 24`, which lies on the back side of the wall.  With the actor at
`x = 20`, behind the wall as well, `PIT_CheckLine` answers `BMIT_CONTINUE` and the
candidate is not rejected; with the actor at `x = 8`, in front of the wall, the same
candidate is rejected.  A candidate at `x = 8` on the front side, for the actor at
the origin, is rejected too. -/
theorem candidate_side_counterexample :
    outerWall.hasBacksector = false ∧
    (twoRooms 0 0).LUA_HookMobjLineCollide (wallProbe (20 * FRACUNIT) (24 * FRACUNIT)).thing
      outerWall = 0 ∧
    (twoRooms 0 0).P_BoxOnLineSide (wallProbe (20 * FRACUNIT) (24 * FRACUNIT)).tm.bbox
      outerWall = -1 ∧
    (twoRooms 0 0).P_PointOnLineSide (wallProbe (20 * FRACUNIT) (24 * FRACUNIT)).tm.x
      (wallProbe (20 * FRACUNIT) (24 * FRACUNIT)).tm.y outerWall = 1 ∧
    (PIT_CheckLine (twoRooms 0 0) (wallProbe (20 * FRACUNIT) (24 * FRACUNIT)) outerWall).1
      = .BMIT_CONTINUE ∧
    (wallProbe (8 * FRACUNIT) (24 * FRACUNIT)).tm = (wallProbe (20 * FRACUNIT) (24 * FRACUNIT)).tm ∧
    (PIT_CheckLine (twoRooms 0 0) (wallProbe (8 * FRACUNIT) (24 * FRACUNIT)) outerWall).1
      = .BMIT_ABORT ∧
    (twoRooms 0 0).P_PointOnLineSide (wallProbe 0 (8 * FRACUNIT)).tm.x
      (wallProbe 0 (8 * FRACUNIT)).tm.y outerWall = 0 ∧
    (PIT_CheckLine (twoRooms 0 0) (wallProbe 0 (8 * FRACUNIT)) outerWall).1 = .BMIT_ABORT := by
  refine ⟨rfl, rfl, ?_, ?_, ?_, rfl, ?_, ?_, ?_⟩ <;> decide

/-! ## Decay of a bounce by kind -/

theorem FixedDiv_two (a : Int) : FixedDiv a (2 * FRACUNIT) = Int.tdiv (a * 65536) 131072 := by
  unfold FixedDiv cdiv FRACBITS FRACUNIT
  norm_num

theorem P_BouncePlayerMove_decay_first (eflags : Nat) (m : Int)
    (h : hasFlag eflags MFE_JUSTBOUNCEDWALL = false) :
    P_BouncePlayerMove_decay eflags m = m * 40960 / 65536 := by
  unfold P_BouncePlayerMove_decay
  rw [h]
  simp only [Bool.false_eq_true, if_false, FixedMul_eq]
  unfold FRACUNIT sar
  norm_num

theorem P_BounceMove_decay_thrownbounce (m : Int) :
    P_BounceMove_decay MT_THROWNBOUNCE m = m * 62464 / 65536 := by
  unfold P_BounceMove_decay
  have h1 : ¬ (MT_THROWNBOUNCE = MT_SHELL) := by decide
  rw [if_neg h1, if_pos rfl, FixedMul_eq]
  unfold FRACUNIT sar
  norm_num

theorem P_BounceMove_decay_throwngrenade (m : Int) :
    P_BounceMove_decay MT_THROWNGRENADE m = Int.tdiv (m * 65536) 131072 := by
  unfold P_BounceMove_decay
  have h1 : ¬ (MT_THROWNGRENADE = MT_SHELL) := by decide
  have h2 : ¬ (MT_THROWNGRENADE = MT_THROWNBOUNCE) := by decide
  rw [if_neg h1, if_neg h2, if_pos rfl, FixedDiv_two]

/-- Claim C25, amended.  On a first wall bounce (no `MFE_JUSTBOUNCEDWALL`)
`P_BouncePlayerMove` multiplies each component by 40960/65536 = 0.625.  What it
leaves of a component `m` is, in magnitude, at least what `P_BounceMove` leaves of
it for an `MT_THROWNGRENADE` (division by two) and at most what `P_BounceMove`
leaves of it for an `MT_THROWNBOUNCE` (factor 62464/65536): the player decays
less than the grenade and more than the thrown bounce. -/
theorem P_BounceMove_decay_order (eflags : Nat) (m : Int)
    (h : hasFlag eflags MFE_JUSTBOUNCEDWALL = false) :
    FRACUNIT - sar FRACUNIT 2 - sar FRACUNIT 3 = 40960 ∧
    FRACUNIT - sar FRACUNIT 6 - sar FRACUNIT 5 = 62464 ∧
    |P_BounceMove_decay MT_THROWNGRENADE m| ≤ |P_BouncePlayerMove_decay eflags m| ∧
    |P_BouncePlayerMove_decay eflags m| ≤ |P_BounceMove_decay MT_THROWNBOUNCE m| := by
  rw [P_BouncePlayerMove_decay_first eflags m h, P_BounceMove_decay_thrownbounce,
    P_BounceMove_decay_throwngrenade]
  refine ⟨by decide, by decide, ?_, ?_⟩
  · rcases le_or_lt 0 m with hm | hm
    · rw [Int.tdiv_eq_ediv (by omega) (by decide)]
      rw [abs_of_nonneg (by omega), abs_of_nonneg (by omega)]
      omega
    · have e : Int.tdiv (m * 65536) 131072 = -((-m) * 65536 / 131072) := by
        have e1 : m * 65536 = -((-m) * 65536) := by ring
        rw [e1, Int.neg_tdiv, Int.tdiv_eq_ediv (by omega) (by decide)]
      rw [e, abs_of_nonpos (by omega), abs_of_nonpos (by omega)]
      omega
  · rcases le_or_lt 0 m with hm | hm
    · rw [abs_of_nonneg (by omega), abs_of_nonneg (by omega)]
      omega
    · rw [abs_of_nonpos (by omega), abs_of_nonpos (by omega)]
      omega

/-- C25, amended, at a component of one unit: the grenade keeps 32768, the player
40960 and the thrown bounce 62464. -/
theorem P_BounceMove_decay_order_witness :
    |P_BounceMove_decay MT_THROWNGRENADE FRACUNIT| ≤ |P_BouncePlayerMove_decay 0 FRACUNIT| ∧
    |P_BouncePlayerMove_decay 0 FRACUNIT| ≤ |P_BounceMove_decay MT_THROWNBOUNCE FRACUNIT| :=
  (P_BounceMove_decay_order 0 FRACUNIT (by decide)).2.2

/-- C25 fails as stated: of a component of one unit a player on a first wall bounce
keeps 40960 and an `MT_THROWNBOUNCE` keeps 62464, so the player loses more speed
than this thrown projectile; an `MT_THROWNGRENADE` keeps 32768. -/
theorem decay_counterexample :
    hasFlag 0 MFE_JUSTBOUNCEDWALL = false ∧
    P_BouncePlayerMove_decay 0 FRACUNIT = 40960 ∧
    P_BounceMove_decay MT_THROWNBOUNCE FRACUNIT = 62464 ∧
    P_BounceMove_decay MT_THROWNGRENADE FRACUNIT = 32768 ∧
    P_BouncePlayerMove_decay 0 FRACUNIT < P_BounceMove_decay MT_THROWNBOUNCE FRACUNIT := by
  decide

/-! ## Box separation against a blocking actor -/

/-- Claim C22, amended.  When the blocker recorded in the result is an actor that is
neither pushable nor paper-thin and overlaps the mover vertically (the mover not
removed), `P_SlideMove` takes the first that holds of four tests on the boxes at the
mover's current position, in this order: the mover's box ends at or before the
blocker's along y, it starts at or after the blocker's along y, likewise along x.
It zeroes the momentum on the axis of that test and tries the move, drop-offs
allowed, to the position flush with the blocker's box on that axis, the other
coordinate advanced by its momentum.  Where no test holds it zeroes both components
and tries no move. -/
theorem P_SlideMove_actor (w : World) (depth fuel : Nat) (st : State) (mo b : Nat)
    (res : TryMoveResult_t)
    (hrem : (st.mo mo).removed = false) (hb : res.mo = some b)
    (hover : (st.mo mo).z + (st.mo mo).height > (st.mo b).z
      ∧ (st.mo mo).z < (st.mo b).z + (st.mo b).height)
    (hpush : hasFlag (st.mo b).flags MF_PUSHABLE = false)
    (hpaper : hasFlag (st.mo b).flags MF_PAPERCOLLISION = false) :
    ((st.mo mo).y + (st.mo mo).radius ≤ (st.mo b).y - (st.mo b).radius →
      P_SlideMove w depth fuel st mo (some res)
        = (P_TryMove w depth (st.setMo mo { (st.mo mo) with momy := 0 }) mo
            ((st.mo mo).x + (st.mo mo).momx)
            ((st.mo b).y - (st.mo b).radius - (st.mo mo).radius) true none).map
            (fun r => r.2.2)) ∧
    (¬ ((st.mo mo).y + (st.mo mo).radius ≤ (st.mo b).y - (st.mo b).radius) →
      (st.mo mo).y - (st.mo mo).radius ≥ (st.mo b).y + (st.mo b).radius →
      P_SlideMove w depth fuel st mo (some res)
        = (P_TryMove w depth (st.setMo mo { (st.mo mo) with momy := 0 }) mo
            ((st.mo mo).x + (st.mo mo).momx)
            ((st.mo b).y + (st.mo b).radius + (st.mo mo).radius) true none).map
            (fun r => r.2.2)) ∧
    (¬ ((st.mo mo).y + (st.mo mo).radius ≤ (st.mo b).y - (st.mo b).radius) →
      ¬ ((st.mo mo).y - (st.mo mo).radius ≥ (st.mo b).y + (st.mo b).radius) →
      (st.mo mo).x + (st.mo mo).radius ≤ (st.mo b).x - (st.mo b).radius →
      P_SlideMove w depth fuel st mo (some res)
        = (P_TryMove w depth (st.setMo mo { (st.mo mo) with momx := 0 }) mo
            ((st.mo b).x - (st.mo b).radius - (st.mo mo).radius)
            ((st.mo mo).y + (st.mo mo).momy) true none).map (fun r => r.2.2)) ∧
    (¬ ((st.mo mo).y + (st.mo mo).radius ≤ (st.mo b).y - (st.mo b).radius) →
      ¬ ((st.mo mo).y - (st.mo mo).radius ≥ (st.mo b).y + (st.mo b).radius) →
      ¬ ((st.mo mo).x + (st.mo mo).radius ≤ (st.mo b).x - (st.mo b).radius) →
      (st.mo mo).x - (st.mo mo).radius ≥ (st.mo b).x + (st.mo b).radius →
      P_SlideMove w depth fuel st mo (some res)
        = (P_TryMove w depth (st.setMo mo { (st.mo mo) with momx := 0 }) mo
            ((st.mo b).x + (st.mo b).radius + (st.mo mo).radius)
            ((st.mo mo).y + (st.mo mo).momy) true none).map (fun r => r.2.2)) ∧
    (¬ ((st.mo mo).y + (st.mo mo).radius ≤ (st.mo b).y - (st.mo b).radius) →
      ¬ ((st.mo mo).y - (st.mo mo).radius ≥ (st.mo b).y + (st.mo b).radius) →
      ¬ ((st.mo mo).x + (st.mo mo).radius ≤ (st.mo b).x - (st.mo b).radius) →
      ¬ ((st.mo mo).x - (st.mo mo).radius ≥ (st.mo b).x + (st.mo b).radius) →
      P_SlideMove w depth fuel st mo (some res)
        = some (st.setMo mo { (st.mo mo) with momx := 0, momy := 0 })) := by
  have key : P_SlideMove w depth fuel st mo (some res) = P_SlideMove_box w depth st mo b := by
    unfold P_SlideMove
    simp only [hrem, hb, hover, hpush, hpaper, Bool.false_eq_true, if_false, and_self, if_true]
  rw [key]
  unfold P_SlideMove_box
  simp only
  refine ⟨fun c1 => ?_, fun c1 c2 => ?_, fun c1 c2 c3 => ?_, fun c1 c2 c3 c4 => ?_,
    fun c1 c2 c3 c4 => ?_⟩
  · rw [if_pos c1]
  · rw [if_neg c1, if_pos c2]
  · rw [if_neg c1, if_neg c2, if_pos c3]
  · rw [if_neg c1, if_neg c2, if_neg c3, if_pos c4]
  · rw [if_neg c1, if_neg c2, if_neg c3, if_neg c4]

/-- C22, amended, for a post at (45, 33) diagonally ahead of the walker: the boxes
are apart along y, so the momentum along y is zeroed and the walker is moved to
(20, 1), flush under the box of the post, keeping its momentum along x. -/
theorem P_SlideMove_actor_witness :
    P_SlideMove (bounceRoom 0) 1 1 (postScene (45 * FRACUNIT) (33 * FRACUNIT)) 0
        (some { mo := some 1 })
      = (P_TryMove (bounceRoom 0) 1
          ((postScene (45 * FRACUNIT) (33 * FRACUNIT)).setMo 0
            { ((postScene (45 * FRACUNIT) (33 * FRACUNIT)).mo 0) with momy := 0 }) 0
          (20 * FRACUNIT) (1 * FRACUNIT) true none).map (fun r => r.2.2) :=
  (P_SlideMove_actor (bounceRoom 0) 1 1 (postScene (45 * FRACUNIT) (33 * FRACUNIT)) 0 1
    { mo := some 1 } (by decide) rfl (by decide) (by decide) (by decide)).1 (by decide)

/-- C22 fails as stated.  First scene: the walker at the origin moves by (20, 20)
and is blocked by the post at (45, 33).  The overlap of the boxes is smaller along x
than along y, at the candidate position (7 against 19) as at the current one (-13
against -1), yet `P_SlideMove` separates along y: it zeroes the momentum along y,
keeps the one along x and moves the walker to (20, 1).  Second scene: the post at
(20, 20) overlaps the box of the walker on both axes; both components of the
momentum are zeroed and the walker is not moved. -/
theorem box_axis_counterexample :
    spec_boxOverlap (20 * FRACUNIT) (16 * FRACUNIT) (45 * FRACUNIT) (16 * FRACUNIT)
      < spec_boxOverlap (20 * FRACUNIT) (16 * FRACUNIT) (33 * FRACUNIT) (16 * FRACUNIT) ∧
    spec_boxOverlap 0 (16 * FRACUNIT) (45 * FRACUNIT) (16 * FRACUNIT)
      < spec_boxOverlap 0 (16 * FRACUNIT) (33 * FRACUNIT) (16 * FRACUNIT) ∧
    (P_SlideMove (bounceRoom 0) 1 1 (postScene (45 * FRACUNIT) (33 * FRACUNIT)) 0
        (some { mo := some 1 })).map
      (fun s => ((s.mo 0).x, (s.mo 0).y, (s.mo 0).momx, (s.mo 0).momy))
      = some (20 * FRACUNIT, 1 * FRACUNIT, 20 * FRACUNIT, 0) ∧
    (P_SlideMove (bounceRoom 0) 1 1 (postScene (20 * FRACUNIT) (20 * FRACUNIT)) 0
        (some { mo := some 1 })).map
      (fun s => ((s.mo 0).x, (s.mo 0).y, (s.mo 0).momx, (s.mo 0).momy))
      = some (0, 0, 0, 0) := by
  refine ⟨by decide, by decide, ?_, ?_⟩
  · decide
  · decide

/-! ## Walls that are not bouncy -/

/-- Claim C24, amended.  Against a blocking line that is flagged `ML_NOTBOUNCY` and is
no trip-wire, `P_BounceMove` resolves the move exactly as `P_SlideMove(mo, result)`
for every player, and for every other actor that is removed or has just bounced off
a wall (`MFE_JUSTBOUNCEDWALL`).  For any other actor that is no player the flag is
not read: the momentum decays by kind, is reflected by `P_HitBounceLine` and tried. -/
theorem P_BounceMove_notbouncy (w : World) (depth fuel : Nat) (st : State) (mo l : Nat)
    (res : TryMoveResult_t) (hline : res.line = some l)
    (hflag : hasFlag (w.lines l).flags ML_NOTBOUNCY = true)
    (htrip : P_IsLineTripWire (w.lines l) = false) :
    ((st.mo mo).player ≠ none →
      P_BounceMove w depth fuel st mo (some res) = P_SlideMove w depth fuel st mo (some res)) ∧
    ((st.mo mo).player = none →
      ((st.mo mo).removed = true ∨ hasFlag (st.mo mo).eflags MFE_JUSTBOUNCEDWALL = true) →
      P_BounceMove w depth fuel st mo (some res) = P_SlideMove w depth fuel st mo (some res)) ∧
    ((st.mo mo).player = none → (st.mo mo).removed = false →
      hasFlag (st.mo mo).eflags MFE_JUSTBOUNCEDWALL = false →
      P_BounceMove w depth fuel st mo (some res)
        = match P_TryMove w depth
            (st.setMo mo
              { (st.mo mo) with
                momx := (P_HitBounceLine w (w.lines l)
                  (P_BounceMove_decay (st.mo mo).type (st.mo mo).momx)
                  (P_BounceMove_decay (st.mo mo).type (st.mo mo).momy)).1,
                momy := (P_HitBounceLine w (w.lines l)
                  (P_BounceMove_decay (st.mo mo).type (st.mo mo).momx)
                  (P_BounceMove_decay (st.mo mo).type (st.mo mo).momy)).2 }) mo
            ((st.mo mo).x + (P_HitBounceLine w (w.lines l)
              (P_BounceMove_decay (st.mo mo).type (st.mo mo).momx)
              (P_BounceMove_decay (st.mo mo).type (st.mo mo).momy)).1)
            ((st.mo mo).y + (P_HitBounceLine w (w.lines l)
              (P_BounceMove_decay (st.mo mo).type (st.mo mo).momx)
              (P_BounceMove_decay (st.mo mo).type (st.mo mo).momy)).2) true none with
          | none => none
          | some (true, _, st1) => some st1
          | some (false, _, st1) =>
            if (st1.mo mo).removed then some st1
            else
              some (st1.setMo mo
                { (st1.mo mo) with
                  momx := FixedMul (wrap32 (-(st1.mo mo).momx))
                    (FRACUNIT - sar FRACUNIT 2 - sar FRACUNIT 3),
                  momy := FixedMul (wrap32 (-(st1.mo mo).momy))
                    (FRACUNIT - sar FRACUNIT 2 - sar FRACUNIT 3) })) := by
  refine ⟨fun hp => ?_, fun hp h => ?_, fun hp hr hj => ?_⟩
  · by_cases hr : (st.mo mo).removed = true
    · unfold P_BounceMove P_SlideMove
      simp only [hr, if_true]
    · have hr' : (st.mo mo).removed = false := by simpa using hr
      rcases hpl : (st.mo mo).player with _ | p
      · exact absurd hpl hp
      · unfold P_BounceMove P_BouncePlayerMove
        simp only [hr', hpl, Option.isSome_some, Bool.false_eq_true, if_false, if_true]
        by_cases hs : p.spectator = true
        · simp only [hs, if_true]
        · simp only [hs, if_false, hline, htrip, hflag, Bool.false_eq_true, if_true]
  · unfold P_BounceMove
    rcases h with h | h
    · unfold P_SlideMove
      simp only [h, if_true]
    · by_cases hr : (st.mo mo).removed = true
      · unfold P_SlideMove
        simp only [hr, if_true]
      · have hr' : (st.mo mo).removed = false := by simpa using hr
        simp only [hr', hp, h, Option.isSome_none, Bool.false_eq_true, if_false, if_true]
  · unfold P_BounceMove P_BounceMove_reflect
    simp only [hr, hp, hj, hline, Option.isSome_none, Bool.false_eq_true, if_false]

/-- C24, amended, for the racer against a wall along the y axis that is flagged
`ML_NOTBOUNCY`: the bounce is the slide, which takes the momentum along x away and
moves the racer by (0, 3). -/
theorem P_BounceMove_notbouncy_witness :
    P_BounceMove (bounceRoom ML_NOTBOUNCY) 1 2 (sceneOf racer) 0 (some { line := some 0 })
      = P_SlideMove (bounceRoom ML_NOTBOUNCY) 1 2 (sceneOf racer) 0 (some { line := some 0 }) ∧
    (P_SlideMove (bounceRoom ML_NOTBOUNCY) 1 2 (sceneOf racer) 0 (some { line := some 0 })).map
      (fun s => ((s.mo 0).x, (s.mo 0).y, (s.mo 0).momx, (s.mo 0).momy))
      = some (0, 3 * FRACUNIT, 0, 3 * FRACUNIT) :=
  ⟨(P_BounceMove_notbouncy (bounceRoom ML_NOTBOUNCY) 1 2 (sceneOf racer) 0 0
      { line := some 0 } rfl (by decide) (by decide)).1 (by decide),
   by decide⟩

/-- C24 fails as stated: the slider, which is no player, moves by (10, 3) against a
wall along the y axis that is flagged `ML_NOTBOUNCY` and is no trip-wire.
`P_SlideMove` takes the momentum along x away and moves it by (0, 3);
`P_BounceMove` reflects the decayed momentum, (-6.25, 1.875), and moves the slider
by it. -/
theorem notbouncy_counterexample :
    slider.player = none ∧
    hasFlag ((bounceRoom ML_NOTBOUNCY).lines 0).flags ML_NOTBOUNCY = true ∧
    P_IsLineTripWire ((bounceRoom ML_NOTBOUNCY).lines 0) = false ∧
    (P_SlideMove (bounceRoom ML_NOTBOUNCY) 1 2 (sceneOf slider) 0 (some { line := some 0 })).map
      (fun s => ((s.mo 0).x, (s.mo 0).y, (s.mo 0).momx, (s.mo 0).momy))
      = some (0, 3 * FRACUNIT, 0, 3 * FRACUNIT) ∧
    (P_BounceMove (bounceRoom ML_NOTBOUNCY) 1 2 (sceneOf slider) 0 (some { line := some 0 })).map
      (fun s => ((s.mo 0).x, (s.mo 0).y, (s.mo 0).momx, (s.mo 0).momy))
      = some (-409600, 122880, -409600, 122880) := by
  refine ⟨rfl, by decide, rfl, ?_, ?_⟩
  · decide
  · decide

/-! ## Symmetry of the reflect dispatch -/

/-- The bubble-shield reflect is symmetric for the kinds whose test reads the other
actor in both branches: for an item of kind orbinaut, jawz, banana, ballhog, mine,
sink or garden top that is no player, and a blown-up shield or shield holder of
another kind, the handler is called with the shield first whichever of the two
moves, exactly when the two overlap vertically. -/
theorem PIT_CheckThing_reflect_symm (mo : Nat → mobj_t) (shield item : Nat)
    (hkind : (mo item).type = MT_ORBINAUT ∨ (mo item).type = MT_JAWZ
      ∨ (mo item).type = MT_BANANA ∨ (mo item).type = MT_BALLHOG
      ∨ (mo item).type = MT_SSMINE ∨ (mo item).type = MT_SINK
      ∨ (mo item).type = MT_GARDENTOP)
    (hitem : (mo item).player = none)
    (hblown : PIT_CheckThing_bubbleblowup mo (mo shield) = true) :
    (PIT_CheckThing_reflect mo item shield = .bubble shield item
      ↔ PIT_CheckThing_reflect mo shield item = .bubble shield item) ∧
    (PIT_CheckThing_reflect mo item shield = .bubble shield item
      ↔ ¬ ((mo item).z > (mo shield).z + (mo shield).height)
        ∧ ¬ ((mo item).z + (mo item).height < (mo shield).z)) := by
  have hnb : PIT_CheckThing_bubbleblowup mo (mo item) = false := by
    unfold PIT_CheckThing_bubbleblowup
    rw [hitem]
    have : ((mo item).type == MT_BUBBLESHIELD) = false := by
      rcases hkind with h | h | h | h | h | h | h <;> rw [h] <;> decide
    rw [this]
    rfl
  have h1 : PIT_CheckThing_reflect mo item shield
      = if (mo item).z > (mo shield).z + (mo shield).height then .skip
        else if (mo item).z + (mo item).height < (mo shield).z then .skip
        else .bubble shield item := by
    unfold PIT_CheckThing_reflect
    simp only
    rw [if_pos]
    refine ⟨hblown, ?_⟩
    rcases hkind with h | h | h | h | h | h | h <;> simp [h]
  have h2 : PIT_CheckThing_reflect mo shield item
      = if (mo shield).z > (mo item).z + (mo item).height then .skip
        else if (mo shield).z + (mo shield).height < (mo item).z then .skip
        else .bubble shield item := by
    unfold PIT_CheckThing_reflect
    simp only
    rw [if_neg (by rw [hnb]; simp), if_pos]
    refine ⟨hblown, ?_⟩
    rcases hkind with h | h | h | h | h | h | h <;> simp [h]
  rw [h1, h2]
  by_cases c1 : (mo item).z > (mo shield).z + (mo shield).height
  · have c2 : (mo shield).z + (mo shield).height < (mo item).z := by omega
    by_cases c3 : (mo shield).z > (mo item).z + (mo item).height
    · simp [c1, c2, c3]
    · simp [c1, c2, c3]
  · have c2 : ¬ ((mo shield).z + (mo shield).height < (mo item).z) := by omega
    by_cases c3 : (mo item).z + (mo item).height < (mo shield).z
    · have c4 : (mo shield).z > (mo item).z + (mo item).height := by omega
      simp [c1, c3, c4]
    · have c4 : ¬ ((mo shield).z > (mo item).z + (mo item).height) := by omega
      simp [c1, c2, c3, c4]

/-- Claim C29 at the land mine.  The racer with a blown-up bubble shield (actor 0),
its shield (actor 2), the drop target (actor 3) and the land mine (actor 1) stand on
one floor and overlap vertically.  When the land mine is the mover the handlers are
called with the shield, the shield holder or the target first; when the shield, the
holder or the target is the mover and the land mine the other actor, no handler is
called: the second branch of each reflect tests the kind of the mover against
`MT_LANDMINE`.  An orbinaut (actor 4) is reflected both ways. -/
theorem reflect_landmine_one_way :
    PIT_CheckThing_reflect reflectActors 1 0 = .bubble 0 1 ∧
    PIT_CheckThing_reflect reflectActors 0 1 = .pass ∧
    PIT_CheckThing_reflect reflectActors 1 2 = .bubble 2 1 ∧
    PIT_CheckThing_reflect reflectActors 2 1 = .skip ∧
    PIT_CheckThing_reflect reflectActors 1 3 = .droptarget 3 1 ∧
    PIT_CheckThing_reflect reflectActors 3 1 = .skip ∧
    PIT_CheckThing_reflect reflectActors 4 0 = .bubble 0 4 ∧
    PIT_CheckThing_reflect reflectActors 0 4 = .bubble 0 4 ∧
    PIT_CheckThing_reflect reflectActors 4 3 = .droptarget 3 4 ∧
    PIT_CheckThing_reflect reflectActors 3 4 = .droptarget 3 4 := by
  decide

end RingRacers
